import Mathlib

/-!
# Verification of the teleparser Telegram-blob decoder

This file shallowly embeds the core of `teleparser/tblob.py` — a
signature-dispatched recursive binary decoder for Telegram TL blobs built on
the Python `construct` library (version pinned to 2.10.68 by `setup.py`) —
and proves properties of the embedding.

Modelling conventions:

* A byte buffer is a `List Nat` (each element a byte value); a parse state is
  the buffer together with a cursor position, mirroring `construct`'s
  `BytesIO` stream and `_io.tell()`.
* Decoded values (`construct` `Container`s, Python ints/strings/bytes/bools
  and `None`) are one inductive type `Val`.
* Fallible parsing returns `Except PErr`; the `PErr` constructors mirror the
  Python exceptions that can escape a parse (`ConstError`, `StreamError`,
  the `KeyError`/`AttributeError` raised when a `this.flags.x` context
  expression names a missing field, and the `ValueError` raised by
  unpacking a 2-tuple into three names in `parse_blob`).
* `construct` combinator semantics embedded here (from construct 2.10.68):
  `Struct` parses its subconstructs in order, sharing one growing context;
  unnamed subconstructs parse but are not stored; `Peek` parses without
  advancing and yields `None` when the stream is too short; `Switch` with no
  `default` parses nothing (`Pass`, yielding `None`) when the key matches no
  case; `Const` parses its subconstruct and fails with `ConstError` on
  mismatch; `If(cond, sub)` yields `None` when `cond` is falsy; `FlagsEnum`
  maps each declared flag name to whether all its mask bits are set;
  `Padding`/`Bytes` consume exactly their length or fail with `StreamError`;
  `GreedyBytes` consumes the rest of the buffer; `Hex` only changes display
  and is the identity on parsed values.
-/

namespace Teleparser

/-- A byte buffer: each element is one byte value (0–255). -/
abbrev Bytes := List Nat

/-- Parse state: the underlying buffer plus the cursor position, mirroring a
`construct` stream and `_io.tell()`. -/
structure PState where
  data : Bytes
  pos : Nat
  deriving Repr, DecidableEq

/-- Exceptions that can escape a parse, mirroring the Python exceptions. -/
inductive PErr where
  /-- `construct.ConstError`: a `Const` field read `actual` where `expected`
  was required. -/
  | constError (expected actual : Nat)
  /-- `construct.StreamError`: fewer bytes remain than a field needs. -/
  | streamError
  /-- Python `KeyError`/`AttributeError`: a context expression such as
  `this.flags.from_id` named a field absent from the container. -/
  | keyError (field : String)
  /-- Python `TypeError`: comparing `None` with an integer (a `Peek` that hit
  the end of stream feeding a `>=` condition). -/
  | typeError
  /-- Python `ValueError`: unpacking a 2-tuple into three names in
  `parse_blob`. -/
  | valueError
  /-- Python `AssertionError`: the `assert self._callbacks` guard of the
  `callbacks` property. -/
  | assertionError
  /-- Marker used by the interpretation of table decoders that this
  development does not embed; no theorem depends on it. -/
  | notModelled
  deriving Repr, DecidableEq

/-- A decoded value: Python `None`, int, str, bytes, bool, list, or a
`construct` `Container` (an insertion-ordered string-keyed record). -/
inductive Val where
  | vnone
  | vint (n : Nat)
  | vstr (s : String)
  | vbytes (b : Bytes)
  | vbool (b : Bool)
  | vlist (xs : List Val)
  | vrec (fields : List (String × Val))
  deriving Repr

/-- A container context: the fields decoded so far by the enclosing
`Struct`, in order. -/
abbrev Ctx := List (String × Val)

/-- Dictionary lookup in a container (field names are unique per `Struct`,
so first-match lookup agrees with Python dict lookup). -/
def ctxGet (ctx : Ctx) (key : String) : Option Val :=
  match ctx with
  | [] => none
  | (k, v) :: rest => if k = key then some v else ctxGet rest key

/-- Python truthiness of a decoded value (`if unparsed:` &c.). -/
def valTruthy : Val → Bool
  | .vnone => false
  | .vint n => n ≠ 0
  | .vstr s => s ≠ ""
  | .vbytes b => ¬b.isEmpty
  | .vbool b => b
  | .vlist xs => ¬xs.isEmpty
  | .vrec fs => ¬fs.isEmpty

/-- Python `len()` of a decoded bytes/str/list value (0 for others; only
ever applied to `GreedyBytes` results in the embedded code). -/
def valLen : Val → Nat
  | .vbytes b => b.length
  | .vstr s => s.length
  | .vlist xs => xs.length
  | .vrec fs => fs.length
  | _ => 0

/-- Take exactly `n` elements from the front of a list, or `none` if the
list is shorter. -/
def takeExact : Nat → Bytes → Option Bytes
  | 0, _ => some []
  | _ + 1, [] => none
  | n + 1, b :: rest => (takeExact n rest).map (b :: ·)

/-- Read `n` bytes at the cursor, advancing it; `none` models
`construct.StreamError`. -/
def readN (n : Nat) (st : PState) : Option (Bytes × PState) :=
  (takeExact n (st.data.drop st.pos)).map (fun bs => (bs, ⟨st.data, st.pos + n⟩))

/-- Little-endian value of a byte list (first byte least significant);
`int.from_bytes(b, "little")`. -/
def le32 (b : Bytes) : Nat :=
  match b with
  | [] => 0
  | x :: rest => x + 256 * le32 rest

/-- The 4 little-endian bytes of `n % 2^32` (used to build concrete inputs). -/
def le4 (n : Nat) : Bytes :=
  [n % 256, n / 256 % 256, n / 65536 % 256, n / 16777216 % 256]

/-- A parser for one complete construct (a `Struct` or primitive): consumes
from the state, yields a value and the advanced state. -/
abbrev ParserV := PState → Except PErr (Val × PState)

/-- A field parser inside a `Struct`: also sees the context decoded so far
(`this.…` expressions). -/
abbrev FieldP := Ctx → PState → Except PErr (Val × PState)

/-- Sequential field decoding of a `construct.Struct`: each field parses with
the context of the fields already decoded; named results are appended to the
context, unnamed results are discarded. -/
def structGo : List (Option String × FieldP) → Ctx → PState → Except PErr (Ctx × PState)
  | [], ctx, st => .ok (ctx, st)
  | (name?, fp) :: rest, ctx, st =>
    match fp ctx st with
    | .error e => .error e
    | .ok (v, st') =>
      match name? with
      | some n => structGo rest (ctx ++ [(n, v)]) st'
      | none => structGo rest ctx st'

/-- `construct.Struct`: parse the fields in order and return the container. -/
def structP (fields : List (Option String × FieldP)) : ParserV := fun st =>
  (structGo fields [] st).map (fun (ctx, st') => (Val.vrec ctx, st'))

/-- `Computed("literal")`: yields a constant string, consumes nothing. -/
def computedStrF (s : String) : FieldP := fun _ st => .ok (.vstr s, st)

/-- `Int32ul`: 4 bytes little-endian unsigned. -/
def int32ulF : FieldP := fun _ st =>
  match readN 4 st with
  | some (bs, st') => .ok (.vint (le32 bs), st')
  | none => .error .streamError

/-- `Int64ul`: 8 bytes little-endian unsigned. -/
def int64ulF : FieldP := fun _ st =>
  match readN 8 st with
  | some (bs, st') => .ok (.vint (le32 bs), st')
  | none => .error .streamError

/-- `Byte`: one byte. -/
def byteF : FieldP := fun _ st =>
  match readN 1 st with
  | some ([b], st') => .ok (.vint b, st')
  | some (_, _) => .error .streamError
  | none => .error .streamError

/-- `Peek(Byte)`: read one byte without advancing; `None` at end of stream
(`Peek` swallows `StreamError`). -/
def peekByteF : FieldP := fun _ st =>
  match readN 1 st with
  | some ([b], _) => .ok (.vint b, st)
  | some (_, _) => .ok (.vnone, st)
  | none => .ok (.vnone, st)

/-- `Peek(Int32ul)`: read 4 bytes little-endian without advancing; `None` at
end of stream. -/
def peekInt32F : FieldP := fun _ st =>
  match readN 4 st with
  | some (bs, _) => .ok (.vint (le32 bs), st)
  | none => .ok (.vnone, st)

/-- `Hex(Const(expected, Int32ul))`: read 4 bytes little-endian and fail with
`ConstError` unless the value matches (`Hex` is identity on values). -/
def constF (expected : Nat) : FieldP := fun _ st =>
  match readN 4 st with
  | some (bs, st') =>
    if le32 bs = expected then .ok (.vint (le32 bs), st')
    else .error (.constError expected (le32 bs))
  | none => .error .streamError

/-- `FlagsEnum(Int32ul, name₁=mask₁, …)`: read 4 bytes little-endian and map
each declared name to whether all its mask bits are set. -/
def flagsEnumF (masks : List (String × Nat)) : FieldP := fun _ st =>
  match readN 4 st with
  | some (bs, st') =>
    .ok (.vrec (masks.map (fun (nm, m) => (nm, .vbool (le32 bs &&& m = m)))), st')
  | none => .error .streamError

/-- `If(this.<flagsField>.<flagName>, sub)`: evaluate the gate from the
context. A missing flags field or flag name raises (Python
`KeyError`/`AttributeError`); a falsy gate yields `None` (`Pass`); a truthy
gate parses `sub`. -/
def ifFlagF (flagsField flagName : String) (sub : FieldP) : FieldP := fun ctx st =>
  match ctxGet ctx flagsField with
  | none => .error (.keyError flagsField)
  | some (.vrec fs) =>
    match ctxGet fs flagName with
    | none => .error (.keyError flagName)
    | some gate => if valTruthy gate then sub ctx st else .ok (.vnone, st)
  | some _ => .error (.keyError flagName)

/-- Embed a complete parser as a field of an enclosing `Struct` (a nested
`Struct` opens its own fresh context). -/
def fieldOf (p : ParserV) : FieldP := fun _ st => p st

/-- `Array(count, sub)` with a constant repetition count. -/
def arrayGo (sub : ParserV) : Nat → PState → Except PErr (List Val × PState)
  | 0, st => .ok ([], st)
  | n + 1, st =>
    match sub st with
    | .error e => .error e
    | .ok (v, st') =>
      match arrayGo sub n st' with
      | .error e => .error e
      | .ok (vs, st'') => .ok (v :: vs, st'')

/-- `Array(this.<countField>, sub)`: repetition count taken from the context. -/
def arrayF (countField : String) (sub : ParserV) : FieldP := fun ctx st =>
  match ctxGet ctx countField with
  | some (.vint n) => (arrayGo sub n st).map (fun (vs, st') => (.vlist vs, st'))
  | _ => .error (.keyError countField)

/-- `GreedyBytes`: consume the rest of the buffer. -/
def greedyBytesF : FieldP := fun _ st =>
  .ok (.vbytes (st.data.drop st.pos), ⟨st.data, st.data.length⟩)

/-- Is `b` a UTF-8 continuation byte (`0x80–0xBF`)? -/
def isCont (b : Nat) : Bool := 0x80 ≤ b ∧ b < 0xC0

/-- Strict UTF-8 decoding to a list of code points, per RFC 3629 as enforced
by Python's `bytes.decode("utf-8")`: rejects overlong forms, surrogates and
code points above U+10FFFF. `none` models `UnicodeDecodeError`. -/
def utf8Decode : Bytes → Option (List Nat)
  | [] => some []
  | b :: rest =>
    if b < 0x80 then (utf8Decode rest).map (b :: ·)
    else if b < 0xC2 then none
    else if b < 0xE0 then
      match rest with
      | c :: r =>
        if isCont c then (utf8Decode r).map (((b - 0xC0) * 64 + (c - 0x80)) :: ·)
        else none
      | [] => none
    else if b < 0xF0 then
      match rest with
      | c1 :: c2 :: r =>
        if (if b = 0xE0 then 0xA0 ≤ c1 ∧ c1 < 0xC0
            else if b = 0xED then 0x80 ≤ c1 ∧ c1 < 0xA0
            else isCont c1) ∧ isCont c2 then
          (utf8Decode r).map (((b - 0xE0) * 4096 + (c1 - 0x80) * 64 + (c2 - 0x80)) :: ·)
        else none
      | _ => none
    else if b ≤ 0xF4 then
      match rest with
      | c1 :: c2 :: c3 :: r =>
        if (if b = 0xF0 then 0x90 ≤ c1 ∧ c1 < 0xC0
            else if b = 0xF4 then 0x80 ≤ c1 ∧ c1 < 0x90
            else isCont c1) ∧ isCont c2 ∧ isCont c3 then
          (utf8Decode r).map
            (((b - 0xF0) * 262144 + (c1 - 0x80) * 4096 + (c2 - 0x80) * 64 + (c3 - 0x80)) :: ·)
        else none
      | _ => none
    else none

/-- Whether a byte sequence is valid UTF-8 (whether
`bytes.decode("utf-8")` succeeds). -/
def utf8Valid (b : Bytes) : Bool := (utf8Decode b).isSome

/-- Diagnostics recorded through the `logger` module. -/
inductive Diag where
  /-- `logger.error("unable to decode string: %s", binarray)` from
  `decode_tstring`. -/
  | stringDecodeWarning (raw : Bytes)
  /-- `logger.warning("Object: %s [0x%x] contains unparsed data …")` from
  `parse_blob`. -/
  | unparsedWarning (name : String) (signature : Nat) (len : Nat)
  /-- `logger.error("Not all data parsed for object: %s [0x%x], input: %d,
  parsed: %d, missed: %s")` from `parse_blob`. -/
  | trailingError (name : String) (signature : Nat) (input parsed : Nat) (missed : Bytes)
  /-- `logger.warning("blob '%s' [%s] not supported")` from `parse_blob`. -/
  | unsupportedWarning (name : String) (signature : Nat)
  /-- `logger.error("unknown signature %s")` from `parse_blob`. -/
  | unknownSigError (signature : Nat)
  deriving Repr, DecidableEq

/-- The module-level `decode_tstring` function: decode the raw bytes as
UTF-8; on `UnicodeDecodeError`, log an error and keep the raw bytes. Returns
the resulting value together with the diagnostics emitted. -/
def decode_tstring (binarray : Bytes) : Val × List Diag :=
  match utf8Decode binarray with
  | some cps => (.vstr (String.mk (cps.map Char.ofNat)), [])
  | none => (.vbytes binarray, [.stringDecodeWarning binarray])

/-- `IfThenElse(this._check >= 254, thenF, elseF)`: branch on the peeked
byte stored in the context. A `None` peek feeding `>=` raises `TypeError`
(Python 3 forbids `None >= int`). -/
def ifCheckGe254F (checkField : String) (thenF elseF : FieldP) : FieldP := fun ctx st =>
  match ctxGet ctx checkField with
  | some (.vint n) => if 254 ≤ n then thenF ctx st else elseF ctx st
  | _ => .error .typeError

/-- `Computed(this.<src> >> 8)`: the stored 4-byte length with its low byte
dropped (long-form TL string length). -/
def computedShr8F (src : String) : FieldP := fun ctx st =>
  match ctxGet ctx src with
  | some (.vint n) => .ok (.vint (n >>> 8), st)
  | _ => .error (.keyError src)

/-- `Computed(this.<src>)`: copy an already-decoded field. -/
def computedCopyF (src : String) : FieldP := fun ctx st =>
  match ctxGet ctx src with
  | some v => .ok (v, st)
  | none => .error (.keyError src)

/-- `Bytes(this.<lenField>)`: read as many raw bytes as an earlier field
prescribes. -/
def bytesLenF (lenField : String) : FieldP := fun ctx st =>
  match ctxGet ctx lenField with
  | some (.vint n) =>
    match readN n st with
    | some (bs, st') => .ok (.vbytes bs, st')
    | none => .error .streamError
  | _ => .error (.keyError lenField)

/-- `Computed(lambda x: decode_tstring(x._value))`. -/
def decodeTstringF : FieldP := fun ctx st =>
  match ctxGet ctx "_value" with
  | some (.vbytes b) => .ok ((decode_tstring b).1, st)
  | _ => .error (.keyError "_value")

/-- `Padding(n)`: consume `n` bytes. -/
def skipN (n : Nat) (st : PState) : Except PErr (Val × PState) :=
  match readN n st with
  | some (_, st') => .ok (.vnone, st')
  | none => .error .streamError

/-- The unnamed alignment field of `tstring_struct`/`tbytes_struct`:
`IfThenElse(this._check >= 254, If(len % 4, Padding(4 - len % 4)),
If((len+1) % 4, Padding(4 - (len+1) % 4)))`. -/
def tstringPadF (lenField : String) : FieldP := fun ctx st =>
  match ctxGet ctx "_check" with
  | some (.vint c) =>
    match ctxGet ctx lenField with
    | some (.vint n) =>
      if 254 ≤ c then
        if n % 4 ≠ 0 then skipN (4 - n % 4) st else .ok (.vnone, st)
      else
        if (n + 1) % 4 ≠ 0 then skipN (4 - (n + 1) % 4) st else .ok (.vnone, st)
    | _ => .error (.keyError lenField)
  | _ => .error .typeError

/-- The field list of `tblob.tstring_struct`. -/
def tstringFields : List (Option String × FieldP) :=
  [(some "_sname", computedStrF "tstring"),
   (some "_check", peekByteF),
   (some "_pl", ifCheckGe254F "_check" int32ulF byteF),
   (some "_len", ifCheckGe254F "_check" (computedShr8F "_pl") (computedCopyF "_pl")),
   (some "_value", bytesLenF "_len"),
   (some "string", decodeTstringF),
   (none, tstringPadF "_len")]

/-- `tblob.tstring_struct`: the TL string codec — a 1-byte (short form,
peek < 254) or 4-byte (long form, value shifted right by 8) length prefix,
the raw bytes, then alignment padding to a multiple of 4. -/
def tstring_struct : ParserV := structP tstringFields

/-- The field list of `tblob.tbytes_struct` (same length/padding rule as
`tstring_struct`, value kept as raw bytes, no UTF-8 decoding). -/
def tbytesFields : List (Option String × FieldP) :=
  [(some "_sname", computedStrF "tbytes"),
   (some "_check", peekByteF),
   (some "_pl", ifCheckGe254F "_check" int32ulF byteF),
   (some "len", ifCheckGe254F "_check" (computedShr8F "_pl") (computedCopyF "_pl")),
   (some "bytes", bytesLenF "len"),
   (none, tstringPadF "len")]

/-- `tblob.tbytes_struct`: the TL bytes codec. -/
def tbytes_struct : ParserV := structP tbytesFields

/-- `tblob.tbool_struct`: boolean-by-signature; `0xBC799737` ⇒ "false",
`0x997275B5` ⇒ "true", anything else ⇒ the "ERROR" sentinel (never raises). -/
def tbool_struct : ParserV := structP
  [(some "sname", computedStrF "boolean"),
   (some "_signature", int32ulF),
   (some "value", fun ctx st =>
      match ctxGet ctx "_signature" with
      | some (.vint n) =>
        if n = 0xBC799737 then .ok (.vstr "false", st)
        else if n = 0x997275B5 then .ok (.vstr "true", st)
        else .ok (.vstr "ERROR", st)
      | _ => .error (.keyError "_signature"))]

/-- Zero-pad the decimal representation of `n` to `w` digits. -/
def padNum (w n : Nat) : String :=
  let s := toString n
  String.mk (List.replicate (w - s.length) '0') ++ s

/-- Civil date from days since 1970-01-01 (proleptic Gregorian), the
standard era-based algorithm; returns (year, month, day). -/
def civilFromDays (z : Nat) : Nat × Nat × Nat :=
  let z' := z + 719468
  let era := z' / 146097
  let doe := z' % 146097
  let yoe := (doe - doe / 1460 + doe / 36524 - doe / 146096) / 365
  let y := yoe + era * 400
  let doy := doe - (365 * yoe + yoe / 4 - yoe / 100)
  let mp := (5 * doy + 2) / 153
  let d := doy - (153 * mp + 2) / 5 + 1
  let m := if mp < 10 then mp + 3 else mp - 9
  (if m ≤ 2 then y + 1 else y, m, d)

/-- `datetime.datetime.utcfromtimestamp(epoch).isoformat()` for a
non-negative epoch with no fractional seconds. -/
def isoFromEpoch (epoch : Nat) : String :=
  let days := epoch / 86400
  let secs := epoch % 86400
  let (y, m, d) := civilFromDays days
  padNum 4 y ++ "-" ++ padNum 2 m ++ "-" ++ padNum 2 d ++ "T" ++
    padNum 2 (secs / 3600) ++ ":" ++ padNum 2 (secs % 3600 / 60) ++ ":" ++
    padNum 2 (secs % 60)

/-- `tblob.ttimestamp_struct`: a UInt32LE Unix epoch paired with its
ISO-8601 rendering computed at decode time. -/
def ttimestamp_struct : ParserV := structP
  [(some "epoch", int32ulF),
   (some "date", fun ctx st =>
      match ctxGet ctx "epoch" with
      | some (.vint n) => .ok (.vstr (isoFromEpoch n), st)
      | _ => .error (.keyError "epoch"))]

/-- `Switch(this._signature, tag_map)` with no `default`: run the case whose
key equals the peeked signature; when the key matches no case (including a
`None` peek), parse nothing and yield `None` (`construct`'s `Pass` default —
construct 2.10.68 raises no error for a missing case). -/
def switchSigF (cases : List (Nat × ParserV)) : FieldP := fun ctx st =>
  match ctxGet ctx "_signature" with
  | some (.vint n) =>
    match cases.lookup n with
    | some p => p st
    | none => .ok (.vnone, st)
  | _ => .ok (.vnone, st)

/-- The common body of every `*_structures` slot method:
`Struct("_signature" / Peek(Int32ul), name / Switch(this._signature,
tag_map))`. -/
def slotStructP (name : String) (cases : List (Nat × ParserV)) : ParserV :=
  structP [(some "_signature", peekInt32F), (some name, switchSigF cases)]

/-- `If(this.<flags>.<flag>, <nested slot>)` — gate a whole nested parser. -/
def ifFlagP (flagsField flagName : String) (p : ParserV) : FieldP :=
  ifFlagF flagsField flagName (fieldOf p)

/-- `tblob.file_location_struct` (signature `0x53D69076`). -/
def file_location_struct : ParserV := structP
  [(some "sname", computedStrF "file_location"),
   (some "signature", constF 0x53D69076),
   (some "dc_id", int32ulF),
   (some "volume_id", int64ulF),
   (some "local_id", int32ulF),
   (some "secret", int64ulF)]

/-- `tblob.file_encrypted_location_struct` (signature `0x55555554`). -/
def file_encrypted_location_struct : ParserV := structP
  [(some "sname", computedStrF "file_encrypted_location"),
   (some "signature", constF 0x55555554),
   (some "dc_id", int32ulF),
   (some "volume_id", int64ulF),
   (some "local_id", int32ulF),
   (some "secret", int64ulF),
   (some "key", fieldOf tbytes_struct),
   (some "iv", fieldOf tbytes_struct)]

/-- `tblob.file_location_unavailable_struct` (signature `0x7C596B46`). -/
def file_location_unavailable_struct : ParserV := structP
  [(some "sname", computedStrF "file_location_unavailable"),
   (some "signature", constF 0x7C596B46),
   (some "volume_id", int64ulF),
   (some "local_id", int32ulF),
   (some "secret", int64ulF)]

/-- `tblob.file_location_layer82_struct` (signature `0x53D69076`). -/
def file_location_layer82_struct : ParserV := structP
  [(some "sname", computedStrF "file_location"),
   (some "signature", constF 0x53D69076),
   (some "dc_id", int32ulF),
   (some "volume_id", int64ulF),
   (some "local_id", int32ulF),
   (some "secret", int64ulF)]

/-- `tblob.file_location_layer97_struct` (signature `0x091D11EB`). -/
def file_location_layer97_struct : ParserV := structP
  [(some "sname", computedStrF "file_location_layer97"),
   (some "signature", constF 0x091D11EB),
   (some "dc_id", int32ulF),
   (some "volume_id", int64ulF),
   (some "local_id", int32ulF),
   (some "secret", int64ulF),
   (some "file_reference", fieldOf tbytes_struct)]

/-- `tblob.file_location_to_be_deprecated_struct` (signature `0xBC7FC6CD`). -/
def file_location_to_be_deprecated_struct : ParserV := structP
  [(some "sname", computedStrF "file_location_to_be_deprecated"),
   (some "signature", constF 0xBC7FC6CD),
   (some "volume_id", int64ulF),
   (some "local_id", int32ulF)]

/-- `tblob.file_location_structures`: the file-location slot dispatch. -/
def file_location_structures (name : String) : ParserV :=
  slotStructP name
    [(0xBC7FC6CD, file_location_to_be_deprecated_struct),
     (0x091D11EB, file_location_layer97_struct),
     (0x53D69076, file_location_layer82_struct),
     (0x55555554, file_encrypted_location_struct),
     (0x7C596B46, file_location_unavailable_struct)]

/-- `tblob.user_profile_photo_empty_struct` (signature `0x4F11BAE1`). -/
def user_profile_photo_empty_struct : ParserV := structP
  [(some "sname", computedStrF "user_profile_photo_empty"),
   (some "signature", constF 0x4F11BAE1)]

/-- `tblob.user_profile_photo_layer97_struct` (signature `0xD559D8C8`). -/
def user_profile_photo_layer97_struct : ParserV := structP
  [(some "sname", computedStrF "user_profile_photo_layer97"),
   (some "signature", constF 0xD559D8C8),
   (some "photo_id", int64ulF),
   (some "photo_small", fieldOf (file_location_structures "photo_small")),
   (some "photo_big", fieldOf (file_location_structures "photo_big"))]

/-- `tblob.user_profile_photo_old_struct` (signature `0x990D1493`). -/
def user_profile_photo_old_struct : ParserV := structP
  [(some "sname", computedStrF "user_profile_photo_old"),
   (some "signature", constF 0x990D1493),
   (some "photo_small", fieldOf (file_location_structures "photo_small")),
   (some "photo_big", fieldOf (file_location_structures "photo_big"))]

/-- `tblob.user_profile_photo_layer115_struct` (signature `0xECD75D8C`). -/
def user_profile_photo_layer115_struct : ParserV := structP
  [(some "sname", computedStrF "user_profile_photo_layer115"),
   (some "signature", constF 0xECD75D8C),
   (some "photo_id", int64ulF),
   (some "photo_small", fieldOf (file_location_structures "photo_small")),
   (some "photo_big", fieldOf (file_location_structures "photo_big")),
   (some "dc_id", int32ulF)]

/-- `tblob.user_profile_photo_struct` (signature `0x69D3AB26`). -/
def user_profile_photo_struct : ParserV := structP
  [(some "sname", computedStrF "user_profile_photo"),
   (some "signature", constF 0x69D3AB26),
   (some "flags", flagsEnumF [("has_video", 1)]),
   (some "photo_id", int64ulF),
   (some "photo_small", fieldOf (file_location_structures "photo_small")),
   (some "photo_big", fieldOf (file_location_structures "photo_big")),
   (some "dc_id", int32ulF)]

/-- `tblob.user_profile_photo_structures`: the user-profile-photo slot
dispatch. -/
def user_profile_photo_structures (name : String) : ParserV :=
  slotStructP name
    [(0x69D3AB26, user_profile_photo_struct),
     (0xECD75D8C, user_profile_photo_layer115_struct),
     (0xD559D8C8, user_profile_photo_layer97_struct),
     (0x4F11BAE1, user_profile_photo_empty_struct),
     (0x990D1493, user_profile_photo_old_struct)]

/-- `tblob.user_status_recently_struct` (signature `0xE26F42F1`). -/
def user_status_recently_struct : ParserV := structP
  [(some "sname", computedStrF "user_status_recently"),
   (some "signature", constF 0xE26F42F1)]

/-- `tblob.user_status_online_struct` (signature `0xEDB93949`). -/
def user_status_online_struct : ParserV := structP
  [(some "sname", computedStrF "user_status_online"),
   (some "signature", constF 0xEDB93949),
   (some "expires", int32ulF)]

/-- `tblob.user_status_offline_struct` (signature `0x008C703F`). -/
def user_status_offline_struct : ParserV := structP
  [(some "sname", computedStrF "user_status_offline"),
   (some "signature", constF 0x008C703F),
   (some "expires", int32ulF)]

/-- `tblob.user_status_last_week_struct` (signature `0x07BF09FC`). -/
def user_status_last_week_struct : ParserV := structP
  [(some "sname", computedStrF "user_status_last_week"),
   (some "signature", constF 0x07BF09FC)]

/-- `tblob.user_status_last_month_struct` (signature `0x77EBC742`). -/
def user_status_last_month_struct : ParserV := structP
  [(some "sname", computedStrF "user_status_last_month"),
   (some "signature", constF 0x77EBC742)]

/-- `tblob.user_status_empty_struct` (signature `0x09D05049`). -/
def user_status_empty_struct : ParserV := structP
  [(some "sname", computedStrF "user_status_empty"),
   (some "signature", constF 0x09D05049)]

/-- `tblob.user_status_structures`: the user-status slot dispatch. -/
def user_status_structures (name : String) : ParserV :=
  slotStructP name
    [(0xE26F42F1, user_status_recently_struct),
     (0xEDB93949, user_status_online_struct),
     (0x008C703F, user_status_offline_struct),
     (0x07BF09FC, user_status_last_week_struct),
     (0x09D05049, user_status_empty_struct),
     (0x77EBC742, user_status_last_month_struct)]

/-- `tblob.restriction_reason_struct` (signature `0xD072ACB4`). -/
def restriction_reason_struct : ParserV := structP
  [(some "sname", computedStrF "restriction_reason"),
   (some "signature", constF 0xD072ACB4),
   (some "platform", fieldOf tstring_struct),
   (some "reason", fieldOf tstring_struct),
   (some "text", fieldOf tstring_struct)]

/-- The flag table of `tblob.user_struct`'s `FlagsEnum`. -/
def userStructFlags : List (String × Nat) :=
  [("has_access_hash", 1), ("has_first_name", 2), ("has_last_name", 4),
   ("has_username", 8), ("has_phone", 16), ("has_profile_photo", 32),
   ("has_status", 64), ("is_self", 1024), ("is_contact", 2048),
   ("is_mutual_contact", 4096), ("is_deleted", 8192), ("is_bot", 16384),
   ("is_bot_chat_history", 32768), ("is_bot_no_chats", 65536),
   ("is_min", 1048576), ("is_verified", 131072),
   ("is_bot_inline_geo", 2097152), ("is_restricted", 262144),
   ("is_support", 8388608)]

/-- `tblob.user_struct` (signature `0x938458C1`): the current-layer user
schema, with flag-gated optional fields and a flag-gated restrictions
vector. -/
def user_struct : ParserV := structP
  [(some "sname", computedStrF "user_struct"),
   (some "signature", constF 0x938458C1),
   (some "flags", flagsEnumF userStructFlags),
   (some "id", int32ulF),
   (some "access_hash", ifFlagF "flags" "has_access_hash" int64ulF),
   (some "first_name", ifFlagP "flags" "has_first_name" tstring_struct),
   (some "last_name", ifFlagP "flags" "has_last_name" tstring_struct),
   (some "username", ifFlagP "flags" "has_username" tstring_struct),
   (some "phone", ifFlagP "flags" "has_phone" tstring_struct),
   (some "photo", ifFlagP "flags" "has_profile_photo" (user_profile_photo_structures "photo")),
   (some "status", ifFlagP "flags" "has_status" (user_status_structures "status")),
   (some "bot_info_version", ifFlagF "flags" "is_bot" int32ulF),
   (some "restrictions", ifFlagP "flags" "is_restricted" (structP
      [(some "_vector_sig", constF 0x1CB5C415),
       (some "restrictions_num", int32ulF),
       (some "restrictions_array", arrayF "restrictions_num" restriction_reason_struct)]))]

/-- The flag table of `tblob.user_layer104_struct`'s `FlagsEnum`. -/
def userLayer104Flags : List (String × Nat) :=
  [("has_access_hash", 1), ("has_first_name", 2), ("has_last_name", 4),
   ("has_username", 8), ("has_phone", 16), ("has_profile_photo", 32),
   ("has_status", 64), ("is_self", 1024), ("is_contact", 2048),
   ("is_mutual_contact", 4096), ("is_deleted", 8192), ("is_bot", 16384),
   ("is_bot_chat_history", 32768), ("is_bot_no_chats", 65536),
   ("is_verified", 131072), ("is_restricted", 262144),
   ("has_lang_code", 4194304), ("has_bot_inline_placeholder", 524288),
   ("has_min", 1048576), ("is_bot_inline_geo", 2097152),
   ("is_support", 8388608)]

/-- `tblob.user_layer104_struct` (signature `0x2E13F4C3`). -/
def user_layer104_struct : ParserV := structP
  [(some "sname", computedStrF "user_layer104"),
   (some "signature", constF 0x2E13F4C3),
   (some "flags", flagsEnumF userLayer104Flags),
   (some "id", int32ulF),
   (some "access_hash", ifFlagF "flags" "has_access_hash" int64ulF),
   (some "first_name", ifFlagP "flags" "has_first_name" tstring_struct),
   (some "last_name", ifFlagP "flags" "has_last_name" tstring_struct),
   (some "username", ifFlagP "flags" "has_username" tstring_struct),
   (some "phone", ifFlagP "flags" "has_phone" tstring_struct),
   (some "photo", ifFlagP "flags" "has_profile_photo" (user_profile_photo_structures "photo")),
   (some "status", ifFlagP "flags" "has_status" (user_status_structures "status")),
   (some "bot_info_version", ifFlagF "flags" "is_bot" int32ulF),
   (some "restriction_reason", ifFlagP "flags" "is_restricted" tstring_struct),
   (some "bot_inline_placeholder", ifFlagP "flags" "has_bot_inline_placeholder" tstring_struct),
   (some "lang_code", ifFlagP "flags" "has_lang_code" tstring_struct)]

/-- `tblob.user_deleted_old_struct` (signature `0xB29AD7CC`). -/
def user_deleted_old_struct : ParserV := structP
  [(some "sname", computedStrF "user_deleted_old"),
   (some "signature", constF 0xB29AD7CC),
   (some "id", int32ulF),
   (some "first_name", fieldOf tstring_struct),
   (some "last_name", fieldOf tstring_struct)]

/-- `tblob.user_deleted_old2_struct` (signature `0xD6016D7A`). -/
def user_deleted_old2_struct : ParserV := structP
  [(some "sname", computedStrF "user_deleted_old2"),
   (some "signature", constF 0xD6016D7A),
   (some "id", int32ulF),
   (some "first_name", fieldOf tstring_struct),
   (some "last_name", fieldOf tstring_struct),
   (some "username", fieldOf tstring_struct)]

/-- `tblob.user_contact_old2_struct` (signature `0xCAB35E18`). -/
def user_contact_old2_struct : ParserV := structP
  [(some "sname", computedStrF "user_contact_old2"),
   (some "signature", constF 0xCAB35E18),
   (some "id", int32ulF),
   (some "first_name", fieldOf tstring_struct),
   (some "last_name", fieldOf tstring_struct),
   (some "username", fieldOf tstring_struct),
   (some "access_hash", int64ulF),
   (some "phone", fieldOf tstring_struct),
   (some "photo", fieldOf (user_profile_photo_structures "photo")),
   (some "status", fieldOf (user_status_structures "status"))]

/-- The flag table of `tblob.user_layer65_struct`'s `FlagsEnum`. -/
def userLayer65Flags : List (String × Nat) :=
  [("has_access_hash", 1), ("has_first_name", 2), ("has_last_name", 4),
   ("has_username", 8), ("has_phone", 16), ("has_profile_photo", 32),
   ("has_status", 64), ("is_self", 1024), ("is_contact", 2048),
   ("is_mutual_contact", 4096), ("is_deleted", 8192), ("is_bot", 16384),
   ("is_bot_chat_history", 32768), ("is_bot_no_chats", 65536),
   ("is_verified", 131072), ("is_restricted", 262144),
   ("has_bot_inline_placeholder", 524288), ("has_min", 1048576),
   ("is_bot_inline_geo", 2097152)]

/-- `tblob.user_layer65_struct` (signature `0xD10D979A`). -/
def user_layer65_struct : ParserV := structP
  [(some "sname", computedStrF "user_layer65"),
   (some "signature", constF 0xD10D979A),
   (some "flags", flagsEnumF userLayer65Flags),
   (some "id", int32ulF),
   (some "access_hash", ifFlagF "flags" "has_access_hash" int64ulF),
   (some "first_name", ifFlagP "flags" "has_first_name" tstring_struct),
   (some "last_name", ifFlagP "flags" "has_last_name" tstring_struct),
   (some "username", ifFlagP "flags" "has_username" tstring_struct),
   (some "phone", ifFlagP "flags" "has_phone" tstring_struct),
   (some "photo", ifFlagP "flags" "has_profile_photo" (user_profile_photo_structures "photo")),
   (some "status", ifFlagP "flags" "has_status" (user_status_structures "status")),
   (some "bot_info_version", ifFlagF "flags" "is_bot" int32ulF),
   (some "restriction_reason", ifFlagP "flags" "is_restricted" tstring_struct),
   (some "bot_inline_placeholder", ifFlagP "flags" "has_bot_inline_placeholder" tstring_struct)]

/-- `tblob.user_request_old2_struct` (signature `0xD9CCC4EF`). -/
def user_request_old2_struct : ParserV := structP
  [(some "sname", computedStrF "user_request_old2"),
   (some "signature", constF 0xD9CCC4EF),
   (some "id", int32ulF),
   (some "first_name", fieldOf tstring_struct),
   (some "last_name", fieldOf tstring_struct),
   (some "username", fieldOf tstring_struct),
   (some "access_hash", int64ulF),
   (some "phone", fieldOf tstring_struct),
   (some "photo", fieldOf (user_profile_photo_structures "photo")),
   (some "status", fieldOf (user_status_structures "status"))]

/-- `tblob.user_contact_old_struct` (signature `0xF2FB8319`). -/
def user_contact_old_struct : ParserV := structP
  [(some "sname", computedStrF "user_contact_old"),
   (some "signature", constF 0xF2FB8319),
   (some "id", int32ulF),
   (some "first_name", fieldOf tstring_struct),
   (some "last_name", fieldOf tstring_struct),
   (some "access_hash", int64ulF),
   (some "phone", fieldOf tstring_struct),
   (some "photo", fieldOf (user_profile_photo_structures "photo")),
   (some "status", fieldOf (user_status_structures "status"))]

/-- `tblob.user_foreign_old2_struct` (signature `0x075CF7A8`). -/
def user_foreign_old2_struct : ParserV := structP
  [(some "sname", computedStrF "user_foreign_old2"),
   (some "signature", constF 0x075CF7A8),
   (some "id", int32ulF),
   (some "first_name", fieldOf tstring_struct),
   (some "last_name", fieldOf tstring_struct),
   (some "username", fieldOf tstring_struct),
   (some "access_hash", int64ulF),
   (some "photo", fieldOf (user_profile_photo_structures "photo")),
   (some "status", fieldOf (user_status_structures "status"))]

/-- `tblob.user_self_old3_struct` (signature `0x1C60E608`). -/
def user_self_old3_struct : ParserV := structP
  [(some "sname", computedStrF "user_self_old3"),
   (some "signature", constF 0x1C60E608),
   (some "id", int32ulF),
   (some "first_name", fieldOf tstring_struct),
   (some "last_name", fieldOf tstring_struct),
   (some "username", fieldOf tstring_struct),
   (some "phone", fieldOf tstring_struct),
   (some "photo", fieldOf (user_profile_photo_structures "photo")),
   (some "status", fieldOf (user_status_structures "status"))]

/-- `tblob.user_empty_struct` (signature `0x200250BA`). -/
def user_empty_struct : ParserV := structP
  [(some "sname", computedStrF "user_empty"),
   (some "signature", constF 0x200250BA),
   (some "id", int32ulF)]

/-- The flag table of `tblob.user_old_struct`'s `FlagsEnum`. -/
def userOldFlags : List (String × Nat) :=
  [("has_access_hash", 1), ("has_first_name", 2), ("has_last_name", 4),
   ("has_username", 8), ("has_phone", 16), ("has_profile_photo", 32),
   ("has_status", 64), ("is_self", 1024), ("is_contact", 2048),
   ("is_mutual_contact", 4096), ("is_deleted", 8192), ("is_bot", 16384),
   ("is_bot_chat_history", 32768), ("is_bot_no_chats", 65536),
   ("is_verified", 131072), ("is_explicit_content", 262144)]

/-- `tblob.user_old_struct` (signature `0x22E49072`). -/
def user_old_struct : ParserV := structP
  [(some "sname", computedStrF "user_old"),
   (some "signature", constF 0x22E49072),
   (some "flags", flagsEnumF userOldFlags),
   (some "id", int32ulF),
   (some "access_hash", ifFlagF "flags" "has_access_hash" int64ulF),
   (some "first_name", ifFlagP "flags" "has_first_name" tstring_struct),
   (some "last_name", ifFlagP "flags" "has_last_name" tstring_struct),
   (some "username", ifFlagP "flags" "has_username" tstring_struct),
   (some "phone", ifFlagP "flags" "has_phone" tstring_struct),
   (some "photo", ifFlagP "flags" "has_profile_photo" (user_profile_photo_structures "photo")),
   (some "status", ifFlagP "flags" "has_status" (user_status_structures "status")),
   (some "bot_info_version", ifFlagF "flags" "is_bot" int32ulF)]

/-- `tblob.user_request_old_struct` (signature `0x22E8CEB0`). -/
def user_request_old_struct : ParserV := structP
  [(some "sname", computedStrF "user_request_old"),
   (some "signature", constF 0x22E8CEB0),
   (some "id", int32ulF),
   (some "first_name", fieldOf tstring_struct),
   (some "last_name", fieldOf tstring_struct),
   (some "access_hash", int64ulF),
   (some "phone", fieldOf tstring_struct),
   (some "photo", fieldOf (user_profile_photo_structures "photo")),
   (some "status", fieldOf (user_status_structures "status"))]

/-- `tblob.user_foreign_old_struct` (signature `0x5214C89D`). -/
def user_foreign_old_struct : ParserV := structP
  [(some "sname", computedStrF "user_foreign_old"),
   (some "signature", constF 0x5214C89D),
   (some "id", int32ulF),
   (some "first_name", fieldOf tstring_struct),
   (some "last_name", fieldOf tstring_struct),
   (some "access_hash", int64ulF),
   (some "photo", fieldOf (user_profile_photo_structures "photo")),
   (some "status", fieldOf (user_status_structures "status"))]

/-- `tblob.user_self_old2_struct` (signature `0x7007B451`). -/
def user_self_old2_struct : ParserV := structP
  [(some "sname", computedStrF "user_self_old2"),
   (some "signature", constF 0x7007B451),
   (some "id", int32ulF),
   (some "first_name", fieldOf tstring_struct),
   (some "last_name", fieldOf tstring_struct),
   (some "username", fieldOf tstring_struct),
   (some "phone", fieldOf tstring_struct),
   (some "photo", fieldOf (user_profile_photo_structures "photo")),
   (some "status", fieldOf (user_status_structures "status")),
   (some "inactive", fieldOf tbool_struct)]

/-- `tblob.user_self_old_struct` (signature `0x720535EC`). -/
def user_self_old_struct : ParserV := structP
  [(some "sname", computedStrF "user_self_old"),
   (some "signature", constF 0x720535EC),
   (some "id", int32ulF),
   (some "first_name", fieldOf tstring_struct),
   (some "last_name", fieldOf tstring_struct),
   (some "phone", fieldOf tstring_struct),
   (some "photo", fieldOf (user_profile_photo_structures "photo")),
   (some "status", fieldOf (user_status_structures "status")),
   (some "inactive", fieldOf tbool_struct)]

/-- The dispatch map of `tblob.user_structures`. -/
def userTagMap : List (Nat × ParserV) :=
  [(0x938458C1, user_struct),
   (0x2E13F4C3, user_layer104_struct),
   (0xB29AD7CC, user_deleted_old_struct),
   (0xCAB35E18, user_contact_old2_struct),
   (0xD10D979A, user_layer65_struct),
   (0xD6016D7A, user_deleted_old2_struct),
   (0xD9CCC4EF, user_request_old2_struct),
   (0xF2FB8319, user_contact_old_struct),
   (0x075CF7A8, user_foreign_old2_struct),
   (0x1C60E608, user_self_old3_struct),
   (0x200250BA, user_empty_struct),
   (0x22E49072, user_old_struct),
   (0x22E8CEB0, user_request_old_struct),
   (0x5214C89D, user_foreign_old_struct),
   (0x7007B451, user_self_old2_struct),
   (0x720535EC, user_self_old_struct)]

/-- `tblob.user_structures`: the user slot — peek the signature, dispatch
through the tag map. -/
def user_structures (name : String) : ParserV := slotStructP name userTagMap

/-- `tblob.peer_channel_struct` (signature `0xBDDDE532`). -/
def peer_channel_struct : ParserV := structP
  [(some "sname", computedStrF "peer_channel"),
   (some "signature", constF 0xBDDDE532),
   (some "channel_id", int32ulF)]

/-- `tblob.peer_chat_struct` (signature `0xBAD0E5BB`). -/
def peer_chat_struct : ParserV := structP
  [(some "sname", computedStrF "peer_chat"),
   (some "signature", constF 0xBAD0E5BB),
   (some "chat_id", int32ulF)]

/-- `tblob.peer_user_struct` (signature `0x9DB1BC6D`). -/
def peer_user_struct : ParserV := structP
  [(some "sname", computedStrF "peer_user"),
   (some "signature", constF 0x9DB1BC6D),
   (some "user_id", int32ulF)]

/-- `tblob.peer_structures`: the peer slot dispatch. -/
def peer_structures (name : String) : ParserV :=
  slotStructP name
    [(0xBDDDE532, peer_channel_struct),
     (0xBAD0E5BB, peer_chat_struct),
     (0x9DB1BC6D, peer_user_struct)]

/-- `tblob.chat_empty_struct` (signature `0x9BA2D800`): an id plus a
computed literal `title = "DELETED"`. -/
def chat_empty_struct : ParserV := structP
  [(some "sname", computedStrF "chat_empty"),
   (some "signature", constF 0x9BA2D800),
   (some "id", int32ulF),
   (some "title", computedStrF "DELETED")]

/-- `tblob.bot_command_struct` (signature `0xC27AC8C7`). -/
def bot_command_struct : ParserV := structP
  [(some "sname", computedStrF "bot_command"),
   (some "signature", constF 0xC27AC8C7),
   (some "command", fieldOf tstring_struct),
   (some "description", fieldOf tstring_struct)]

/-- The fields of `tblob.bot_info_struct` before its vector. -/
def botInfoFieldsA : List (Option String × FieldP) :=
  [(some "sname", computedStrF "bot_info"),
   (some "signature", constF 0x98E81D3A),
   (some "user_id", int32ulF),
   (some "description", fieldOf tstring_struct)]

/-- The vector tail of `tblob.bot_info_struct`: the `0x1CB5C415` marker
`Const`, the element count, and the element array. -/
def botInfoFieldsB : List (Option String × FieldP) :=
  [(some "_vector_sig", constF 0x1CB5C415),
   (some "bot_commands_num", int32ulF),
   (some "bot_commands_array", arrayF "bot_commands_num" bot_command_struct)]

/-- `tblob.bot_info_struct` (signature `0x98E81D3A`): header fields followed
by a marker-checked, count-prefixed vector of `bot_command`. -/
def bot_info_struct : ParserV := structP (botInfoFieldsA ++ botInfoFieldsB)

/-- The flag table of `tblob.message_layer104_2_struct`'s `FlagsEnum`.
Note: it declares neither `from_id` nor `is_edited`, although the struct's
optional fields are gated on `this.flags.from_id` and
`this.flags.is_edited`. -/
def messageLayer104_2Flags : List (String × Nat) :=
  [("out", 2), ("forwarded", 4), ("reply_to_msg_id", 8), ("mentioned", 16),
   ("media_unread", 32), ("reply_markup", 64), ("entities", 128),
   ("media", 512), ("views", 1024), ("via_bot", 2048), ("silent", 8192),
   ("post", 16384), ("edited", 32768), ("author", 65536),
   ("grouped_id", 131072), ("from_scheduled", 262144), ("legacy", 524288),
   ("reactions", 1048576), ("edit_hide", 2097152), ("restricted", 4194304)]

/-- `tblob.message_layer104_2_struct` (signature `0x1C9B1027`).

The nested semantic slots the source reaches through `self`
(`peer_structures`, `message_fwd_header_structures`,
`message_media_structures`, `reply_markup_structures`,
`message_entity_structures`, `message_reactions_struct`) are passed as
parameters, mirroring each `self.…` call site; theorems about this schema
hold for every interpretation of those slots. -/
def message_layer104_2_struct
    (peerP fwdP mediaP replyMarkupP entityP reactionsP : ParserV) : ParserV := structP
  [(some "sname", computedStrF "message_layer104_2"),
   (some "signature", constF 0x1C9B1027),
   (some "flags", flagsEnumF messageLayer104_2Flags),
   (some "id", int32ulF),
   (some "from_id", ifFlagF "flags" "from_id" int32ulF),
   (some "to_id", fieldOf peerP),
   (some "fwd_from", ifFlagP "flags" "forwarded" fwdP),
   (some "via_bot_id", ifFlagF "flags" "via_bot" int32ulF),
   (some "reply_to_msg_id", ifFlagF "flags" "reply_to_msg_id" int32ulF),
   (some "date", fieldOf ttimestamp_struct),
   (some "message", fieldOf tstring_struct),
   (some "media", ifFlagP "flags" "media" mediaP),
   (some "_media_ttl", computedStrF "ignored"),
   (some "_media_caption_legacy", computedStrF "ignored"),
   (some "reply_markup", ifFlagP "flags" "reply_markup" replyMarkupP),
   (some "entities", ifFlagP "flags" "entities" (structP
      [(some "_vector_sig", constF 0x1CB5C415),
       (some "message_entity_num", int32ulF),
       (some "message_entity_array", arrayF "message_entity_num" entityP)])),
   (some "views", ifFlagF "flags" "views" int32ulF),
   (some "edit_timestamp", ifFlagP "flags" "is_edited" ttimestamp_struct),
   (some "post_author", ifFlagP "flags" "author" tstring_struct),
   (some "grouped_id", ifFlagF "flags" "grouped_id" int64ulF),
   (some "reactions", ifFlagP "flags" "reactions" reactionsP),
   (some "restricted", ifFlagP "flags" "restricted" tstring_struct),
   (some "UNPARSED", greedyBytesF)]

/-- One value of the `tblob.tdss_callbacks` dictionary. Most entries are
3-tuples `(decoder-or-None, name, None)`; the third element is `None` for
every entry of the source table (checked mechanically against the source),
so `triple` does not store it. 194 entries are 2-tuples missing the third
element; `parse_blob`'s three-name unpacking raises `ValueError` for those.
The decoder is recorded by the name of the method the tuple references. -/
inductive CbEntry where
  | pair (decoder : Option String) (name : String)
  | triple (decoder : Option String) (name : String)
  deriving Repr, DecidableEq

/-- `tblob.tdss_callbacks`: the flat top-level signature table, transcribed
entry-for-entry in source order. Its keys are pairwise distinct, so
first-match association lookup agrees with Python dict lookup (`tblob`'s
`__init__` copies this dictionary unchanged into `self._callbacks`). -/
def tdss_callbacks : List (Nat × CbEntry) :=
  [((0xb8d0afdf, CbEntry.triple none "account_days_ttl") : Nat × CbEntry),
   ((0xe7027c94, CbEntry.triple none "account_accept_authorization") : Nat × CbEntry),
   ((0xad2e1cd8, CbEntry.triple none "account_authorization_form") : Nat × CbEntry),
   ((0x1250abde, CbEntry.triple none "account_authorizations") : Nat × CbEntry),
   ((0x63cacf26, CbEntry.triple none "account_auto_download_settings") : Nat × CbEntry),
   ((0xc1cbd5b6, CbEntry.triple none "account_cancel_password_email") : Nat × CbEntry),
   ((0x70c32edb, CbEntry.triple none "account_change_phone") : Nat × CbEntry),
   ((0x2714d86c, CbEntry.triple none "account_check_username") : Nat × CbEntry),
   ((0x8fdf1920, CbEntry.triple none "account_confirm_password_email") : Nat × CbEntry),
   ((0x5f2178c3, CbEntry.triple none "account_confirm_phone") : Nat × CbEntry),
   ((0x8432c21f, CbEntry.triple none "account_create_theme") : Nat × CbEntry),
   ((0x418d4e0b, CbEntry.triple none "account_delete_account") : Nat × CbEntry),
   ((0xb880bc4b, CbEntry.triple none "account_delete_secure_value") : Nat × CbEntry),
   ((0x8fc711d, CbEntry.triple none "account_get_account_ttl") : Nat × CbEntry),
   ((0xb288bc7d, CbEntry.triple none "account_get_all_secure_values") : Nat × CbEntry),
   ((0xb86ba8e1, CbEntry.triple none "account_get_authorization_form") : Nat × CbEntry),
   ((0xe320c158, CbEntry.triple none "account_get_authorizations") : Nat × CbEntry),
   ((0x56da0b3f, CbEntry.triple none "account_get_auto_download_settings") : Nat × CbEntry),
   ((0x9f07c728, CbEntry.triple none "account_get_contact_sign_up_notification") : Nat × CbEntry),
   ((0xeb2b4cf6, CbEntry.triple none "account_get_global_privacy_settings") : Nat × CbEntry),
   ((0x65ad71dc, CbEntry.triple none "account_get_multi_wall_papers") : Nat × CbEntry),
   ((0x53577479, CbEntry.triple none "account_get_notify_exceptions") : Nat × CbEntry),
   ((0x12b3ad31, CbEntry.triple none "account_get_notify_settings") : Nat × CbEntry),
   ((0x548a30f5, CbEntry.triple none "account_get_password") : Nat × CbEntry),
   ((0x9cd4eaf9, CbEntry.triple none "account_get_password_settings") : Nat × CbEntry),
   ((0xdadbc950, CbEntry.triple none "account_get_privacy") : Nat × CbEntry),
   ((0x73665bc2, CbEntry.triple none "account_get_secure_value") : Nat × CbEntry),
   ((0x8d9d742b, CbEntry.triple none "account_get_theme") : Nat × CbEntry),
   ((0x285946f8, CbEntry.triple none "account_get_themes") : Nat × CbEntry),
   ((0x449e0b51, CbEntry.triple none "account_get_tmp_password") : Nat × CbEntry),
   ((0xfc8ddbea, CbEntry.triple none "account_get_wall_paper") : Nat × CbEntry),
   ((0xaabb1763, CbEntry.triple none "account_get_wall_papers") : Nat × CbEntry),
   ((0xc04cfac2, CbEntry.pair none "account_get_wall_papers_v_0_1_317") : Nat × CbEntry),
   ((0x182e6d6f, CbEntry.triple none "account_get_web_authorizations") : Nat × CbEntry),
   ((0x7ae43737, CbEntry.triple none "account_install_theme") : Nat × CbEntry),
   ((0xfeed5769, CbEntry.triple none "account_install_wall_paper") : Nat × CbEntry),
   ((0xad2641f8, CbEntry.triple none "account_password") : Nat × CbEntry),
   ((0xc23727c9, CbEntry.triple none "account_password_input_settings") : Nat × CbEntry),
   ((0x9a5c33e5, CbEntry.triple none "account_password_settings") : Nat × CbEntry),
   ((0x50a04e45, CbEntry.triple none "account_privacy_rules") : Nat × CbEntry),
   ((0x68976c6f, CbEntry.triple none "account_register_device") : Nat × CbEntry),
   ((0x554abb6f, CbEntry.triple none "account_privacy_rules_v_5_6_2") : Nat × CbEntry),
   ((0x446c712c, CbEntry.triple none "account_register_device_v_0_1_317") : Nat × CbEntry),
   ((0x5cbea590, CbEntry.triple none "account_register_device_v_5_6_2") : Nat × CbEntry),
   ((0xae189d5f, CbEntry.triple none "account_report_peer") : Nat × CbEntry),
   ((0x7a7f2a15, CbEntry.triple none "account_resend_password_email") : Nat × CbEntry),
   ((0xdf77f3bc, CbEntry.triple none "account_reset_authorization") : Nat × CbEntry),
   ((0xdb7e1747, CbEntry.triple none "account_reset_notify_settings") : Nat × CbEntry),
   ((0xbb3b9804, CbEntry.triple none "account_reset_wall_papers") : Nat × CbEntry),
   ((0x2d01b9ef, CbEntry.triple none "account_reset_web_authorization") : Nat × CbEntry),
   ((0x682d2594, CbEntry.triple none "account_reset_web_authorizations") : Nat × CbEntry),
   ((0x76f36233, CbEntry.triple none "account_save_auto_download_settings") : Nat × CbEntry),
   ((0x899fe31d, CbEntry.triple none "account_save_secure_value") : Nat × CbEntry),
   ((0xf257106c, CbEntry.triple none "account_save_theme") : Nat × CbEntry),
   ((0x6c5a5b37, CbEntry.triple none "account_save_wall_paper") : Nat × CbEntry),
   ((0x82574ae5, CbEntry.triple none "account_send_change_phone_code") : Nat × CbEntry),
   ((0x1b3faa88, CbEntry.triple none "account_send_confirm_phone_code") : Nat × CbEntry),
   ((0x7011509f, CbEntry.triple none "account_send_verify_email_code") : Nat × CbEntry),
   ((0xa5a356f9, CbEntry.triple none "account_send_verify_phone_code") : Nat × CbEntry),
   ((0x811f854f, CbEntry.triple none "account_sent_email_code") : Nat × CbEntry),
   ((0x2442485e, CbEntry.triple none "account_set_account_ttl") : Nat × CbEntry),
   ((0xcff43f61, CbEntry.triple none "account_set_contact_sign_up_notification") : Nat × CbEntry),
   ((0x1edaaac2, CbEntry.triple none "account_set_global_privacy_settings") : Nat × CbEntry),
   ((0xc9f81ce8, CbEntry.triple none "account_set_privacy") : Nat × CbEntry),
   ((0x7f676421, CbEntry.triple none "account_themes") : Nat × CbEntry),
   ((0xf41eb622, CbEntry.triple none "account_themes_not_modified") : Nat × CbEntry),
   ((0xdb64fd34, CbEntry.triple none "account_tmp_password") : Nat × CbEntry),
   ((0x3076c4bf, CbEntry.triple none "account_unregister_device") : Nat × CbEntry),
   ((0x65c55b40, CbEntry.pair none "account_unregister_device_v_0_1_317") : Nat × CbEntry),
   ((0x38df3532, CbEntry.triple none "account_update_device_locked") : Nat × CbEntry),
   ((0x84be5b93, CbEntry.triple none "account_update_notify_settings") : Nat × CbEntry),
   ((0xa59b102f, CbEntry.triple none "account_update_password_settings") : Nat × CbEntry),
   ((0x78515775, CbEntry.triple none "account_update_profile") : Nat × CbEntry),
   ((0xf0888d68, CbEntry.pair none "account_update_profile_v_0_1_317") : Nat × CbEntry),
   ((0x6628562c, CbEntry.triple none "account_update_status") : Nat × CbEntry),
   ((0x5cb367d5, CbEntry.triple none "account_update_theme") : Nat × CbEntry),
   ((0x3e0bdd7c, CbEntry.triple none "account_update_username") : Nat × CbEntry),
   ((0x1c3db333, CbEntry.triple none "account_upload_theme") : Nat × CbEntry),
   ((0xdd853661, CbEntry.triple none "account_upload_wall_paper") : Nat × CbEntry),
   ((0xecba39db, CbEntry.triple none "account_verify_email") : Nat × CbEntry),
   ((0x4dd3a7f6, CbEntry.triple none "account_verify_phone") : Nat × CbEntry),
   ((0x702b65a9, CbEntry.triple none "account_wall_papers") : Nat × CbEntry),
   ((0x1c199183, CbEntry.triple none "account_wall_papers_not_modified") : Nat × CbEntry),
   ((0xed56c9fc, CbEntry.triple none "account_web_authorizations") : Nat × CbEntry),
   ((0x586988d8, CbEntry.triple (some "audio_empty_layer45_struct") "audio_empty_layer45") : Nat × CbEntry),
   ((0x555555f6, CbEntry.triple (some "audio_encrypted_struct") "audio_encrypted") : Nat × CbEntry),
   ((0xf9e35055, CbEntry.triple (some "audio_layer45_struct") "audio_layer45") : Nat × CbEntry),
   ((0x427425e7, CbEntry.triple (some "audio_old_struct") "audio_old") : Nat × CbEntry),
   ((0xc7ac6496, CbEntry.triple (some "audio_old2_struct") "audio_old2") : Nat × CbEntry),
   ((0xe894ad4d, CbEntry.triple none "auth_accept_login_token") : Nat × CbEntry),
   ((0xcd050916, CbEntry.triple none "auth_authorization") : Nat × CbEntry),
   ((0x44747e9a, CbEntry.triple none "auth_authorization_sign_up_required") : Nat × CbEntry),
   ((0xf6b673a4, CbEntry.pair none "auth_authorization_v_0_1_317") : Nat × CbEntry),
   ((0x1f040578, CbEntry.triple none "auth_cancel_code") : Nat × CbEntry),
   ((0xd18b4d16, CbEntry.triple none "auth_check_password") : Nat × CbEntry),
   ((0x6fe51dfb, CbEntry.triple none "auth_check_phone_v_5_6_2") : Nat × CbEntry),
   ((0x811ea28e, CbEntry.triple none "auth_checked_phone_v_5_6_2") : Nat × CbEntry),
   ((0xe300cc3b, CbEntry.pair none "auth_checked_phone_v_0_1_317") : Nat × CbEntry),
   ((0x741cd3e3, CbEntry.triple none "auth_code_type_call") : Nat × CbEntry),
   ((0x226ccefb, CbEntry.triple none "auth_code_type_flash_call") : Nat × CbEntry),
   ((0x72a3158c, CbEntry.triple none "auth_code_type_sms") : Nat × CbEntry),
   ((0xe5bfffcd, CbEntry.triple none "auth_export_authorization") : Nat × CbEntry),
   ((0xdf969c2d, CbEntry.triple none "auth_exported_authorization") : Nat × CbEntry),
   ((0xb1b41517, CbEntry.triple none "auth_export_login_token") : Nat × CbEntry),
   ((0xe3ef9613, CbEntry.triple none "auth_import_authorization") : Nat × CbEntry),
   ((0x95ac5ce4, CbEntry.triple none "auth_import_login_token") : Nat × CbEntry),
   ((0x5717da40, CbEntry.triple none "auth_log_out") : Nat × CbEntry),
   ((0x629f1980, CbEntry.triple none "auth_login_token") : Nat × CbEntry),
   ((0x68e9916, CbEntry.triple none "auth_login_token_migrate_to") : Nat × CbEntry),
   ((0x390d5c5e, CbEntry.triple none "auth_login_token_success") : Nat × CbEntry),
   ((0x137948a5, CbEntry.triple none "auth_password_recovery") : Nat × CbEntry),
   ((0x4ea56e92, CbEntry.triple none "auth_recover_password") : Nat × CbEntry),
   ((0xd897bc66, CbEntry.triple none "auth_request_password_recovery") : Nat × CbEntry),
   ((0x3ef1a9bf, CbEntry.triple none "auth_resend_code") : Nat × CbEntry),
   ((0x9fab0d1a, CbEntry.triple none "auth_reset_authorizations") : Nat × CbEntry),
   ((0x3c51564, CbEntry.pair none "auth_send_call_v_0_1_317") : Nat × CbEntry),
   ((0xa677244f, CbEntry.triple none "auth_send_code") : Nat × CbEntry),
   ((0x768d5f4d, CbEntry.pair none "auth_send_code_v_0_1_317") : Nat × CbEntry),
   ((0x771c1d97, CbEntry.pair none "auth_send_invites_v_0_1_317") : Nat × CbEntry),
   ((0x5e002502, CbEntry.triple none "auth_sent_code") : Nat × CbEntry),
   ((0x38faab5f, CbEntry.triple none "auth_sent_code_v_5_6_2") : Nat × CbEntry),
   ((0x2215bcbd, CbEntry.pair none "auth_sent_code_v_0_1_317") : Nat × CbEntry),
   ((0x3dbb5986, CbEntry.triple none "auth_sent_code_type_app") : Nat × CbEntry),
   ((0x5353e5a7, CbEntry.triple none "auth_sent_code_type_call") : Nat × CbEntry),
   ((0xab03c6d9, CbEntry.triple none "auth_sent_code_type_flash_call") : Nat × CbEntry),
   ((0xc000bba2, CbEntry.triple none "auth_sent_code_type_sms") : Nat × CbEntry),
   ((0xbcd51581, CbEntry.triple none "auth_sign_in") : Nat × CbEntry),
   ((0x80eee427, CbEntry.triple none "auth_sign_up") : Nat × CbEntry),
   ((0x1b067634, CbEntry.triple none "auth_sign_up_v_5_6_2") : Nat × CbEntry),
   ((0xad01d61d, CbEntry.triple none "authorization") : Nat × CbEntry),
   ((0xe04232f3, CbEntry.triple none "auto_download_settings") : Nat × CbEntry),
   ((0xd246fd47, CbEntry.triple none "auto_download_settings_v_5_6_2") : Nat × CbEntry),
   ((0xa7eff811, CbEntry.pair none "bad_msg_notification_v_0_1_317") : Nat × CbEntry),
   ((0xedab447b, CbEntry.pair none "bad_server_salt_v_0_1_317") : Nat × CbEntry),
   ((0xf568028a, CbEntry.triple none "bank_card_open_url") : Nat × CbEntry),
   ((0x5b11125a, CbEntry.triple (some "base_theme_arctic_struct") "base_theme_arctic") : Nat × CbEntry),
   ((0xc3a12462, CbEntry.triple (some "base_theme_classic_struct") "base_theme_classic") : Nat × CbEntry),
   ((0xfbd81688, CbEntry.triple (some "base_theme_day_struct") "base_theme_day") : Nat × CbEntry),
   ((0xb7b31ea8, CbEntry.triple (some "base_theme_night_struct") "base_theme_night") : Nat × CbEntry),
   ((0x6d5f77ee, CbEntry.triple (some "base_theme_tinted_struct") "base_theme_tinted") : Nat × CbEntry),
   ((0xbc799737, CbEntry.triple none "bool_false") : Nat × CbEntry),
   ((0x997275b5, CbEntry.triple none "bool_true") : Nat × CbEntry),
   ((0xc27ac8c7, CbEntry.triple (some "bot_command_struct") "bot_command") : Nat × CbEntry),
   ((0x98e81d3a, CbEntry.triple (some "bot_info_struct") "bot_info") : Nat × CbEntry),
   ((0xbb2e37ce, CbEntry.triple (some "bot_info_empty_layer48_struct") "bot_info_empty_layer48") : Nat × CbEntry),
   ((0x9cf585d, CbEntry.triple (some "bot_info_layer48_struct") "bot_info_layer48") : Nat × CbEntry),
   ((0x17db940b, CbEntry.triple none "bot_inline_media_result") : Nat × CbEntry),
   ((0x764cf810, CbEntry.triple none "bot_inline_message_media_auto") : Nat × CbEntry),
   ((0xa74b15b, CbEntry.triple none "bot_inline_message_media_auto_layer74") : Nat × CbEntry),
   ((0x18d1cdc2, CbEntry.triple none "bot_inline_message_media_contact") : Nat × CbEntry),
   ((0x35edb4d4, CbEntry.triple none "bot_inline_message_media_contact_layer81") : Nat × CbEntry),
   ((0xb722de65, CbEntry.triple none "bot_inline_message_media_geo") : Nat × CbEntry),
   ((0x3a8fd8b8, CbEntry.triple none "bot_inline_message_media_geo_layer71") : Nat × CbEntry),
   ((0x8a86659c, CbEntry.triple none "bot_inline_message_media_venue") : Nat × CbEntry),
   ((0x4366232e, CbEntry.triple none "bot_inline_message_media_venue_layer77") : Nat × CbEntry),
   ((0x8c7f65e2, CbEntry.triple none "bot_inline_message_text") : Nat × CbEntry),
   ((0x11965f3a, CbEntry.triple none "bot_inline_result") : Nat × CbEntry),
   ((0xd31a961e, CbEntry.triple (some "channel_struct") "channel") : Nat × CbEntry),
   ((0x3b5a3e40, CbEntry.triple none "channel_admin_log_event") : Nat × CbEntry),
   ((0x55188a2e, CbEntry.triple none "channel_admin_log_event_action_change_about") : Nat × CbEntry),
   ((0xa26f881b, CbEntry.triple none "channel_admin_log_event_action_change_linked_chat") : Nat × CbEntry),
   ((0xe6b76ae, CbEntry.triple none "channel_admin_log_event_action_change_location") : Nat × CbEntry),
   ((0x434bd2af, CbEntry.pair none "channel_admin_log_event_action_change_photo") : Nat × CbEntry),
   ((0xb82f55c3, CbEntry.triple none "channel_admin_log_event_action_change_photo_v_5_5_0") : Nat × CbEntry),
   ((0xb1c3caa7, CbEntry.triple none "channel_admin_log_event_action_change_sticker_set") : Nat × CbEntry),
   ((0xe6dfb825, CbEntry.triple none "channel_admin_log_event_action_change_title") : Nat × CbEntry),
   ((0x6a4afc38, CbEntry.triple none "channel_admin_log_event_action_change_username") : Nat × CbEntry),
   ((0x2df5fc0a, CbEntry.triple none "channel_admin_log_event_action_default_banned_rights") : Nat × CbEntry),
   ((0x42e047bb, CbEntry.triple none "channel_admin_log_event_action_delete_message") : Nat × CbEntry),
   ((0x709b2405, CbEntry.triple none "channel_admin_log_event_action_edit_message") : Nat × CbEntry),
   ((0xe31c34d8, CbEntry.triple none "channel_admin_log_event_action_participant_invite") : Nat × CbEntry),
   ((0x183040d3, CbEntry.triple none "channel_admin_log_event_action_participant_join") : Nat × CbEntry),
   ((0xf89777f2, CbEntry.triple none "channel_admin_log_event_action_participant_leave") : Nat × CbEntry),
   ((0xd5676710, CbEntry.triple none "channel_admin_log_event_action_participant_toggle_admin") : Nat × CbEntry),
   ((0xe6d83d7e, CbEntry.triple none "channel_admin_log_event_action_participant_toggle_ban") : Nat × CbEntry),
   ((0x8f079643, CbEntry.triple none "channel_admin_log_event_action_stop_poll") : Nat × CbEntry),
   ((0x1b7907ae, CbEntry.triple none "channel_admin_log_event_action_toggle_invites") : Nat × CbEntry),
   ((0x5f5c95f1, CbEntry.triple none "channel_admin_log_event_action_toggle_pre_history_hidden") : Nat × CbEntry),
   ((0x26ae0971, CbEntry.triple none "channel_admin_log_event_action_toggle_signatures") : Nat × CbEntry),
   ((0x53909779, CbEntry.triple none "channel_admin_log_event_action_toggle_slow_mode") : Nat × CbEntry),
   ((0xe9e82c18, CbEntry.triple none "channel_admin_log_event_action_update_pinned") : Nat × CbEntry),
   ((0xea107ae4, CbEntry.triple none "channel_admin_log_events_filter") : Nat × CbEntry),
   ((0x5d7ceba5, CbEntry.triple (some "channel_admin_rights_layer92_struct") "channel_admin_rights_layer92") : Nat × CbEntry),
   ((0x58cf4249, CbEntry.triple (some "channel_banned_rights_layer92_struct") "channel_banned_rights_layer92") : Nat × CbEntry),
   ((0x289da732, CbEntry.triple (some "channel_forbidden_struct") "channel_forbidden") : Nat × CbEntry),
   ((0x2d85832c, CbEntry.triple (some "channel_forbidden_layer52_struct") "channel_forbidden_layer52") : Nat × CbEntry),
   ((0x8537784f, CbEntry.triple (some "channel_forbidden_layer67_struct") "channel_forbidden_layer67") : Nat × CbEntry),
   ((0xf0e6672a, CbEntry.triple none "channel_full") : Nat × CbEntry),
   ((0x9e341ddf, CbEntry.triple none "channel_full_layer48") : Nat × CbEntry),
   ((0x97bee562, CbEntry.triple none "channel_full_layer52") : Nat × CbEntry),
   ((0xc3d5512f, CbEntry.triple none "channel_full_layer67") : Nat × CbEntry),
   ((0x95cb5f57, CbEntry.triple none "channel_full_layer70") : Nat × CbEntry),
   ((0x17f45fcf, CbEntry.triple none "channel_full_layer71") : Nat × CbEntry),
   ((0x76af5481, CbEntry.triple none "channel_full_layer72") : Nat × CbEntry),
   ((0xcbb62890, CbEntry.triple none "channel_full_layer89") : Nat × CbEntry),
   ((0x1c87a71a, CbEntry.triple none "channel_full_layer98") : Nat × CbEntry),
   ((0x3648977, CbEntry.triple none "channel_full_layer99") : Nat × CbEntry),
   ((0x9882e516, CbEntry.triple none "channel_full_layer101") : Nat × CbEntry),
   ((0x10916653, CbEntry.triple none "channel_full_layer103") : Nat × CbEntry),
   ((0x2d895c74, CbEntry.triple none "channel_full_layer110") : Nat × CbEntry),
   ((0xfab31aa3, CbEntry.triple none "channel_full_old") : Nat × CbEntry),
   ((0x209b82db, CbEntry.triple none "channel_location") : Nat × CbEntry),
   ((0xbfb5ad8b, CbEntry.triple none "channel_location_empty") : Nat × CbEntry),
   ((0x630e61be, CbEntry.pair none "chat_full_v_0_1_317") : Nat × CbEntry),
   ((0xcd77d957, CbEntry.triple none "channel_messages_filter") : Nat × CbEntry),
   ((0x94d42ee7, CbEntry.triple none "channel_messages_filter_empty") : Nat × CbEntry),
   ((0x15ebac1d, CbEntry.triple none "channel_participant") : Nat × CbEntry),
   ((0xccbebbaf, CbEntry.triple none "channel_participant_admin") : Nat × CbEntry),
   ((0x5daa6e23, CbEntry.triple none "channel_participant_admin_layer103") : Nat × CbEntry),
   ((0xa82fa898, CbEntry.triple none "channel_participant_admin_layer92") : Nat × CbEntry),
   ((0x1c0facaf, CbEntry.triple none "channel_participant_banned") : Nat × CbEntry),
   ((0x222c1886, CbEntry.triple none "channel_participant_banned_layer92") : Nat × CbEntry),
   ((0x808d15a4, CbEntry.triple none "channel_participant_creator") : Nat × CbEntry),
   ((0xe3e2e1f9, CbEntry.triple none "channel_participant_creator_layer103") : Nat × CbEntry),
   ((0x98192d61, CbEntry.triple none "channel_participant_editor_layer67") : Nat × CbEntry),
   ((0x8cc5e69a, CbEntry.triple none "channel_participant_kicked_layer67") : Nat × CbEntry),
   ((0x91057fef, CbEntry.triple none "channel_participant_moderator_layer67") : Nat × CbEntry),
   ((0xa3289a6d, CbEntry.triple none "channel_participant_self") : Nat × CbEntry),
   ((0xb4608969, CbEntry.triple none "channel_participants_admins") : Nat × CbEntry),
   ((0x1427a5e1, CbEntry.triple none "channel_participants_banned") : Nat × CbEntry),
   ((0xb0d1865b, CbEntry.triple none "channel_participants_bots") : Nat × CbEntry),
   ((0xbb6ae88d, CbEntry.triple none "channel_participants_contacts") : Nat × CbEntry),
   ((0xa3b54985, CbEntry.triple none "channel_participants_kicked") : Nat × CbEntry),
   ((0xde3f3c79, CbEntry.triple none "channel_participants_recent") : Nat × CbEntry),
   ((0x656ac4b, CbEntry.triple none "channel_participants_search") : Nat × CbEntry),
   ((0x4df30834, CbEntry.triple (some "channel_layer104_struct") "channel_layer104") : Nat × CbEntry),
   ((0x4b1b7506, CbEntry.triple (some "channel_layer48_struct") "channel_layer48") : Nat × CbEntry),
   ((0xa14dca52, CbEntry.triple (some "channel_layer67_struct") "channel_layer67") : Nat × CbEntry),
   ((0xcb44b1c, CbEntry.triple (some "channel_layer72_struct") "channel_layer72") : Nat × CbEntry),
   ((0x450b7115, CbEntry.triple (some "channel_layer77_struct") "channel_layer77") : Nat × CbEntry),
   ((0xc88974ac, CbEntry.triple (some "channel_layer92_struct") "channel_layer92") : Nat × CbEntry),
   ((0x678e9587, CbEntry.triple (some "channel_old_struct") "channel_old") : Nat × CbEntry),
   ((0xed8af74d, CbEntry.triple none "channels_admin_log_results") : Nat × CbEntry),
   ((0xd0d9b163, CbEntry.triple none "channels_channel_participant") : Nat × CbEntry),
   ((0xf56ee2a8, CbEntry.triple none "channels_channel_participants") : Nat × CbEntry),
   ((0xf0173fe9, CbEntry.triple none "channels_channel_participants_not_modified") : Nat × CbEntry),
   ((0x10e6bd2c, CbEntry.triple none "channels_check_username") : Nat × CbEntry),
   ((0x3d5fb10f, CbEntry.triple none "channels_create_channel") : Nat × CbEntry),
   ((0xf4893d7f, CbEntry.triple none "channels_create_channel_v_5_6_2") : Nat × CbEntry),
   ((0xc0111fe3, CbEntry.triple none "channels_delete_channel") : Nat × CbEntry),
   ((0xaf369d42, CbEntry.triple none "channels_delete_history") : Nat × CbEntry),
   ((0x84c1fd4e, CbEntry.triple none "channels_delete_messages") : Nat × CbEntry),
   ((0xd10dd71b, CbEntry.triple none "channels_delete_user_history") : Nat × CbEntry),
   ((0xd33c8902, CbEntry.triple none "channels_edit_admin") : Nat × CbEntry),
   ((0x70f893ba, CbEntry.triple none "channels_edit_admin_v_5_6_2") : Nat × CbEntry),
   ((0x72796912, CbEntry.triple none "channels_edit_banned") : Nat × CbEntry),
   ((0x8f38cd1f, CbEntry.triple none "channels_edit_creator") : Nat × CbEntry),
   ((0x58e63f6d, CbEntry.triple none "channels_edit_location") : Nat × CbEntry),
   ((0xf12e57c9, CbEntry.triple none "channels_edit_photo") : Nat × CbEntry),
   ((0x566decd0, CbEntry.triple none "channels_edit_title") : Nat × CbEntry),
   ((0xc846d22d, CbEntry.triple none "channels_export_message_link") : Nat × CbEntry),
   ((0x33ddf480, CbEntry.triple none "channels_get_admin_log") : Nat × CbEntry),
   ((0xf8b036af, CbEntry.triple none "channels_get_admined_public_channels") : Nat × CbEntry),
   ((0x8d8d82d7, CbEntry.triple none "channels_get_admined_public_channels_v_5_6_2") : Nat × CbEntry),
   ((0xa7f6bbb, CbEntry.triple none "channels_get_channels") : Nat × CbEntry),
   ((0x8736a09, CbEntry.triple none "channels_get_full_channel") : Nat × CbEntry),
   ((0xf5dad378, CbEntry.triple none "channels_get_groups_for_discussion") : Nat × CbEntry),
   ((0x11e831ee, CbEntry.triple none "channels_get_inactive_channels") : Nat × CbEntry),
   ((0x93d7b347, CbEntry.triple none "channels_get_messages") : Nat × CbEntry),
   ((0x546dd7a6, CbEntry.triple none "channels_get_participant") : Nat × CbEntry),
   ((0x123e05e9, CbEntry.triple none "channels_get_participants") : Nat × CbEntry),
   ((0x199f3a6c, CbEntry.triple none "channels_invite_to_channel") : Nat × CbEntry),
   ((0x24b524c5, CbEntry.triple none "channels_join_channel") : Nat × CbEntry),
   ((0xf836aa95, CbEntry.triple none "channels_leave_channel") : Nat × CbEntry),
   ((0xcc104937, CbEntry.triple none "channels_read_history") : Nat × CbEntry),
   ((0xeab5dc38, CbEntry.triple none "channels_read_message_contents") : Nat × CbEntry),
   ((0xfe087810, CbEntry.triple none "channels_report_spam") : Nat × CbEntry),
   ((0x43a0a7e2, CbEntry.triple none "channels_search_posts") : Nat × CbEntry),
   ((0x40582bb2, CbEntry.triple none "channels_set_discussion_group") : Nat × CbEntry),
   ((0xea8ca4f9, CbEntry.triple none "channels_set_stickers") : Nat × CbEntry),
   ((0xeabbb94c, CbEntry.triple none "channels_toggle_pre_history_hidden") : Nat × CbEntry),
   ((0x1f69b606, CbEntry.triple none "channels_toggle_signatures") : Nat × CbEntry),
   ((0xedd49ef0, CbEntry.triple none "channels_toggle_slow_mode") : Nat × CbEntry),
   ((0x3514b3de, CbEntry.triple none "channels_update_username") : Nat × CbEntry),
   ((0x3bda1bde, CbEntry.triple (some "chat_struct") "chat") : Nat × CbEntry),
   ((0x5fb224d5, CbEntry.triple (some "chat_admin_rights_struct") "chat_admin_rights") : Nat × CbEntry),
   ((0x9f120418, CbEntry.triple (some "chat_banned_rights_struct") "chat_banned_rights") : Nat × CbEntry),
   ((0x9ba2d800, CbEntry.triple (some "chat_empty_struct") "chat_empty") : Nat × CbEntry),
   ((0x7328bdb, CbEntry.triple (some "chat_forbidden_struct") "chat_forbidden") : Nat × CbEntry),
   ((0xfb0ccc41, CbEntry.triple (some "chat_forbidden_old_struct") "chat_forbidden_old") : Nat × CbEntry),
   ((0x1b7c9db3, CbEntry.triple none "chat_full") : Nat × CbEntry),
   ((0x2e02a614, CbEntry.triple none "chat_full_layer87") : Nat × CbEntry),
   ((0xedd2a791, CbEntry.triple none "chat_full_layer92") : Nat × CbEntry),
   ((0x22a235da, CbEntry.triple none "chat_full_layer98") : Nat × CbEntry),
   ((0xdfc2f58e, CbEntry.triple none "chat_invite") : Nat × CbEntry),
   ((0x5a686d7c, CbEntry.triple none "chat_invite_already") : Nat × CbEntry),
   ((0x69df3769, CbEntry.triple none "chat_invite_empty") : Nat × CbEntry),
   ((0xfc2e05bc, CbEntry.triple none "chat_invite_exported") : Nat × CbEntry),
   ((0x61695cb0, CbEntry.triple none "chat_invite_peek") : Nat × CbEntry),
   ((0xdb74f558, CbEntry.triple none "chat_invite_v_5_5_0") : Nat × CbEntry),
   ((0xd91cdd54, CbEntry.triple (some "chat_layer92_struct") "chat_layer92") : Nat × CbEntry),
   ((0x3631cf4c, CbEntry.triple none "chat_located") : Nat × CbEntry),
   ((0xf041e250, CbEntry.triple none "chat_onlines") : Nat × CbEntry),
   ((0xc8d7493e, CbEntry.triple none "chat_participant") : Nat × CbEntry),
   ((0xe2d6e436, CbEntry.triple none "chat_participant_admin") : Nat × CbEntry),
   ((0xda13538a, CbEntry.triple none "chat_participant_creator") : Nat × CbEntry),
   ((0x3f460fed, CbEntry.triple none "chat_participants") : Nat × CbEntry),
   ((0xfc900c2b, CbEntry.triple none "chat_participants_forbidden") : Nat × CbEntry),
   ((0xfd2bb8a, CbEntry.triple none "chat_participants_forbidden_old") : Nat × CbEntry),
   ((0x7841b415, CbEntry.triple none "chat_participants_old") : Nat × CbEntry),
   ((0xd20b9f3c, CbEntry.triple (some "chat_photo_struct") "chat_photo") : Nat × CbEntry),
   ((0x475cdbd5, CbEntry.pair (some "chat_photo_layer115_struct") "chat_photo_layer115") : Nat × CbEntry),
   ((0x6153276a, CbEntry.triple (some "chat_photo_layer97_struct") "chat_photo_layer97") : Nat × CbEntry),
   ((0x37c1011c, CbEntry.triple (some "chat_photo_empty_struct") "chat_photo_empty") : Nat × CbEntry),
   ((0x6e9c9bc7, CbEntry.triple (some "chat_old_struct") "chat_old") : Nat × CbEntry),
   ((0x7312bc48, CbEntry.triple (some "chat_old2_struct") "chat_old2") : Nat × CbEntry),
   ((0x6643b654, CbEntry.pair none "client_dh_inner_data_v_0_1_317") : Nat × CbEntry),
   ((0xdebebe83, CbEntry.triple none "code_settings") : Nat × CbEntry),
   ((0x302f59f3, CbEntry.triple none "code_settings_v_5_6_2") : Nat × CbEntry),
   ((0x330b4067, CbEntry.triple none "config") : Nat × CbEntry),
   ((0x232d5905, CbEntry.pair none "config_v_0_1_317") : Nat × CbEntry),
   ((0xe6ca25f6, CbEntry.triple none "config_v_5_5_0") : Nat × CbEntry),
   ((0xf911c994, CbEntry.triple none "contact") : Nat × CbEntry),
   ((0x561bc879, CbEntry.triple none "contact_blocked") : Nat × CbEntry),
   ((0xea879f95, CbEntry.triple none "contact_found") : Nat × CbEntry),
   ((0xd502c2d0, CbEntry.triple (some "contact_link_contact_struct") "contact_link_contact") : Nat × CbEntry),
   ((0x268f3f59, CbEntry.triple (some "contact_link_has_phone_struct") "contact_link_has_phone") : Nat × CbEntry),
   ((0xfeedd3ad, CbEntry.triple (some "contact_link_none_struct") "contact_link_none") : Nat × CbEntry),
   ((0x5f4f9247, CbEntry.triple (some "contact_link_unknown_struct") "contact_link_unknown") : Nat × CbEntry),
   ((0xd3680c61, CbEntry.triple none "contact_status") : Nat × CbEntry),
   ((0xaa77b873, CbEntry.pair none "contact_status_v_0_1_317") : Nat × CbEntry),
   ((0x3de191a1, CbEntry.pair none "contact_suggested_v_0_1_317") : Nat × CbEntry),
   ((0xf831a20f, CbEntry.triple none "contacts_accept_contact") : Nat × CbEntry),
   ((0xe8f463d0, CbEntry.triple none "contacts_add_contact") : Nat × CbEntry),
   ((0x332b49fc, CbEntry.triple none "contacts_block") : Nat × CbEntry),
   ((0x1c138d15, CbEntry.triple none "contacts_blocked") : Nat × CbEntry),
   ((0x900802a1, CbEntry.triple none "contacts_blocked_slice") : Nat × CbEntry),
   ((0xeae87e42, CbEntry.triple none "contacts_contacts") : Nat × CbEntry),
   ((0x6f8b8cb2, CbEntry.pair none "contacts_contacts_v_0_1_317") : Nat × CbEntry),
   ((0xb74ba9d2, CbEntry.triple none "contacts_contacts_not_modified") : Nat × CbEntry),
   ((0x1013fd9e, CbEntry.triple none "contacts_delete_by_phones") : Nat × CbEntry),
   ((0x8e953744, CbEntry.triple none "contacts_delete_contact") : Nat × CbEntry),
   ((0x96a0e00, CbEntry.triple none "contacts_delete_contacts") : Nat × CbEntry),
   ((0x59ab389e, CbEntry.triple none "contacts_delete_contacts_v_5_6_2") : Nat × CbEntry),
   ((0x84e53737, CbEntry.triple none "contacts_export_card") : Nat × CbEntry),
   ((0x1bea8ce1, CbEntry.pair none "contacts_foreign_link_mutual_v_0_1_317") : Nat × CbEntry),
   ((0xa7801f47, CbEntry.pair none "contacts_foreign_link_requested_v_0_1_317") : Nat × CbEntry),
   ((0x133421f8, CbEntry.pair none "contacts_foreign_link_unknown_v_0_1_317") : Nat × CbEntry),
   ((0xb3134d9d, CbEntry.triple none "contacts_found") : Nat × CbEntry),
   ((0x566000e, CbEntry.pair none "contacts_found_v_0_1_317") : Nat × CbEntry),
   ((0xf57c350f, CbEntry.triple none "contacts_get_blocked") : Nat × CbEntry),
   ((0xc023849f, CbEntry.triple none "contacts_get_contacts") : Nat × CbEntry),
   ((0x22c6aa08, CbEntry.pair none "contacts_get_contacts_v_0_1_317") : Nat × CbEntry),
   ((0xd348bc44, CbEntry.triple none "contacts_get_located") : Nat × CbEntry),
   ((0xc4a353ee, CbEntry.triple none "contacts_get_statuses") : Nat × CbEntry),
   ((0xcd773428, CbEntry.pair none "contacts_get_suggested_v_0_1_317") : Nat × CbEntry),
   ((0xd4982db5, CbEntry.triple none "contacts_get_top_peers") : Nat × CbEntry),
   ((0x4fe196fe, CbEntry.triple none "contacts_import_card") : Nat × CbEntry),
   ((0x2c800be5, CbEntry.triple none "contacts_import_contacts") : Nat × CbEntry),
   ((0xda30b32d, CbEntry.pair none "contacts_import_contacts_v_0_1_317") : Nat × CbEntry),
   ((0x77d01c3b, CbEntry.triple none "contacts_imported_contacts") : Nat × CbEntry),
   ((0xd1cd0a4c, CbEntry.pair none "contacts_imported_contacts_v_0_1_317") : Nat × CbEntry),
   ((0x3ace484c, CbEntry.triple (some "contacts_link_layer101_struct") "contacts_link_layer101") : Nat × CbEntry),
   ((0xeccea3f5, CbEntry.pair none "contacts_link_v_0_317") : Nat × CbEntry),
   ((0xc240ebd9, CbEntry.pair none "contacts_my_link_contact_v_0_1_317") : Nat × CbEntry),
   ((0xd22a1c60, CbEntry.pair none "contacts_my_link_empty_v_0_1_317") : Nat × CbEntry),
   ((0x6c69efee, CbEntry.pair none "contacts_my_link_requested_v_0_1_317") : Nat × CbEntry),
   ((0x879537f1, CbEntry.triple none "contacts_reset_saved") : Nat × CbEntry),
   ((0x1ae373ac, CbEntry.triple none "contacts_reset_top_peer_rating") : Nat × CbEntry),
   ((0xf93ccba3, CbEntry.triple none "contacts_resolve_username") : Nat × CbEntry),
   ((0x7f077ad9, CbEntry.triple none "contacts_resolved_peer") : Nat × CbEntry),
   ((0x11f812d8, CbEntry.triple none "contacts_search") : Nat × CbEntry),
   ((0x5649dcc5, CbEntry.pair none "contacts_suggested_v_0_1_317") : Nat × CbEntry),
   ((0x8514bdda, CbEntry.triple none "contacts_toggle_top_peers") : Nat × CbEntry),
   ((0x70b772a8, CbEntry.triple none "contacts_top_peers") : Nat × CbEntry),
   ((0xb52c939d, CbEntry.triple none "contacts_top_peers_disabled") : Nat × CbEntry),
   ((0xde266ef5, CbEntry.triple none "contacts_top_peers_not_modified") : Nat × CbEntry),
   ((0xe54100bd, CbEntry.triple none "contacts_unblock") : Nat × CbEntry),
   ((0x7d748d04, CbEntry.triple none "data_json") : Nat × CbEntry),
   ((0x18b7a10d, CbEntry.triple none "dc_option") : Nat × CbEntry),
   ((0x2ec2a43c, CbEntry.pair none "dc_option_v_0_1_317") : Nat × CbEntry),
   ((0x91cc4674, CbEntry.triple none "decrypted_message") : Nat × CbEntry),
   ((0xdd05ec6b, CbEntry.triple (some "decrypted_message_action_abort_key_struct") "decrypted_message_action_abort_key") : Nat × CbEntry),
   ((0x6fe1735b, CbEntry.triple (some "decrypted_message_action_accept_key_struct") "decrypted_message_action_accept_key") : Nat × CbEntry),
   ((0xec2e0b9b, CbEntry.triple (some "decrypted_message_action_commit_key_struct") "decrypted_message_action_commit_key") : Nat × CbEntry),
   ((0x65614304, CbEntry.triple (some "decrypted_message_action_delete_messages_struct") "decrypted_message_action_delete_messages") : Nat × CbEntry),
   ((0x6719e45c, CbEntry.triple (some "decrypted_message_action_flush_history_struct") "decrypted_message_action_flush_history") : Nat × CbEntry),
   ((0xa82fdd63, CbEntry.triple (some "decrypted_message_action_noop_struct") "decrypted_message_action_noop") : Nat × CbEntry),
   ((0xf3048883, CbEntry.triple (some "decrypted_message_action_notify_layer_struct") "decrypted_message_action_notify_layer") : Nat × CbEntry),
   ((0xc4f40be, CbEntry.triple (some "decrypted_message_action_read_messages_struct") "decrypted_message_action_read_messages") : Nat × CbEntry),
   ((0xf3c9611b, CbEntry.triple (some "decrypted_message_action_request_key_struct") "decrypted_message_action_request_key") : Nat × CbEntry),
   ((0x511110b0, CbEntry.triple (some "decrypted_message_action_resend_struct") "decrypted_message_action_resend") : Nat × CbEntry),
   ((0x8ac1f475, CbEntry.triple (some "decrypted_message_action_screenshot_messages_struct") "decrypted_message_action_screenshot_messages") : Nat × CbEntry),
   ((0xa1733aec, CbEntry.triple (some "decrypted_message_action_set_message_ttl_struct") "decrypted_message_action_set_message_ttl") : Nat × CbEntry),
   ((0xccb27641, CbEntry.triple (some "decrypted_message_action_typing_struct") "decrypted_message_action_typing") : Nat × CbEntry),
   ((0x1be31789, CbEntry.triple none "decrypted_message_layer") : Nat × CbEntry),
   ((0x99a438cf, CbEntry.pair none "decrypted_message_layer_v_0_1_317") : Nat × CbEntry),
   ((0x57e0a9cb, CbEntry.triple none "decrypted_message_media_audio") : Nat × CbEntry),
   ((0x6080758f, CbEntry.triple none "decrypted_message_media_audio_layer8") : Nat × CbEntry),
   ((0x588a0a97, CbEntry.triple none "decrypted_message_media_contact") : Nat × CbEntry),
   ((0x7afe8ae2, CbEntry.triple none "decrypted_message_media_document") : Nat × CbEntry),
   ((0xb095434b, CbEntry.triple none "decrypted_message_media_document_layer8") : Nat × CbEntry),
   ((0x89f5c4a, CbEntry.triple none "decrypted_message_media_empty") : Nat × CbEntry),
   ((0xfa95b0dd, CbEntry.triple none "decrypted_message_media_external_document") : Nat × CbEntry),
   ((0x35480a59, CbEntry.triple none "decrypted_message_media_geo_point") : Nat × CbEntry),
   ((0xf1fa8d78, CbEntry.triple none "decrypted_message_media_photo") : Nat × CbEntry),
   ((0x32798a8c, CbEntry.triple none "decrypted_message_media_photo_layer8") : Nat × CbEntry),
   ((0x8a0df56f, CbEntry.triple none "decrypted_message_media_venue") : Nat × CbEntry),
   ((0x970c8c0e, CbEntry.triple none "decrypted_message_media_video") : Nat × CbEntry),
   ((0x524a415d, CbEntry.triple none "decrypted_message_media_video_layer17") : Nat × CbEntry),
   ((0x4cee6ef3, CbEntry.triple none "decrypted_message_media_video_layer8") : Nat × CbEntry),
   ((0xe50511d8, CbEntry.triple none "decrypted_message_media_web_page") : Nat × CbEntry),
   ((0x73164160, CbEntry.triple none "decrypted_message_service") : Nat × CbEntry),
   ((0xaa48327d, CbEntry.triple none "decrypted_message_service_layer8") : Nat × CbEntry),
   ((0x204d3878, CbEntry.triple none "decrypted_message_layer17") : Nat × CbEntry),
   ((0x36b091de, CbEntry.triple none "decrypted_message_layer45") : Nat × CbEntry),
   ((0x1f814f1f, CbEntry.triple none "decrypted_message_layer8") : Nat × CbEntry),
   ((0xe7512126, CbEntry.pair none "destroy_session_v_0_1_317") : Nat × CbEntry),
   ((0xa13dc52f, CbEntry.pair none "destroy_sessions_v_0_1_317") : Nat × CbEntry),
   ((0x62d350c9, CbEntry.pair none "destroy_session_none_v_0_1_317") : Nat × CbEntry),
   ((0xe22045fc, CbEntry.pair none "destroy_session_ok_v_0_1_317") : Nat × CbEntry),
   ((0xfb95abcd, CbEntry.pair none "destroy_sessions_res_v_0_1_317") : Nat × CbEntry),
   ((0xa69dae02, CbEntry.pair none "dh_gen_fail_v_0_1_317") : Nat × CbEntry),
   ((0x3bcbf734, CbEntry.pair none "dh_gen_ok_v_0_1_317") : Nat × CbEntry),
   ((0x46dc1fb9, CbEntry.pair none "dh_gen_retry_v_0_1_317") : Nat × CbEntry),
   ((0x2c171f72, CbEntry.triple none "dialog") : Nat × CbEntry),
   ((0x7438f7e8, CbEntry.triple none "dialog_filter") : Nat × CbEntry),
   ((0x77744d4a, CbEntry.triple none "dialog_filter_suggested") : Nat × CbEntry),
   ((0x14f9162c, CbEntry.triple none "dialog_filter_v_5_15_0") : Nat × CbEntry),
   ((0x71bd134c, CbEntry.triple none "dialog_folder") : Nat × CbEntry),
   ((0x214a8cdf, CbEntry.pair none "dialog_v_0_1_317") : Nat × CbEntry),
   ((0xe4def5db, CbEntry.triple none "dialog_v_5_5_0") : Nat × CbEntry),
   ((0xe56dbf05, CbEntry.triple none "dialog_peer") : Nat × CbEntry),
   ((0xda429411, CbEntry.triple none "dialog_peer_feed_v_5_5_0") : Nat × CbEntry),
   ((0x514519e2, CbEntry.triple none "dialog_peer_folder") : Nat × CbEntry),
   ((0x1e87342b, CbEntry.triple (some "document_struct") "document") : Nat × CbEntry),
   ((0x11b58939, CbEntry.triple (some "document_attribute_animated_struct") "document_attribute_animated") : Nat × CbEntry),
   ((0x9852f9c6, CbEntry.triple (some "document_attribute_audio_struct") "document_attribute_audio") : Nat × CbEntry),
   ((0xded218e0, CbEntry.triple (some "document_attribute_audio_layer45_struct") "document_attribute_audio_layer45") : Nat × CbEntry),
   ((0x51448e5, CbEntry.triple (some "document_attribute_audio_old_struct") "document_attribute_audio_old") : Nat × CbEntry),
   ((0x15590068, CbEntry.triple (some "document_attribute_filename_struct") "document_attribute_filename") : Nat × CbEntry),
   ((0x9801d2f7, CbEntry.triple (some "document_attribute_has_stickers_struct") "document_attribute_has_stickers") : Nat × CbEntry),
   ((0x6c37c15c, CbEntry.triple (some "document_attribute_image_size_struct") "document_attribute_image_size") : Nat × CbEntry),
   ((0x6319d612, CbEntry.triple (some "document_attribute_sticker_struct") "document_attribute_sticker") : Nat × CbEntry),
   ((0x3a556302, CbEntry.triple (some "document_attribute_sticker_layer55_struct") "document_attribute_sticker_layer55") : Nat × CbEntry),
   ((0xfb0a5727, CbEntry.triple (some "document_attribute_sticker_old_struct") "document_attribute_sticker_old") : Nat × CbEntry),
   ((0x994c9882, CbEntry.triple (some "document_attribute_sticker_old2_struct") "document_attribute_sticker_old2") : Nat × CbEntry),
   ((0xef02ce6, CbEntry.triple (some "document_attribute_video_struct") "document_attribute_video") : Nat × CbEntry),
   ((0x5910cccb, CbEntry.triple (some "document_attribute_video_layer65_struct") "document_attribute_video_layer65") : Nat × CbEntry),
   ((0x36f8c871, CbEntry.triple (some "document_empty_struct") "document_empty") : Nat × CbEntry),
   ((0x55555558, CbEntry.triple (some "document_encrypted_struct") "document_encrypted") : Nat × CbEntry),
   ((0x55555556, CbEntry.triple (some "document_encrypted_old_struct") "document_encrypted_old") : Nat × CbEntry),
   ((0x9ba29cc1, CbEntry.triple (some "document_layer113_struct") "document_layer113") : Nat × CbEntry),
   ((0xf9a39f4f, CbEntry.triple (some "document_layer53_struct") "document_layer53") : Nat × CbEntry),
   ((0x87232bc7, CbEntry.triple (some "document_layer82_struct") "document_layer82") : Nat × CbEntry),
   ((0x59534e4c, CbEntry.triple (some "document_layer92_struct") "document_layer92") : Nat × CbEntry),
   ((0x9efc6326, CbEntry.triple (some "document_old_struct") "document_old") : Nat × CbEntry),
   ((0xfd8e711f, CbEntry.triple none "draft_message") : Nat × CbEntry),
   ((0x1b0c841a, CbEntry.triple none "draft_message_empty") : Nat × CbEntry),
   ((0xba4baec5, CbEntry.triple none "draft_message_empty_layer81") : Nat × CbEntry),
   ((0xd5b3b9f9, CbEntry.triple none "emoji_keyword") : Nat × CbEntry),
   ((0x236df622, CbEntry.triple none "emoji_keyword_deleted") : Nat × CbEntry),
   ((0x5cc761bd, CbEntry.triple none "emoji_keywords_difference") : Nat × CbEntry),
   ((0xb3fb5361, CbEntry.triple none "emoji_language") : Nat × CbEntry),
   ((0xa575739d, CbEntry.triple none "emoji_url") : Nat × CbEntry),
   ((0xfa56ce36, CbEntry.triple (some "encrypted_chat_struct") "encrypted_chat") : Nat × CbEntry),
   ((0x13d6dd27, CbEntry.triple (some "encrypted_chat_discarded_struct") "encrypted_chat_discarded") : Nat × CbEntry),
   ((0xab7ec0a0, CbEntry.triple (some "encrypted_chat_empty_struct") "encrypted_chat_empty") : Nat × CbEntry),
   ((0x62718a82, CbEntry.triple (some "encrypted_chat_requested_struct") "encrypted_chat_requested") : Nat × CbEntry),
   ((0xc878527e, CbEntry.triple (some "encrypted_chat_requested_layer115_struct") "encrypted_chat_requested_layer115") : Nat × CbEntry),
   ((0xfda9a7b7, CbEntry.triple (some "encrypted_chat_requested_old_struct") "encrypted_chat_requested_old") : Nat × CbEntry),
   ((0x3bf703dc, CbEntry.triple (some "encrypted_chat_waiting_struct") "encrypted_chat_waiting") : Nat × CbEntry),
   ((0x6601d14f, CbEntry.triple (some "encrypted_chat_old_struct") "encrypted_chat_old") : Nat × CbEntry),
   ((0x4a70994c, CbEntry.triple none "encrypted_file") : Nat × CbEntry),
   ((0xc21f497e, CbEntry.triple none "encrypted_file_empty") : Nat × CbEntry),
   ((0xed18c118, CbEntry.triple none "encrypted_message") : Nat × CbEntry),
   ((0x23734b06, CbEntry.triple none "encrypted_message_service") : Nat × CbEntry),
   ((0xc4b9f9bb, CbEntry.triple none "error") : Nat × CbEntry),
   ((0x5dab1af4, CbEntry.triple none "exported_message_link") : Nat × CbEntry),
   ((0x55555554, CbEntry.triple (some "file_encrypted_location_struct") "file_encrypted_location") : Nat × CbEntry),
   ((0x6242c773, CbEntry.triple none "file_hash") : Nat × CbEntry),
   ((0xbc7fc6cd, CbEntry.triple (some "file_location_to_be_deprecated_struct") "file_location_to_be_deprecated") : Nat × CbEntry),
   ((0x53d69076, CbEntry.triple (some "file_location_layer82_struct") "file_location_layer82") : Nat × CbEntry),
   ((0x91d11eb, CbEntry.triple (some "file_location_layer97_struct") "file_location_layer97") : Nat × CbEntry),
   ((0x7c596b46, CbEntry.triple (some "file_location_unavailable_struct") "file_location_unavailable") : Nat × CbEntry),
   ((0xff544e65, CbEntry.triple none "folder") : Nat × CbEntry),
   ((0xe9baa668, CbEntry.triple none "folder_peer") : Nat × CbEntry),
   ((0x1c295881, CbEntry.triple none "folders_delete_folder") : Nat × CbEntry),
   ((0x6847d0ab, CbEntry.triple none "folders_edit_peer_folders") : Nat × CbEntry),
   ((0x162ecc1f, CbEntry.triple none "found_gif") : Nat × CbEntry),
   ((0x9c750409, CbEntry.triple none "found_gif_cached") : Nat × CbEntry),
   ((0x949d9dc, CbEntry.pair none "future_salt_v_0_1_317") : Nat × CbEntry),
   ((0xae500895, CbEntry.pair none "futuresalts_v_0_1_317") : Nat × CbEntry),
   ((0xbdf9653b, CbEntry.triple (some "game_struct") "game") : Nat × CbEntry),
   ((0x75eaea5a, CbEntry.pair none "geo_chat_v_0_1_317") : Nat × CbEntry),
   ((0x4505f8e1, CbEntry.pair none "geo_chat_message_v_0_1_317") : Nat × CbEntry),
   ((0x60311a9b, CbEntry.pair none "geo_chat_message_empty_v_0_1_317") : Nat × CbEntry),
   ((0xd34fa24e, CbEntry.pair none "geo_chat_message_service_v_0_1_317") : Nat × CbEntry),
   ((0x296f104, CbEntry.triple (some "geo_point_struct") "geo_point") : Nat × CbEntry),
   ((0x1117dd5f, CbEntry.triple (some "geo_point_empty_struct") "geo_point_empty") : Nat × CbEntry),
   ((0x2049d70c, CbEntry.triple (some "geo_point_layer81_struct") "geo_point_layer81") : Nat × CbEntry),
   ((0x55b3e8fb, CbEntry.pair none "geochats_checkin_v_0_1_317") : Nat × CbEntry),
   ((0xe092e16, CbEntry.pair none "geochats_create_geo_chat_v_0_1_317") : Nat × CbEntry),
   ((0x35d81a95, CbEntry.pair none "geochats_edit_chat_photo_v_0_1_317") : Nat × CbEntry),
   ((0x4c8e2273, CbEntry.pair none "geochats_edit_chat_title_v_0_1_317") : Nat × CbEntry),
   ((0x6722dd6f, CbEntry.pair none "geochats_get_full_chat_v_0_1_317") : Nat × CbEntry),
   ((0xb53f7a68, CbEntry.pair none "geochats_get_history_v_0_1_317") : Nat × CbEntry),
   ((0x7f192d8f, CbEntry.pair none "geochats_get_located_v_0_1_317") : Nat × CbEntry),
   ((0xe1427e6f, CbEntry.pair none "geochats_get_recents_v_0_1_317") : Nat × CbEntry),
   ((0x48feb267, CbEntry.pair none "geochats_located_v_0_1_317") : Nat × CbEntry),
   ((0xd1526db1, CbEntry.pair none "geochats_messages_v_0_1_317") : Nat × CbEntry),
   ((0xbc5863e8, CbEntry.pair none "geochats_messages_slice_v_0_1_317") : Nat × CbEntry),
   ((0xcfcdc44d, CbEntry.pair none "geochats_search_v_0_1_317") : Nat × CbEntry),
   ((0xb8f0deff, CbEntry.pair none "geochats_send_media_v_0_1_317") : Nat × CbEntry),
   ((0x61b0044, CbEntry.pair none "geochats_send_message_v_0_1_317") : Nat × CbEntry),
   ((0x8b8a729, CbEntry.pair none "geochats_set_typing_v_0_1_317") : Nat × CbEntry),
   ((0x17b1578b, CbEntry.pair none "geochats_stated_message_v_0_1_317") : Nat × CbEntry),
   ((0xb921bd04, CbEntry.pair none "get_future_salts_v_0_1_317") : Nat × CbEntry),
   ((0xbea2f424, CbEntry.triple none "global_privacy_settings") : Nat × CbEntry),
   ((0xa8f1624, CbEntry.triple none "group_call") : Nat × CbEntry),
   ((0x40732163, CbEntry.triple none "group_call_connection") : Nat × CbEntry),
   ((0x7780bcb4, CbEntry.triple none "group_call_discarded") : Nat × CbEntry),
   ((0x589db397, CbEntry.triple none "group_call_participant") : Nat × CbEntry),
   ((0x4f0b39b8, CbEntry.triple none "group_call_participant_admin") : Nat × CbEntry),
   ((0x377496f0, CbEntry.triple none "group_call_participant_invited") : Nat × CbEntry),
   ((0x419b0df2, CbEntry.triple none "group_call_participant_left") : Nat × CbEntry),
   ((0x6d0b1604, CbEntry.triple none "group_call_private") : Nat × CbEntry),
   ((0x3072cfa1, CbEntry.pair none "gzip_packed_v_0_1_317") : Nat × CbEntry),
   ((0xee72f79a, CbEntry.triple none "help_accept_terms_of_service") : Nat × CbEntry),
   ((0x1da7158f, CbEntry.triple none "help_app_update") : Nat × CbEntry),
   ((0x8987f311, CbEntry.pair none "help_app_update_v_0_1_317") : Nat × CbEntry),
   ((0xc812ac7e, CbEntry.pair none "help_get_app_update_v_0_1_317") : Nat × CbEntry),
   ((0x6a4ee832, CbEntry.triple none "help_deep_link_info") : Nat × CbEntry),
   ((0x66afa166, CbEntry.triple none "help_deep_link_info_empty") : Nat × CbEntry),
   ((0x77fa99f, CbEntry.triple none "help_dismiss_suggestion") : Nat × CbEntry),
   ((0x66b91b70, CbEntry.triple none "help_edit_user_info") : Nat × CbEntry),
   ((0x9010ef6f, CbEntry.triple none "help_get_app_changelog") : Nat × CbEntry),
   ((0x98914110, CbEntry.triple none "help_get_app_config") : Nat × CbEntry),
   ((0x522d5a7d, CbEntry.triple none "help_get_app_update") : Nat × CbEntry),
   ((0xc4f9186b, CbEntry.triple none "help_get_config") : Nat × CbEntry),
   ((0x3fedc75f, CbEntry.triple none "help_get_deep_link_info") : Nat × CbEntry),
   ((0x4d392343, CbEntry.triple none "help_get_invite_text") : Nat × CbEntry),
   ((0xa4a95186, CbEntry.pair none "help_get_invite_text_v_0_1_317") : Nat × CbEntry),
   ((0x1fb33026, CbEntry.triple none "help_get_nearest_dc") : Nat × CbEntry),
   ((0xc661ad08, CbEntry.triple none "help_get_passport_config") : Nat × CbEntry),
   ((0xc0977421, CbEntry.triple none "help_get_promo_data") : Nat × CbEntry),
   ((0x3d7758e1, CbEntry.triple none "help_get_proxy_data") : Nat × CbEntry),
   ((0x3dc0f114, CbEntry.triple none "help_get_recent_me_urls") : Nat × CbEntry),
   ((0x9cdf08cd, CbEntry.triple none "help_get_support") : Nat × CbEntry),
   ((0xd360e72c, CbEntry.triple none "help_get_support_name") : Nat × CbEntry),
   ((0x2ca51fd1, CbEntry.triple none "help_get_terms_of_service_update") : Nat × CbEntry),
   ((0x38a08d3, CbEntry.triple none "help_get_user_info") : Nat × CbEntry),
   ((0x1e251c95, CbEntry.triple none "help_hide_promo_data") : Nat × CbEntry),
   ((0x18cb9f78, CbEntry.triple none "help_invite_text") : Nat × CbEntry),
   ((0xc45a6536, CbEntry.triple none "help_no_app_update") : Nat × CbEntry),
   ((0xa098d6af, CbEntry.triple none "help_passport_config") : Nat × CbEntry),
   ((0xbfb9f457, CbEntry.triple none "help_passport_config_not_modified") : Nat × CbEntry),
   ((0x98f6ac75, CbEntry.triple none "help_promo_data_empty") : Nat × CbEntry),
   ((0x8c39793f, CbEntry.triple none "help_promo_data") : Nat × CbEntry),
   ((0xe09e1fb8, CbEntry.triple none "help_proxy_data_empty") : Nat × CbEntry),
   ((0x2bf7ee23, CbEntry.triple none "help_proxy_data_promo") : Nat × CbEntry),
   ((0xe0310d7, CbEntry.triple none "help_recent_me_urls") : Nat × CbEntry),
   ((0x6f02f748, CbEntry.triple none "help_save_app_log") : Nat × CbEntry),
   ((0xec22cfcd, CbEntry.triple none "help_set_bot_updates_status") : Nat × CbEntry),
   ((0x17c6b5f6, CbEntry.triple none "help_support") : Nat × CbEntry),
   ((0x8c05f1c9, CbEntry.triple none "help_support_name") : Nat × CbEntry),
   ((0x780a0310, CbEntry.triple none "help_terms_of_service") : Nat × CbEntry),
   ((0x28ecf961, CbEntry.triple none "help_terms_of_service_update") : Nat × CbEntry),
   ((0xe3309f7f, CbEntry.triple none "help_terms_of_service_update_empty") : Nat × CbEntry),
   ((0x1eb3758, CbEntry.triple none "help_user_info") : Nat × CbEntry),
   ((0xf3ae2eed, CbEntry.triple none "help_user_info_empty") : Nat × CbEntry),
   ((0x58fffcd0, CbEntry.triple none "high_score") : Nat × CbEntry),
   ((0x9299359f, CbEntry.pair none "http_wait_v_0_1_317") : Nat × CbEntry),
   ((0xd0028438, CbEntry.triple none "imported_contact") : Nat × CbEntry),
   ((0x69796de9, CbEntry.pair none "init_connection_v_0_1_317") : Nat × CbEntry),
   ((0x3c20629f, CbEntry.triple none "inline_bot_switch_p_m") : Nat × CbEntry),
   ((0x1d1b1245, CbEntry.triple none "input_app_event") : Nat × CbEntry),
   ((0x770656a8, CbEntry.pair none "input_app_event_v_0_1_317") : Nat × CbEntry),
   ((0x77d440ff, CbEntry.pair none "input_audio_v_0_1_317") : Nat × CbEntry),
   ((0xd95adc84, CbEntry.pair none "input_audio_empty_v_0_1_317") : Nat × CbEntry),
   ((0x74dc404d, CbEntry.pair none "input_audio_file_location_v_0_1_317") : Nat × CbEntry),
   ((0x890c3d89, CbEntry.triple none "input_bot_inline_message_id") : Nat × CbEntry),
   ((0xafeb712e, CbEntry.triple (some "input_channel_struct") "input_channel") : Nat × CbEntry),
   ((0xee8c1e86, CbEntry.triple (some "input_channel_empty_struct") "input_channel_empty") : Nat × CbEntry),
   ((0x2a286531, CbEntry.triple none "input_channel_from_message") : Nat × CbEntry),
   ((0x8953ad37, CbEntry.triple none "input_chat_photo") : Nat × CbEntry),
   ((0xb2e1bf08, CbEntry.pair none "input_chat_photo_v_0_1_317") : Nat × CbEntry),
   ((0x1ca48f57, CbEntry.triple none "input_chat_photo_empty") : Nat × CbEntry),
   ((0xc642724e, CbEntry.triple none "input_chat_uploaded_photo") : Nat × CbEntry),
   ((0x927c55b4, CbEntry.triple none "input_chat_uploaded_photo_v_5_15_0") : Nat × CbEntry),
   ((0x94254732, CbEntry.pair none "input_chat_uploaded_photo_v_0_1_317") : Nat × CbEntry),
   ((0x9880f658, CbEntry.triple none "input_check_password_empty") : Nat × CbEntry),
   ((0xd27ff082, CbEntry.triple none "input_check_password_s_r_p") : Nat × CbEntry),
   ((0xfcaafeb7, CbEntry.triple none "input_dialog_peer") : Nat × CbEntry),
   ((0x2c38b8cf, CbEntry.triple none "input_dialog_peer_feed_v_5_5_0") : Nat × CbEntry),
   ((0x64600527, CbEntry.triple none "input_dialog_peer_folder") : Nat × CbEntry),
   ((0x1abfb575, CbEntry.triple none "input_document") : Nat × CbEntry),
   ((0x72f0eaae, CbEntry.triple none "input_document_empty") : Nat × CbEntry),
   ((0xbad07584, CbEntry.triple none "input_document_file_location") : Nat × CbEntry),
   ((0x4e45abe9, CbEntry.pair none "input_document_file_location_v_0_1_317") : Nat × CbEntry),
   ((0x196683d9, CbEntry.triple none "input_document_file_location_v_5_5_0") : Nat × CbEntry),
   ((0x18798952, CbEntry.pair none "input_document_v_0_1_317") : Nat × CbEntry),
   ((0xf141b5e1, CbEntry.triple none "input_encrypted_chat") : Nat × CbEntry),
   ((0x5a17b5e5, CbEntry.triple none "input_encrypted_file") : Nat × CbEntry),
   ((0x2dc173c8, CbEntry.triple none "input_encrypted_file_big_uploaded") : Nat × CbEntry),
   ((0x1837c364, CbEntry.triple none "input_encrypted_file_empty") : Nat × CbEntry),
   ((0xf5235d55, CbEntry.triple none "input_encrypted_file_location") : Nat × CbEntry),
   ((0x64bd0306, CbEntry.triple none "input_encrypted_file_uploaded") : Nat × CbEntry),
   ((0xf52ff27f, CbEntry.triple none "input_file") : Nat × CbEntry),
   ((0xfa4f0bb5, CbEntry.triple none "input_file_big") : Nat × CbEntry),
   ((0xdfdaabe1, CbEntry.triple none "input_file_location") : Nat × CbEntry),
   ((0x14637196, CbEntry.pair none "input_file_location_v_0_1_317") : Nat × CbEntry),
   ((0xfbd2c296, CbEntry.triple none "input_folder_peer") : Nat × CbEntry),
   ((0x32c3e77, CbEntry.triple none "input_game_id") : Nat × CbEntry),
   ((0xc331e80a, CbEntry.triple none "input_game_short_name") : Nat × CbEntry),
   ((0x74d456fa, CbEntry.pair none "input_geo_chat_v_0_1_317") : Nat × CbEntry),
   ((0xf3b7acc9, CbEntry.triple none "input_geo_point") : Nat × CbEntry),
   ((0xe4c123d6, CbEntry.triple none "input_geo_point_empty") : Nat × CbEntry),
   ((0xd8aa840f, CbEntry.triple (some "input_group_call_struct") "input_group_call") : Nat × CbEntry),
   ((0xd02e7fd4, CbEntry.triple none "input_keyboard_button_url_auth") : Nat × CbEntry),
   ((0x89938781, CbEntry.pair none "input_media_audio_v_0_1_317") : Nat × CbEntry),
   ((0xf8ab7dfb, CbEntry.triple none "input_media_contact") : Nat × CbEntry),
   ((0xa6e45987, CbEntry.pair none "input_media_contact_v_0_1_317") : Nat × CbEntry),
   ((0xe66fbf7b, CbEntry.triple none "input_media_dice") : Nat × CbEntry),
   ((0x23ab23d2, CbEntry.triple none "input_media_document") : Nat × CbEntry),
   ((0xfb52dc99, CbEntry.triple none "input_media_document_external") : Nat × CbEntry),
   ((0xd184e841, CbEntry.pair none "input_media_document_v_0_1_317") : Nat × CbEntry),
   ((0x9664f57f, CbEntry.triple none "input_media_empty") : Nat × CbEntry),
   ((0xd33f43f3, CbEntry.triple none "input_media_game") : Nat × CbEntry),
   ((0xce4e82fd, CbEntry.triple none "input_media_geo_live") : Nat × CbEntry),
   ((0xf9c44144, CbEntry.triple none "input_media_geo_point") : Nat × CbEntry),
   ((0x4843b0fd, CbEntry.triple none "input_media_gif_external") : Nat × CbEntry),
   ((0xb3ba0635, CbEntry.triple none "input_media_photo") : Nat × CbEntry),
   ((0xe5bbfe1a, CbEntry.triple none "input_media_photo_external") : Nat × CbEntry),
   ((0x8f2ab2ec, CbEntry.pair none "input_media_photo_v_0_1_317") : Nat × CbEntry),
   ((0xf94e5f1, CbEntry.triple none "input_media_poll") : Nat × CbEntry),
   ((0xabe9ca25, CbEntry.triple none "input_media_poll_v_5_15_0") : Nat × CbEntry),
   ((0x6b3765b, CbEntry.triple none "input_media_poll_v_5_6_2") : Nat × CbEntry),
   ((0x61a6d436, CbEntry.pair none "input_media_uploaded_audio_v_0_1_317") : Nat × CbEntry),
   ((0x5b38c6c1, CbEntry.triple none "input_media_uploaded_document") : Nat × CbEntry),
   ((0x34e794bd, CbEntry.pair none "input_media_uploaded_document_v_0_1_317") : Nat × CbEntry),
   ((0x1e287d04, CbEntry.triple none "input_media_uploaded_photo") : Nat × CbEntry),
   ((0x2dc53a7d, CbEntry.pair none "input_media_uploaded_photo_v_0_1_317") : Nat × CbEntry),
   ((0x3e46de5d, CbEntry.pair none "input_media_uploaded_thumb_document_v_0_1_317") : Nat × CbEntry),
   ((0xe628a145, CbEntry.pair none "input_media_uploaded_thumb_video_v_0_1_317") : Nat × CbEntry),
   ((0x4847d92a, CbEntry.pair none "input_media_uploaded_video_v_0_1_317") : Nat × CbEntry),
   ((0xc13d1c11, CbEntry.triple none "input_media_venue") : Nat × CbEntry),
   ((0x7f023ae6, CbEntry.pair none "input_media_video_v_0_1_317") : Nat × CbEntry),
   ((0x208e68c9, CbEntry.triple (some "input_message_entity_mention_name_struct") "input_message_entity_mention_name") : Nat × CbEntry),
   ((0x3a20ecb8, CbEntry.triple none "input_messages_filter_chat_photos") : Nat × CbEntry),
   ((0xe062db83, CbEntry.triple none "input_messages_filter_contacts") : Nat × CbEntry),
   ((0x9eddf188, CbEntry.triple none "input_messages_filter_document") : Nat × CbEntry),
   ((0x57e2f66c, CbEntry.triple none "input_messages_filter_empty") : Nat × CbEntry),
   ((0xe7026d0d, CbEntry.triple none "input_messages_filter_geo") : Nat × CbEntry),
   ((0xffc86587, CbEntry.triple none "input_messages_filter_gif") : Nat × CbEntry),
   ((0x3751b49e, CbEntry.triple none "input_messages_filter_music") : Nat × CbEntry),
   ((0xc1f8e69a, CbEntry.triple none "input_messages_filter_my_mentions") : Nat × CbEntry),
   ((0x80c99768, CbEntry.triple none "input_messages_filter_phone_calls") : Nat × CbEntry),
   ((0x56e9f0e4, CbEntry.triple none "input_messages_filter_photo_video") : Nat × CbEntry),
   ((0xd95e73bb, CbEntry.triple none "input_messages_filter_photo_video_documents") : Nat × CbEntry),
   ((0x9609a51c, CbEntry.triple none "input_messages_filter_photos") : Nat × CbEntry),
   ((0xb549da53, CbEntry.triple none "input_messages_filter_round_video") : Nat × CbEntry),
   ((0x7a7c17a4, CbEntry.triple none "input_messages_filter_round_voice") : Nat × CbEntry),
   ((0x7ef0dd87, CbEntry.triple none "input_messages_filter_url") : Nat × CbEntry),
   ((0x9fc00e65, CbEntry.triple none "input_messages_filter_video") : Nat × CbEntry),
   ((0x50f5c392, CbEntry.triple none "input_messages_filter_voice") : Nat × CbEntry),
   ((0xa429b886, CbEntry.pair none "input_notify_all_v_0_1_317") : Nat × CbEntry),
   ((0xb1db7c7e, CbEntry.triple none "input_notify_broadcasts") : Nat × CbEntry),
   ((0x4a95e84e, CbEntry.triple none "input_notify_chats") : Nat × CbEntry),
   ((0x4d8ddec8, CbEntry.pair none "input_notify_geo_chat_peer_v_0_1_317") : Nat × CbEntry),
   ((0xb8bc5b0c, CbEntry.triple none "input_notify_peer") : Nat × CbEntry),
   ((0x193b4417, CbEntry.triple none "input_notify_users") : Nat × CbEntry),
   ((0x3417d728, CbEntry.triple none "input_payment_credentials") : Nat × CbEntry),
   ((0xca05d50e, CbEntry.triple none "input_payment_credentials_android_pay") : Nat × CbEntry),
   ((0xc10eb2cf, CbEntry.triple none "input_payment_credentials_saved") : Nat × CbEntry),
   ((0x20adaef8, CbEntry.triple none "input_peer_channel") : Nat × CbEntry),
   ((0x9c95f7bb, CbEntry.triple none "input_peer_channel_from_message") : Nat × CbEntry),
   ((0x179be863, CbEntry.triple none "input_peer_chat") : Nat × CbEntry),
   ((0x1023dbe8, CbEntry.pair none "input_peer_contact_v_0_1_317") : Nat × CbEntry),
   ((0x7f3b18ea, CbEntry.triple none "input_peer_empty") : Nat × CbEntry),
   ((0x9b447325, CbEntry.pair none "input_peer_foreign_v_0_1_317") : Nat × CbEntry),
   ((0xe86a2c74, CbEntry.pair none "input_peer_notify_events_all_v_0_1_317") : Nat × CbEntry),
   ((0xf03064d8, CbEntry.pair none "input_peer_notify_events_empty_v_0_1_317") : Nat × CbEntry),
   ((0x9c3d198e, CbEntry.triple none "input_peer_notify_settings") : Nat × CbEntry),
   ((0x46a2ce98, CbEntry.pair none "input_peer_notify_settings_v_0_1_317") : Nat × CbEntry),
   ((0x27d69997, CbEntry.triple none "input_peer_photo_file_location") : Nat × CbEntry),
   ((0x7da07ec9, CbEntry.triple none "input_peer_self") : Nat × CbEntry),
   ((0x7b8e7de6, CbEntry.triple none "input_peer_user") : Nat × CbEntry),
   ((0x17bae2e6, CbEntry.triple none "input_peer_user_from_message") : Nat × CbEntry),
   ((0x1e36fded, CbEntry.triple none "input_phone_call") : Nat × CbEntry),
   ((0xf392b7f4, CbEntry.triple none "input_phone_contact") : Nat × CbEntry),
   ((0x3bb3b94a, CbEntry.triple none "input_photo") : Nat × CbEntry),
   ((0xd9915325, CbEntry.pair none "input_photo_crop_v_0_1_317") : Nat × CbEntry),
   ((0xade6b004, CbEntry.pair none "input_photo_crop_auto_v_0_1_317") : Nat × CbEntry),
   ((0x1cd7bf0d, CbEntry.triple none "input_photo_empty") : Nat × CbEntry),
   ((0x40181ffe, CbEntry.triple none "input_photo_file_location") : Nat × CbEntry),
   ((0xfb95c6c4, CbEntry.pair none "input_photo_v_0_1_317") : Nat × CbEntry),
   ((0xd1219bdd, CbEntry.triple none "input_privacy_key_added_by_phone") : Nat × CbEntry),
   ((0xbdfb0426, CbEntry.triple none "input_privacy_key_chat_invite") : Nat × CbEntry),
   ((0xa4dd4c08, CbEntry.triple none "input_privacy_key_forwards") : Nat × CbEntry),
   ((0xfabadc5f, CbEntry.triple none "input_privacy_key_phone_call") : Nat × CbEntry),
   ((0x352dafa, CbEntry.triple none "input_privacy_key_phone_number") : Nat × CbEntry),
   ((0xdb9e70d2, CbEntry.triple none "input_privacy_key_phone_p2_p") : Nat × CbEntry),
   ((0x5719bacc, CbEntry.triple none "input_privacy_key_profile_photo") : Nat × CbEntry),
   ((0x4f96cb18, CbEntry.triple none "input_privacy_key_status_timestamp") : Nat × CbEntry),
   ((0x184b35ce, CbEntry.triple none "input_privacy_value_allow_all") : Nat × CbEntry),
   ((0x4c81c1ba, CbEntry.triple none "input_privacy_value_allow_chat_participants") : Nat × CbEntry),
   ((0xd09e07b, CbEntry.triple none "input_privacy_value_allow_contacts") : Nat × CbEntry),
   ((0x131cc67f, CbEntry.triple none "input_privacy_value_allow_users") : Nat × CbEntry),
   ((0xd66b66c9, CbEntry.triple none "input_privacy_value_disallow_all") : Nat × CbEntry),
   ((0xd82363af, CbEntry.triple none "input_privacy_value_disallow_chat_participants") : Nat × CbEntry),
   ((0xba52007, CbEntry.triple none "input_privacy_value_disallow_contacts") : Nat × CbEntry),
   ((0x90110467, CbEntry.triple none "input_privacy_value_disallow_users") : Nat × CbEntry),
   ((0xadf44ee3, CbEntry.triple none "input_report_reason_child_abuse") : Nat × CbEntry),
   ((0x9b89f93a, CbEntry.triple none "input_report_reason_copyright") : Nat × CbEntry),
   ((0xdbd4feed, CbEntry.triple none "input_report_reason_geo_irrelevant") : Nat × CbEntry),
   ((0xe1746d0a, CbEntry.triple none "input_report_reason_other") : Nat × CbEntry),
   ((0x2e59d922, CbEntry.triple none "input_report_reason_pornography") : Nat × CbEntry),
   ((0x58dbcab8, CbEntry.triple none "input_report_reason_spam") : Nat × CbEntry),
   ((0x1e22c78d, CbEntry.triple none "input_report_reason_violence") : Nat × CbEntry),
   ((0x5367e5be, CbEntry.triple none "input_secure_file") : Nat × CbEntry),
   ((0xcbc7ee28, CbEntry.triple none "input_secure_file_location") : Nat × CbEntry),
   ((0x3334b0f0, CbEntry.triple none "input_secure_file_uploaded") : Nat × CbEntry),
   ((0xdb21d0a7, CbEntry.triple none "input_secure_value") : Nat × CbEntry),
   ((0x1cc6e91f, CbEntry.triple none "input_single_media") : Nat × CbEntry),
   ((0x28703c8, CbEntry.triple (some "input_sticker_set_animated_emoji_struct") "input_sticker_set_animated_emoji") : Nat × CbEntry),
   ((0xe67f520e, CbEntry.triple (some "input_sticker_set_dice_struct") "input_sticker_set_dice") : Nat × CbEntry),
   ((0xffb62b95, CbEntry.triple (some "input_sticker_set_empty_struct") "input_sticker_set_empty") : Nat × CbEntry),
   ((0x9de7a269, CbEntry.triple (some "input_sticker_set_id_struct") "input_sticker_set_id") : Nat × CbEntry),
   ((0x861cc8a0, CbEntry.triple (some "input_sticker_set_short_name_struct") "input_sticker_set_short_name") : Nat × CbEntry),
   ((0xdbaeae9, CbEntry.triple none "input_sticker_set_thumb") : Nat × CbEntry),
   ((0x438865b, CbEntry.triple none "input_stickered_media_document") : Nat × CbEntry),
   ((0x4a992157, CbEntry.triple none "input_stickered_media_photo") : Nat × CbEntry),
   ((0x3c5693e9, CbEntry.triple none "input_theme") : Nat × CbEntry),
   ((0xbd507cd1, CbEntry.triple none "input_theme_settings") : Nat × CbEntry),
   ((0xf5890df1, CbEntry.triple none "input_theme_slug") : Nat × CbEntry),
   ((0xd8292816, CbEntry.triple (some "input_user_struct") "input_user") : Nat × CbEntry),
   ((0x86e94f65, CbEntry.pair none "input_user_contact_v_0_1_317") : Nat × CbEntry),
   ((0xb98886cf, CbEntry.triple (some "input_user_empty_struct") "input_user_empty") : Nat × CbEntry),
   ((0x655e74ff, CbEntry.pair none "input_user_foreign_v_0_1_317") : Nat × CbEntry),
   ((0x2d117597, CbEntry.triple none "input_user_from_message") : Nat × CbEntry),
   ((0xf7c1b13f, CbEntry.triple none "input_user_self") : Nat × CbEntry),
   ((0xee579652, CbEntry.pair none "input_video_v_0_1_317") : Nat × CbEntry),
   ((0x5508ec75, CbEntry.pair none "input_video_empty_v_0_1_317") : Nat × CbEntry),
   ((0x3d0364ec, CbEntry.pair none "input_video_file_location_v_0_1_317") : Nat × CbEntry),
   ((0xe630b979, CbEntry.triple none "input_wall_paper") : Nat × CbEntry),
   ((0x8427bbac, CbEntry.triple none "input_wall_paper_no_file") : Nat × CbEntry),
   ((0x72091c80, CbEntry.triple none "input_wall_paper_slug") : Nat × CbEntry),
   ((0x9bed434d, CbEntry.triple none "input_web_document") : Nat × CbEntry),
   ((0x9f2221c9, CbEntry.triple none "input_web_file_geo_point_location") : Nat × CbEntry),
   ((0xc239d686, CbEntry.triple none "input_web_file_location") : Nat × CbEntry),
   ((0xc30aa358, CbEntry.triple none "invoice") : Nat × CbEntry),
   ((0xcb9f372d, CbEntry.pair none "invoke_after_msg_v_0_1_317") : Nat × CbEntry),
   ((0xa6b88fdf, CbEntry.pair none "invoke_with_layer11_v_0_1_317") : Nat × CbEntry),
   ((0xf7444763, CbEntry.triple none "json_array") : Nat × CbEntry),
   ((0xc7345e6a, CbEntry.triple none "json_bool") : Nat × CbEntry),
   ((0x3f6d7b68, CbEntry.triple none "json_null") : Nat × CbEntry),
   ((0x2be0dfa4, CbEntry.triple none "json_number") : Nat × CbEntry),
   ((0x99c1d49d, CbEntry.triple none "json_object") : Nat × CbEntry),
   ((0xc0de1bd9, CbEntry.triple none "json_object_value") : Nat × CbEntry),
   ((0xb71e767a, CbEntry.triple none "json_string") : Nat × CbEntry),
   ((0xa2fa4880, CbEntry.triple (some "keyboard_button_struct") "keyboard_button") : Nat × CbEntry),
   ((0xafd93fbb, CbEntry.triple (some "keyboard_button_buy_struct") "keyboard_button_buy") : Nat × CbEntry),
   ((0x683a5e46, CbEntry.triple (some "keyboard_button_callback_struct") "keyboard_button_callback") : Nat × CbEntry),
   ((0x50f41ccf, CbEntry.triple (some "keyboard_button_game_struct") "keyboard_button_game") : Nat × CbEntry),
   ((0xfc796b3f, CbEntry.triple (some "keyboard_button_request_geo_location_struct") "keyboard_button_request_geo_location") : Nat × CbEntry),
   ((0xb16a6c29, CbEntry.triple (some "keyboard_button_request_phone_struct") "keyboard_button_request_phone") : Nat × CbEntry),
   ((0xbbc7515d, CbEntry.triple (some "keyboard_button_request_poll_struct") "keyboard_button_request_poll") : Nat × CbEntry),
   ((0x77608b83, CbEntry.triple (some "keyboard_button_row_struct") "keyboard_button_row") : Nat × CbEntry),
   ((0x568a748, CbEntry.triple (some "keyboard_button_switch_inline_struct") "keyboard_button_switch_inline") : Nat × CbEntry),
   ((0x258aff05, CbEntry.triple (some "keyboard_button_url_struct") "keyboard_button_url") : Nat × CbEntry),
   ((0x10b78d29, CbEntry.triple (some "keyboard_button_url_auth_struct") "keyboard_button_url_auth") : Nat × CbEntry),
   ((0xcb296bf8, CbEntry.triple none "labeled_price") : Nat × CbEntry),
   ((0xf385c1f6, CbEntry.triple none "lang_pack_difference") : Nat × CbEntry),
   ((0xeeca5ce3, CbEntry.triple none "lang_pack_language") : Nat × CbEntry),
   ((0xcad181f6, CbEntry.triple none "lang_pack_string") : Nat × CbEntry),
   ((0x2979eeb2, CbEntry.triple none "lang_pack_string_deleted") : Nat × CbEntry),
   ((0x6c47ac9f, CbEntry.triple none "lang_pack_string_pluralized") : Nat × CbEntry),
   ((0xcd984aa5, CbEntry.triple none "langpack_get_difference") : Nat × CbEntry),
   ((0x9ab5c58e, CbEntry.triple none "langpack_get_lang_pack") : Nat × CbEntry),
   ((0x6a596502, CbEntry.triple none "langpack_get_language") : Nat × CbEntry),
   ((0x800fd57d, CbEntry.triple none "langpack_get_languages") : Nat × CbEntry),
   ((0x2e1ee318, CbEntry.triple none "langpack_get_strings") : Nat × CbEntry),
   ((0xaed6dbb2, CbEntry.triple (some "mask_coords_struct") "mask_coords") : Nat × CbEntry),
   ((0x452c0e65, CbEntry.triple (some "message_struct") "message") : Nat × CbEntry),
   ((0xabe9affe, CbEntry.triple (some "message_action_bot_allowed_struct") "message_action_bot_allowed") : Nat × CbEntry),
   ((0x95d2ac92, CbEntry.triple (some "message_action_channel_create_struct") "message_action_channel_create") : Nat × CbEntry),
   ((0xb055eaee, CbEntry.triple (some "message_action_channel_migrate_from_struct") "message_action_channel_migrate_from") : Nat × CbEntry),
   ((0x488a7337, CbEntry.triple (some "message_action_chat_add_user_struct") "message_action_chat_add_user") : Nat × CbEntry),
   ((0x5e3cfc4b, CbEntry.triple (some "message_action_chat_add_user_old_struct") "message_action_chat_add_user_old") : Nat × CbEntry),
   ((0xa6638b9a, CbEntry.triple (some "message_action_chat_create_struct") "message_action_chat_create") : Nat × CbEntry),
   ((0xb2ae9b0c, CbEntry.triple (some "message_action_chat_delete_user_struct") "message_action_chat_delete_user") : Nat × CbEntry),
   ((0x95e3fbef, CbEntry.triple (some "message_action_chat_delete_photo_struct") "message_action_chat_delete_photo") : Nat × CbEntry),
   ((0x7fcb13a8, CbEntry.triple (some "message_action_chat_edit_photo_struct") "message_action_chat_edit_photo") : Nat × CbEntry),
   ((0xb5a1ce5a, CbEntry.triple (some "message_action_chat_edit_title_struct") "message_action_chat_edit_title") : Nat × CbEntry),
   ((0xf89cf5e8, CbEntry.triple (some "message_action_chat_joined_by_link_struct") "message_action_chat_joined_by_link") : Nat × CbEntry),
   ((0x51bdb021, CbEntry.triple (some "message_action_chat_migrate_to_struct") "message_action_chat_migrate_to") : Nat × CbEntry),
   ((0xf3f25f76, CbEntry.triple (some "message_action_contact_sign_up_struct") "message_action_contact_sign_up") : Nat × CbEntry),
   ((0x55555557, CbEntry.triple (some "message_action_created_broadcast_list_struct") "message_action_created_broadcast_list") : Nat × CbEntry),
   ((0xfae69f56, CbEntry.triple (some "message_action_custom_action_struct") "message_action_custom_action") : Nat × CbEntry),
   ((0xb6aef7b0, CbEntry.triple (some "message_action_empty_struct") "message_action_empty") : Nat × CbEntry),
   ((0x92a72876, CbEntry.triple (some "message_action_game_score_struct") "message_action_game_score") : Nat × CbEntry),
   ((0xc7d53de, CbEntry.pair none "message_action_geo_chat_checkin_v_0_1_317") : Nat × CbEntry),
   ((0x6f038ebc, CbEntry.pair none "message_action_geo_chat_create_v_0_1_317") : Nat × CbEntry),
   ((0x7a0d7f42, CbEntry.triple (some "message_action_group_call_struct") "message_action_group_call") : Nat × CbEntry),
   ((0x9fbab604, CbEntry.triple (some "message_action_history_clear_struct") "message_action_history_clear") : Nat × CbEntry),
   ((0x555555f5, CbEntry.triple (some "message_action_login_unknown_location_struct") "message_action_login_unknown_location") : Nat × CbEntry),
   ((0x40699cd0, CbEntry.triple (some "message_action_payment_sent_struct") "message_action_payment_sent") : Nat × CbEntry),
   ((0x80e11a7f, CbEntry.triple (some "message_action_phone_call_struct") "message_action_phone_call") : Nat × CbEntry),
   ((0x94bd38ed, CbEntry.triple (some "message_action_pin_message_struct") "message_action_pin_message") : Nat × CbEntry),
   ((0x4792929b, CbEntry.triple (some "message_action_screenshot_taken_struct") "message_action_screenshot_taken") : Nat × CbEntry),
   ((0xd95c6154, CbEntry.triple (some "message_action_secure_values_sent_struct") "message_action_secure_values_sent") : Nat × CbEntry),
   ((0x55555552, CbEntry.triple (some "message_action_ttl_change_struct") "message_action_ttl_change") : Nat × CbEntry),
   ((0x55555550, CbEntry.triple (some "message_action_user_joined_struct") "message_action_user_joined") : Nat × CbEntry),
   ((0x55555551, CbEntry.triple (some "message_action_user_updated_photo_struct") "message_action_user_updated_photo") : Nat × CbEntry),
   ((0x83e5de54, CbEntry.triple (some "message_empty_struct") "message_empty") : Nat × CbEntry),
   ((0x555555f7, CbEntry.triple (some "message_encrypted_action_struct") "message_encrypted_action") : Nat × CbEntry),
   ((0x761e6af4, CbEntry.triple (some "message_entity_bank_card_struct") "message_entity_bank_card") : Nat × CbEntry),
   ((0x20df5d0, CbEntry.triple (some "message_entity_blockquote_struct") "message_entity_blockquote") : Nat × CbEntry),
   ((0xbd610bc9, CbEntry.triple (some "message_entity_bold_struct") "message_entity_bold") : Nat × CbEntry),
   ((0x6cef8ac7, CbEntry.triple (some "message_entity_bot_command_struct") "message_entity_bot_command") : Nat × CbEntry),
   ((0x4c4e743f, CbEntry.triple (some "message_entity_cashtag_struct") "message_entity_cashtag") : Nat × CbEntry),
   ((0x28a20571, CbEntry.triple (some "message_entity_code_struct") "message_entity_code") : Nat × CbEntry),
   ((0x64e475c2, CbEntry.triple (some "message_entity_email_struct") "message_entity_email") : Nat × CbEntry),
   ((0x6f635b0d, CbEntry.triple (some "message_entity_hashtag_struct") "message_entity_hashtag") : Nat × CbEntry),
   ((0x826f8b60, CbEntry.triple (some "message_entity_italic_struct") "message_entity_italic") : Nat × CbEntry),
   ((0xfa04579d, CbEntry.triple (some "message_entity_mention_struct") "message_entity_mention") : Nat × CbEntry),
   ((0x352dca58, CbEntry.triple (some "message_entity_mention_name_struct") "message_entity_mention_name") : Nat × CbEntry),
   ((0x9b69e34b, CbEntry.triple (some "message_entity_phone_struct") "message_entity_phone") : Nat × CbEntry),
   ((0x73924be0, CbEntry.triple (some "message_entity_pre_struct") "message_entity_pre") : Nat × CbEntry),
   ((0xbf0693d4, CbEntry.triple (some "message_entity_strike_struct") "message_entity_strike") : Nat × CbEntry),
   ((0x76a6d327, CbEntry.triple (some "message_entity_text_url_struct") "message_entity_text_url") : Nat × CbEntry),
   ((0x9c4e7e8b, CbEntry.triple (some "message_entity_underline_struct") "message_entity_underline") : Nat × CbEntry),
   ((0xbb92ba95, CbEntry.triple (some "message_entity_unknown_struct") "message_entity_unknown") : Nat × CbEntry),
   ((0x6ed02538, CbEntry.triple (some "message_entity_url_struct") "message_entity_url") : Nat × CbEntry),
   ((0x5f46804, CbEntry.triple (some "message_forwarded_old_struct") "message_forwarded_old") : Nat × CbEntry),
   ((0xa367e716, CbEntry.triple (some "message_forwarded_old2_struct") "message_forwarded_old2") : Nat × CbEntry),
   ((0x353a686b, CbEntry.triple (some "message_fwd_header_struct") "message_fwd_header") : Nat × CbEntry),
   ((0xec338270, CbEntry.triple (some "message_fwd_header_layer112_struct") "message_fwd_header_layer112") : Nat × CbEntry),
   ((0xc786ddcb, CbEntry.triple (some "message_fwd_header_layer68_struct") "message_fwd_header_layer68") : Nat × CbEntry),
   ((0xfadff4ac, CbEntry.triple (some "message_fwd_header_layer72_struct") "message_fwd_header_layer72") : Nat × CbEntry),
   ((0x559ebe6d, CbEntry.triple (some "message_fwd_header_layer96_struct") "message_fwd_header_layer96") : Nat × CbEntry),
   ((0xad4fc9bd, CbEntry.triple none "message_interaction_counters") : Nat × CbEntry),
   ((0xc6b68300, CbEntry.triple (some "message_media_audio_layer45_struct") "message_media_audio_layer45") : Nat × CbEntry),
   ((0xcbf24940, CbEntry.triple (some "message_media_contact_struct") "message_media_contact") : Nat × CbEntry),
   ((0x5e7d2f39, CbEntry.triple (some "message_media_contact_layer81_struct") "message_media_contact_layer81") : Nat × CbEntry),
   ((0x3f7ee58b, CbEntry.triple (some "message_media_dice_struct") "message_media_dice") : Nat × CbEntry),
   ((0x638fe46b, CbEntry.triple (some "message_media_dice_layer111_struct") "message_media_dice_layer111") : Nat × CbEntry),
   ((0x9cb070d7, CbEntry.triple (some "message_media_document_struct") "message_media_document") : Nat × CbEntry),
   ((0xf3e02ea8, CbEntry.triple (some "message_media_document_layer68_struct") "message_media_document_layer68") : Nat × CbEntry),
   ((0x7c4414d3, CbEntry.triple (some "message_media_document_layer74_struct") "message_media_document_layer74") : Nat × CbEntry),
   ((0x2fda2204, CbEntry.triple (some "message_media_document_old_struct") "message_media_document_old") : Nat × CbEntry),
   ((0x3ded6320, CbEntry.triple (some "message_media_empty_struct") "message_media_empty") : Nat × CbEntry),
   ((0xfdb19008, CbEntry.triple (some "message_media_game_struct") "message_media_game") : Nat × CbEntry),
   ((0x56e0d474, CbEntry.triple (some "message_media_geo_struct") "message_media_geo") : Nat × CbEntry),
   ((0x7c3c2609, CbEntry.triple (some "message_media_geo_live_struct") "message_media_geo_live") : Nat × CbEntry),
   ((0x84551347, CbEntry.triple (some "message_media_invoice_struct") "message_media_invoice") : Nat × CbEntry),
   ((0x695150d7, CbEntry.triple (some "message_media_photo_struct") "message_media_photo") : Nat × CbEntry),
   ((0x3d8ce53d, CbEntry.triple (some "message_media_photo_layer68_struct") "message_media_photo_layer68") : Nat × CbEntry),
   ((0xb5223b0f, CbEntry.triple (some "message_media_photo_layer74_struct") "message_media_photo_layer74") : Nat × CbEntry),
   ((0xc8c45a2a, CbEntry.triple (some "message_media_photo_old_struct") "message_media_photo_old") : Nat × CbEntry),
   ((0x4bd6e798, CbEntry.triple (some "message_media_poll_struct") "message_media_poll") : Nat × CbEntry),
   ((0x9f84f49e, CbEntry.triple (some "message_media_unsupported_struct") "message_media_unsupported") : Nat × CbEntry),
   ((0x29632a36, CbEntry.triple (some "message_media_unsupported_old_struct") "message_media_unsupported_old") : Nat × CbEntry),
   ((0x2ec0533f, CbEntry.triple (some "message_media_venue_struct") "message_media_venue") : Nat × CbEntry),
   ((0x7912b71f, CbEntry.triple (some "message_media_venue_layer71_struct") "message_media_venue_layer71") : Nat × CbEntry),
   ((0x5bcf1675, CbEntry.triple (some "message_media_video_layer45_struct") "message_media_video_layer45") : Nat × CbEntry),
   ((0xa2d24290, CbEntry.triple (some "message_media_video_old_struct") "message_media_video_old") : Nat × CbEntry),
   ((0xa32dd600, CbEntry.triple (some "message_media_web_page_struct") "message_media_web_page") : Nat × CbEntry),
   ((0xae30253, CbEntry.triple none "message_range") : Nat × CbEntry),
   ((0xb87a24d1, CbEntry.triple (some "message_reactions_struct") "message_reactions") : Nat × CbEntry),
   ((0xe3ae6108, CbEntry.triple none "message_reactions_list") : Nat × CbEntry),
   ((0x9e19a1f6, CbEntry.triple (some "message_service_struct") "message_service") : Nat × CbEntry),
   ((0xc06b9607, CbEntry.triple (some "message_service_layer48_struct") "message_service_layer48") : Nat × CbEntry),
   ((0x9f8d60bb, CbEntry.triple (some "message_service_old_struct") "message_service_old") : Nat × CbEntry),
   ((0x1d86f70e, CbEntry.triple none "message_service_old2") : Nat × CbEntry),
   ((0xd267dcbc, CbEntry.triple none "message_user_reaction") : Nat × CbEntry),
   ((0xa28e5559, CbEntry.triple none "message_user_vote") : Nat × CbEntry),
   ((0x36377430, CbEntry.triple none "message_user_vote_input_option") : Nat × CbEntry),
   ((0xe8fe0de, CbEntry.triple none "message_user_vote_multiple") : Nat × CbEntry),
   ((0x44f9b43d, CbEntry.triple (some "message_layer104_struct") "message_layer104") : Nat × CbEntry),
   ((0x1c9b1027, CbEntry.triple (some "message_layer104_2_struct") "message_layer104_2") : Nat × CbEntry),
   ((0x9789dac4, CbEntry.triple (some "message_layer104_3_struct") "message_layer104_3") : Nat × CbEntry),
   ((0xc992e15c, CbEntry.triple none "message_layer47") : Nat × CbEntry),
   ((0xc09be45f, CbEntry.triple (some "message_layer68_struct") "message_layer68") : Nat × CbEntry),
   ((0x90dddc11, CbEntry.triple (some "message_layer72_struct") "message_layer72") : Nat × CbEntry),
   ((0x22eb6aba, CbEntry.triple none "message_old") : Nat × CbEntry),
   ((0x567699b3, CbEntry.triple none "message_old2") : Nat × CbEntry),
   ((0xa7ab1991, CbEntry.triple (some "message_old3_struct") "message_old3") : Nat × CbEntry),
   ((0xc3060325, CbEntry.triple (some "message_old4_struct") "message_old4") : Nat × CbEntry),
   ((0xf07814c8, CbEntry.triple (some "message_old5_struct") "message_old5") : Nat × CbEntry),
   ((0x2bebfa86, CbEntry.triple none "message_old6") : Nat × CbEntry),
   ((0x5ba66c13, CbEntry.triple none "message_old7") : Nat × CbEntry),
   ((0x555555fa, CbEntry.triple (some "message_secret_struct") "message_secret") : Nat × CbEntry),
   ((0x555555f9, CbEntry.triple none "message_secret_layer72") : Nat × CbEntry),
   ((0x555555f8, CbEntry.triple none "message_secret_old") : Nat × CbEntry),
   ((0x3dbc0415, CbEntry.triple none "messages_accept_encryption") : Nat × CbEntry),
   ((0xf729ea98, CbEntry.triple none "messages_accept_url_auth") : Nat × CbEntry),
   ((0xf9a0aa09, CbEntry.triple none "messages_add_chat_user") : Nat × CbEntry),
   ((0x2ee9ee9e, CbEntry.pair none "messages_add_chat_user_v_0_1_317") : Nat × CbEntry),
   ((0xb45c69d1, CbEntry.triple none "messages_affected_history") : Nat × CbEntry),
   ((0xb7de36f2, CbEntry.pair none "messages_affected_history_v_0_1_317") : Nat × CbEntry),
   ((0x84d19185, CbEntry.triple none "messages_affected_messages") : Nat × CbEntry),
   ((0xedfd405f, CbEntry.triple none "messages_all_stickers") : Nat × CbEntry),
   ((0xe86602c3, CbEntry.triple none "messages_all_stickers_not_modified") : Nat × CbEntry),
   ((0x4fcba9c8, CbEntry.triple none "messages_archived_stickers") : Nat × CbEntry),
   ((0x36585ea4, CbEntry.triple none "messages_bot_callback_answer") : Nat × CbEntry),
   ((0x947ca848, CbEntry.triple none "messages_bot_results") : Nat × CbEntry),
   ((0xccd3563d, CbEntry.triple none "messages_bot_results_layer71") : Nat × CbEntry),
   ((0x99262e37, CbEntry.triple none "messages_channel_messages") : Nat × CbEntry),
   ((0x40e9002a, CbEntry.pair none "messages_chat_v_0_1_317") : Nat × CbEntry),
   ((0xe5d7d19c, CbEntry.triple none "messages_chat_full") : Nat × CbEntry),
   ((0x64ff9fd5, CbEntry.triple none "messages_chats") : Nat × CbEntry),
   ((0x8150cbd8, CbEntry.pair none "messages_chats_v_0_1_317") : Nat × CbEntry),
   ((0x9cd81144, CbEntry.triple none "messages_chats_slice") : Nat × CbEntry),
   ((0x3eadb1bb, CbEntry.triple none "messages_check_chat_invite") : Nat × CbEntry),
   ((0x7e58ee9c, CbEntry.triple none "messages_clear_all_drafts") : Nat × CbEntry),
   ((0x8999602d, CbEntry.triple none "messages_clear_recent_stickers") : Nat × CbEntry),
   ((0x9cb126e, CbEntry.triple none "messages_create_chat") : Nat × CbEntry),
   ((0x419d9aee, CbEntry.pair none "messages_create_chat_v_0_1_317") : Nat × CbEntry),
   ((0xe0611f16, CbEntry.triple none "messages_delete_chat_user") : Nat × CbEntry),
   ((0xc3c5cd23, CbEntry.pair none "messages_delete_chat_user_v_0_1_317") : Nat × CbEntry),
   ((0x1c015b09, CbEntry.triple none "messages_delete_history") : Nat × CbEntry),
   ((0xf4f8fb61, CbEntry.pair none "messages_delete_history_v_0_1_317") : Nat × CbEntry),
   ((0xe58e95d2, CbEntry.triple none "messages_delete_messages") : Nat × CbEntry),
   ((0x59ae2b16, CbEntry.triple none "messages_delete_scheduled_messages") : Nat × CbEntry),
   ((0x14f2dd0a, CbEntry.pair none "messages_delete_messages_v_0_1_317") : Nat × CbEntry),
   ((0x2c221edd, CbEntry.triple none "messages_dh_config") : Nat × CbEntry),
   ((0xc0e24635, CbEntry.triple none "messages_dh_config_not_modified") : Nat × CbEntry),
   ((0x15ba6c40, CbEntry.triple none "messages_dialogs") : Nat × CbEntry),
   ((0xf0e3e596, CbEntry.triple none "messages_dialogs_not_modified") : Nat × CbEntry),
   ((0x71e094f3, CbEntry.triple none "messages_dialogs_slice") : Nat × CbEntry),
   ((0xedd923c5, CbEntry.triple none "messages_discard_encryption") : Nat × CbEntry),
   ((0xdef60797, CbEntry.triple none "messages_edit_chat_about") : Nat × CbEntry),
   ((0xa9e69f2e, CbEntry.triple none "messages_edit_chat_admin") : Nat × CbEntry),
   ((0xa5866b41, CbEntry.triple none "messages_edit_chat_default_banned_rights") : Nat × CbEntry),
   ((0xca4c79d8, CbEntry.triple none "messages_edit_chat_photo") : Nat × CbEntry),
   ((0xd881821d, CbEntry.pair none "messages_edit_chat_photo_v_0_1_317") : Nat × CbEntry),
   ((0xdc452855, CbEntry.triple none "messages_edit_chat_title") : Nat × CbEntry),
   ((0xb4bc68b5, CbEntry.pair none "messages_edit_chat_title_v_0_1_317") : Nat × CbEntry),
   ((0x48f71778, CbEntry.triple none "messages_edit_message") : Nat × CbEntry),
   ((0xd116f31e, CbEntry.triple none "messages_edit_message_v_5_6_2") : Nat × CbEntry),
   ((0xdf7534c, CbEntry.triple none "messages_export_chat_invite") : Nat × CbEntry),
   ((0xb9ffc55b, CbEntry.triple none "messages_fave_sticker") : Nat × CbEntry),
   ((0xf37f2f16, CbEntry.triple none "messages_faved_stickers") : Nat × CbEntry),
   ((0x9e8fa6d3, CbEntry.triple none "messages_faved_stickers_not_modified") : Nat × CbEntry),
   ((0xb6abc341, CbEntry.triple none "messages_featured_stickers") : Nat × CbEntry),
   ((0xc6dc0c66, CbEntry.triple none "messages_featured_stickers_not_modified") : Nat × CbEntry),
   ((0xf89d88e5, CbEntry.triple none "messages_featured_stickers_v_5_15_0") : Nat × CbEntry),
   ((0x4ede3cf, CbEntry.triple none "messages_featured_stickers_not_modified_v_5_15_0") : Nat × CbEntry),
   ((0x33963bf9, CbEntry.triple none "messages_forward_message") : Nat × CbEntry),
   ((0x3f3f4f2, CbEntry.pair none "messages_forward_message_v_0_1_317") : Nat × CbEntry),
   ((0xd9fee60e, CbEntry.triple none "messages_forward_messages") : Nat × CbEntry),
   ((0x514cd10f, CbEntry.pair none "messages_forward_messages_v_0_1_317") : Nat × CbEntry),
   ((0x708e0195, CbEntry.triple none "messages_forward_messages_v_5_6_2") : Nat × CbEntry),
   ((0x450a1c0a, CbEntry.triple none "messages_found_gifs") : Nat × CbEntry),
   ((0x5108d648, CbEntry.triple none "messages_found_sticker_sets") : Nat × CbEntry),
   ((0xd54b65d, CbEntry.triple none "messages_found_sticker_sets_not_modified") : Nat × CbEntry),
   ((0xeba80ff0, CbEntry.triple none "messages_get_all_chats") : Nat × CbEntry),
   ((0x6a3f8d65, CbEntry.triple none "messages_get_all_drafts") : Nat × CbEntry),
   ((0x1c9618b1, CbEntry.triple none "messages_get_all_stickers") : Nat × CbEntry),
   ((0x57f17692, CbEntry.triple none "messages_get_archived_stickers") : Nat × CbEntry),
   ((0xcc5b67cc, CbEntry.triple none "messages_get_attached_stickers") : Nat × CbEntry),
   ((0x810a9fec, CbEntry.triple none "messages_get_bot_callback_answer") : Nat × CbEntry),
   ((0x3c6aa187, CbEntry.triple none "messages_get_chats") : Nat × CbEntry),
   ((0xd0a48c4, CbEntry.triple none "messages_get_common_chats") : Nat × CbEntry),
   ((0x26cf8950, CbEntry.triple none "messages_get_dh_config") : Nat × CbEntry),
   ((0xf19ed96d, CbEntry.triple none "messages_get_dialog_filters") : Nat × CbEntry),
   ((0x22e24e22, CbEntry.triple none "messages_get_dialog_unread_marks") : Nat × CbEntry),
   ((0xa0ee3b73, CbEntry.triple none "messages_get_dialogs") : Nat × CbEntry),
   ((0xb098aee6, CbEntry.triple none "messages_get_dialogs_v_5_5_0") : Nat × CbEntry),
   ((0xeccf1df6, CbEntry.pair none "messages_get_dialogs_v_0_1_317") : Nat × CbEntry),
   ((0x338e2464, CbEntry.triple none "messages_get_document_by_hash") : Nat × CbEntry),
   ((0x35a0e062, CbEntry.triple none "messages_get_emoji_keywords") : Nat × CbEntry),
   ((0x1508b6af, CbEntry.triple none "messages_get_emoji_keywords_difference") : Nat × CbEntry),
   ((0x4e9963b2, CbEntry.triple none "messages_get_emoji_keywords_languages") : Nat × CbEntry),
   ((0xd5b10c26, CbEntry.triple none "messages_get_emoji_url") : Nat × CbEntry),
   ((0x21ce0b0e, CbEntry.triple none "messages_get_faved_stickers") : Nat × CbEntry),
   ((0x2dacca4f, CbEntry.triple none "messages_get_featured_stickers") : Nat × CbEntry),
   ((0x3b831c66, CbEntry.triple none "messages_get_full_chat") : Nat × CbEntry),
   ((0xe822649d, CbEntry.triple none "messages_get_game_high_scores") : Nat × CbEntry),
   ((0xafa92846, CbEntry.triple none "messages_get_history") : Nat × CbEntry),
   ((0x92a1df2f, CbEntry.pair none "messages_get_history_v_0_1_317") : Nat × CbEntry),
   ((0x514e999d, CbEntry.triple none "messages_get_inline_bot_results") : Nat × CbEntry),
   ((0xf635e1b, CbEntry.triple none "messages_get_inline_game_high_scores") : Nat × CbEntry),
   ((0x65b8c79f, CbEntry.triple none "messages_get_mask_stickers") : Nat × CbEntry),
   ((0xfda68d36, CbEntry.triple none "messages_get_message_edit_data") : Nat × CbEntry),
   ((0x15b1376a, CbEntry.triple none "messages_get_message_reactions_list") : Nat × CbEntry),
   ((0x4222fa74, CbEntry.triple none "messages_get_messages") : Nat × CbEntry),
   ((0x8bba90e6, CbEntry.triple none "messages_get_messages_reactions") : Nat × CbEntry),
   ((0xc4c8a55d, CbEntry.triple none "messages_get_messages_views") : Nat × CbEntry),
   ((0x5fe7025b, CbEntry.triple none "messages_get_old_featured_stickers") : Nat × CbEntry),
   ((0x6e2be050, CbEntry.triple none "messages_get_onlines") : Nat × CbEntry),
   ((0xe470bcfd, CbEntry.triple none "messages_get_peer_dialogs") : Nat × CbEntry),
   ((0x3672e09c, CbEntry.triple none "messages_get_peer_settings") : Nat × CbEntry),
   ((0xd6b94df2, CbEntry.triple none "messages_get_pinned_dialogs") : Nat × CbEntry),
   ((0xe254d64e, CbEntry.triple none "messages_get_pinned_dialogs_v_5_5_0") : Nat × CbEntry),
   ((0x73bb643b, CbEntry.triple none "messages_get_poll_results") : Nat × CbEntry),
   ((0xb86e380e, CbEntry.triple none "messages_get_poll_votes") : Nat × CbEntry),
   ((0xbbc45b09, CbEntry.triple none "messages_get_recent_locations") : Nat × CbEntry),
   ((0x5ea192c9, CbEntry.triple none "messages_get_recent_stickers") : Nat × CbEntry),
   ((0x83bf3d52, CbEntry.triple none "messages_get_saved_gifs") : Nat × CbEntry),
   ((0xe2c2685b, CbEntry.triple none "messages_get_scheduled_history") : Nat × CbEntry),
   ((0xbdbb0464, CbEntry.triple none "messages_get_scheduled_messages") : Nat × CbEntry),
   ((0x732eef00, CbEntry.triple none "messages_get_search_counters") : Nat × CbEntry),
   ((0x812c2ae6, CbEntry.triple none "messages_get_stats_url") : Nat × CbEntry),
   ((0x2619a90e, CbEntry.triple none "messages_get_sticker_set") : Nat × CbEntry),
   ((0x43d4f2c, CbEntry.triple none "messages_get_stickers") : Nat × CbEntry),
   ((0xa29cd42c, CbEntry.triple none "messages_get_suggested_dialog_filters") : Nat × CbEntry),
   ((0x46578472, CbEntry.triple none "messages_get_unread_mentions") : Nat × CbEntry),
   ((0x32ca8f91, CbEntry.triple none "messages_get_web_page") : Nat × CbEntry),
   ((0x8b68b0cc, CbEntry.triple none "messages_get_web_page_preview") : Nat × CbEntry),
   ((0x4facb138, CbEntry.triple none "messages_hide_peer_settings_bar") : Nat × CbEntry),
   ((0xa8f1709b, CbEntry.triple none "messages_hide_report_spam_v_5_6_2") : Nat × CbEntry),
   ((0x9a3bfd99, CbEntry.triple none "messages_high_scores") : Nat × CbEntry),
   ((0x6c50051c, CbEntry.triple none "messages_import_chat_invite") : Nat × CbEntry),
   ((0xa927fec5, CbEntry.triple none "messages_inactive_chats") : Nat × CbEntry),
   ((0xc78fe460, CbEntry.triple none "messages_install_sticker_set") : Nat × CbEntry),
   ((0xc286d98f, CbEntry.triple none "messages_mark_dialog_unread") : Nat × CbEntry),
   ((0x26b5dde6, CbEntry.triple none "messages_message_edit_data") : Nat × CbEntry),
   ((0x3f4e0648, CbEntry.triple none "messages_message_empty") : Nat × CbEntry),
   ((0xff90c417, CbEntry.pair none "messages_message_v_0_1_317") : Nat × CbEntry),
   ((0x8c718e87, CbEntry.triple none "messages_messages") : Nat × CbEntry),
   ((0x74535f21, CbEntry.triple none "messages_messages_not_modified") : Nat × CbEntry),
   ((0xc8edce1e, CbEntry.triple none "messages_messages_slice") : Nat × CbEntry),
   ((0xb446ae3, CbEntry.pair none "messages_messages_slice_v_0_1_317") : Nat × CbEntry),
   ((0xa6c47aaa, CbEntry.triple none "messages_messages_slice_v_5_6_2") : Nat × CbEntry),
   ((0x15a3b8e3, CbEntry.triple none "messages_migrate_chat") : Nat × CbEntry),
   ((0x3371c354, CbEntry.triple none "messages_peer_dialogs") : Nat × CbEntry),
   ((0x7f4b690a, CbEntry.triple none "messages_read_encrypted_history") : Nat × CbEntry),
   ((0x5b118126, CbEntry.triple none "messages_read_featured_stickers") : Nat × CbEntry),
   ((0xe306d3a, CbEntry.triple none "messages_read_history") : Nat × CbEntry),
   ((0xb04f2510, CbEntry.pair none "messages_read_history_v_0_1_317") : Nat × CbEntry),
   ((0xf0189d3, CbEntry.triple none "messages_read_mentions") : Nat × CbEntry),
   ((0x36a73f77, CbEntry.triple none "messages_read_message_contents") : Nat × CbEntry),
   ((0x5a954c0, CbEntry.triple none "messages_received_messages") : Nat × CbEntry),
   ((0x28abcb68, CbEntry.pair none "messages_received_messages_v_0_1_317") : Nat × CbEntry),
   ((0x55a5bb66, CbEntry.triple none "messages_received_queue") : Nat × CbEntry),
   ((0x22f3afb3, CbEntry.triple none "messages_recent_stickers") : Nat × CbEntry),
   ((0xb17f890, CbEntry.triple none "messages_recent_stickers_not_modified") : Nat × CbEntry),
   ((0x3b1adf37, CbEntry.triple none "messages_reorder_pinned_dialogs") : Nat × CbEntry),
   ((0x5b51d63f, CbEntry.triple none "messages_reorder_pinned_dialogs_v_5_5_0") : Nat × CbEntry),
   ((0x78337739, CbEntry.triple none "messages_reorder_sticker_sets") : Nat × CbEntry),
   ((0xbd82b658, CbEntry.triple none "messages_report") : Nat × CbEntry),
   ((0x4b0c8c0f, CbEntry.triple none "messages_report_encrypted_spam") : Nat × CbEntry),
   ((0xcf1592db, CbEntry.triple none "messages_report_spam") : Nat × CbEntry),
   ((0xf64daf43, CbEntry.triple none "messages_request_encryption") : Nat × CbEntry),
   ((0xe33f5613, CbEntry.triple none "messages_request_url_auth") : Nat × CbEntry),
   ((0x395f9d7e, CbEntry.pair none "messages_restore_messages_v_0_1_317") : Nat × CbEntry),
   ((0xbc39e14b, CbEntry.triple none "messages_save_draft") : Nat × CbEntry),
   ((0x327a30cb, CbEntry.triple none "messages_save_gif") : Nat × CbEntry),
   ((0x392718f8, CbEntry.triple none "messages_save_recent_sticker") : Nat × CbEntry),
   ((0x2e0709a5, CbEntry.triple none "messages_saved_gifs") : Nat × CbEntry),
   ((0xe8025ca2, CbEntry.triple none "messages_saved_gifs_not_modified") : Nat × CbEntry),
   ((0x8614ef68, CbEntry.triple none "messages_search") : Nat × CbEntry),
   ((0xe844ebff, CbEntry.triple none "messages_search_counter") : Nat × CbEntry),
   ((0x7e9f2ab, CbEntry.pair none "messages_search_v_0_1_317") : Nat × CbEntry),
   ((0xbf9a776b, CbEntry.triple none "messages_search_gifs") : Nat × CbEntry),
   ((0xbf7225a4, CbEntry.triple none "messages_search_global") : Nat × CbEntry),
   ((0x9e3cacb0, CbEntry.triple none "messages_search_global_v_5_6_2") : Nat × CbEntry),
   ((0xc2b7d08b, CbEntry.triple none "messages_search_sticker_sets") : Nat × CbEntry),
   ((0xbf73f4da, CbEntry.triple none "messages_send_broadcast_v_5_6_2") : Nat × CbEntry),
   ((0x41bb0972, CbEntry.pair none "messages_send_broadcast_v_0_1_317") : Nat × CbEntry),
   ((0xa9776773, CbEntry.triple none "messages_send_encrypted") : Nat × CbEntry),
   ((0x9a901b66, CbEntry.triple none "messages_send_encrypted_file") : Nat × CbEntry),
   ((0xcacacaca, CbEntry.triple none "messages_send_encrypted_multi_media") : Nat × CbEntry),
   ((0x32d439a4, CbEntry.triple none "messages_send_encrypted_service") : Nat × CbEntry),
   ((0x220815b0, CbEntry.triple none "messages_send_inline_bot_result") : Nat × CbEntry),
   ((0xb16e06fe, CbEntry.triple none "messages_send_inline_bot_result_v_5_6_2") : Nat × CbEntry),
   ((0x3491eba9, CbEntry.triple none "messages_send_media") : Nat × CbEntry),
   ((0xa3c85d76, CbEntry.pair none "messages_send_media_v_0_1_317") : Nat × CbEntry),
   ((0xb8d1262b, CbEntry.triple none "messages_send_media_v_5_6_2") : Nat × CbEntry),
   ((0x520c3870, CbEntry.triple none "messages_send_message") : Nat × CbEntry),
   ((0x4cde0aab, CbEntry.pair none "messages_send_message_v_0_1_317") : Nat × CbEntry),
   ((0xfa88427a, CbEntry.triple none "messages_send_message_v_5_6_2") : Nat × CbEntry),
   ((0x2095512f, CbEntry.triple none "messages_send_multi_media_v_5_6_2") : Nat × CbEntry),
   ((0x25690ce4, CbEntry.triple none "messages_send_reaction") : Nat × CbEntry),
   ((0xbd38850a, CbEntry.triple none "messages_send_scheduled_messages") : Nat × CbEntry),
   ((0xc97df020, CbEntry.triple none "messages_send_screenshot_notification") : Nat × CbEntry),
   ((0x10ea6184, CbEntry.triple none "messages_send_vote") : Nat × CbEntry),
   ((0xd1f4d35c, CbEntry.pair none "messages_sent_message_v_0_1_317") : Nat × CbEntry),
   ((0xe9db4a3f, CbEntry.pair none "messages_sent_message_link_v_0_1_317") : Nat × CbEntry),
   ((0x9493ff32, CbEntry.triple none "messages_sent_encrypted_file") : Nat × CbEntry),
   ((0x560f8935, CbEntry.triple none "messages_sent_encrypted_message") : Nat × CbEntry),
   ((0xd58f130a, CbEntry.triple none "messages_set_bot_callback_answer") : Nat × CbEntry),
   ((0x791451ed, CbEntry.triple none "messages_set_encrypted_typing") : Nat × CbEntry),
   ((0x8ef8ecc0, CbEntry.triple none "messages_set_game_score") : Nat × CbEntry),
   ((0x15ad9f64, CbEntry.triple none "messages_set_inline_game_score") : Nat × CbEntry),
   ((0xa3825e50, CbEntry.triple none "messages_set_typing") : Nat × CbEntry),
   ((0x719839e9, CbEntry.pair none "messages_set_typing_v_0_1_317") : Nat × CbEntry),
   ((0xe6df7378, CbEntry.triple none "messages_start_bot") : Nat × CbEntry),
   ((0xd07ae726, CbEntry.pair none "messages_stated_message_v_0_1_317") : Nat × CbEntry),
   ((0xa9af2881, CbEntry.pair none "messages_stated_message_link_v_0_1_317") : Nat × CbEntry),
   ((0x969478bb, CbEntry.pair none "messages_stated_messages_v_0_1_317") : Nat × CbEntry),
   ((0x3e74f5c6, CbEntry.pair none "messages_stated_messages_links_v_0_1_317") : Nat × CbEntry),
   ((0xb60a24a6, CbEntry.triple none "messages_sticker_set") : Nat × CbEntry),
   ((0x35e410a8, CbEntry.triple none "messages_sticker_set_install_result_archive") : Nat × CbEntry),
   ((0x38641628, CbEntry.triple none "messages_sticker_set_install_result_success") : Nat × CbEntry),
   ((0xe4599bbd, CbEntry.triple none "messages_stickers") : Nat × CbEntry),
   ((0xf1749a22, CbEntry.triple none "messages_stickers_not_modified") : Nat × CbEntry),
   ((0xa731e257, CbEntry.triple none "messages_toggle_dialog_pin") : Nat × CbEntry),
   ((0xb5052fea, CbEntry.triple none "messages_toggle_sticker_sets") : Nat × CbEntry),
   ((0xf96e55de, CbEntry.triple none "messages_uninstall_sticker_set") : Nat × CbEntry),
   ((0x1ad4a04a, CbEntry.triple none "messages_update_dialog_filter") : Nat × CbEntry),
   ((0xc563c1e4, CbEntry.triple none "messages_update_dialog_filters_order") : Nat × CbEntry),
   ((0xd2aaf7ec, CbEntry.triple none "messages_update_pinned_message") : Nat × CbEntry),
   ((0x5057c497, CbEntry.triple none "messages_upload_encrypted_file") : Nat × CbEntry),
   ((0x519bc2b1, CbEntry.triple none "messages_upload_media") : Nat × CbEntry),
   ((0x823f649, CbEntry.triple none "messages_votes_list") : Nat × CbEntry),
   ((0x73f1f8dc, CbEntry.pair none "msg_container_v_0_1_317") : Nat × CbEntry),
   ((0xe06046b2, CbEntry.pair none "msg_copy_v_0_1_317") : Nat × CbEntry),
   ((0x276d3ec6, CbEntry.pair none "msg_detailed_info_v_0_1_317") : Nat × CbEntry),
   ((0x809db6df, CbEntry.pair none "msg_new_detailed_info_v_0_1_317") : Nat × CbEntry),
   ((0x7d861a08, CbEntry.pair none "msg_resend_req_v_0_1_317") : Nat × CbEntry),
   ((0x62d6b459, CbEntry.pair none "msgs_ack_v_0_1_317") : Nat × CbEntry),
   ((0x8cc0d131, CbEntry.pair none "msgs_all_info_v_0_1_317") : Nat × CbEntry),
   ((0x4deb57d, CbEntry.pair none "msgs_state_info_v_0_1_317") : Nat × CbEntry),
   ((0xda69fb52, CbEntry.pair none "msgs_state_req_v_0_1_317") : Nat × CbEntry),
   ((0x8e1a1775, CbEntry.triple none "nearest_dc") : Nat × CbEntry),
   ((0x9ec20908, CbEntry.pair none "new_session_created_v_0_1_317") : Nat × CbEntry),
   ((0xd612e8ef, CbEntry.triple none "notify_broadcasts") : Nat × CbEntry),
   ((0xc007cec3, CbEntry.triple none "notify_chats") : Nat × CbEntry),
   ((0x9fd40bd8, CbEntry.triple none "notify_peer") : Nat × CbEntry),
   ((0xb4c83b4c, CbEntry.triple none "notify_users") : Nat × CbEntry),
   ((0x56730bcc, CbEntry.triple none "null") : Nat × CbEntry),
   ((0x83c95aec, CbEntry.pair none "p_q_inner_data_v_0_1_317") : Nat × CbEntry),
   ((0x98657f0d, CbEntry.triple (some "page_struct") "page") : Nat × CbEntry),
   ((0xce0d37b0, CbEntry.triple (some "page_block_anchor_struct") "page_block_anchor") : Nat × CbEntry),
   ((0x804361ea, CbEntry.triple (some "page_block_audio_struct") "page_block_audio") : Nat × CbEntry),
   ((0x31b81a7f, CbEntry.triple (some "page_block_audio_layer82_struct") "page_block_audio_layer82") : Nat × CbEntry),
   ((0xbaafe5e0, CbEntry.triple (some "page_block_author_date_struct") "page_block_author_date") : Nat × CbEntry),
   ((0x3d5b64f2, CbEntry.triple (some "page_block_author_date_layer60_struct") "page_block_author_date_layer60") : Nat × CbEntry),
   ((0x263d7c26, CbEntry.triple (some "page_block_blockquote_struct") "page_block_blockquote") : Nat × CbEntry),
   ((0xef1751b5, CbEntry.triple (some "page_block_channel_struct") "page_block_channel") : Nat × CbEntry),
   ((0x65a0fa4d, CbEntry.triple (some "page_block_collage_struct") "page_block_collage") : Nat × CbEntry),
   ((0x8b31c4f, CbEntry.triple (some "page_block_collage_layer82_struct") "page_block_collage_layer82") : Nat × CbEntry),
   ((0x39f23300, CbEntry.triple (some "page_block_cover_struct") "page_block_cover") : Nat × CbEntry),
   ((0x76768bed, CbEntry.triple (some "page_block_details_struct") "page_block_details") : Nat × CbEntry),
   ((0xdb20b188, CbEntry.triple (some "page_block_divider_struct") "page_block_divider") : Nat × CbEntry),
   ((0xa8718dc5, CbEntry.triple (some "page_block_embed_struct") "page_block_embed") : Nat × CbEntry),
   ((0xf259a80b, CbEntry.triple (some "page_block_embed_post_struct") "page_block_embed_post") : Nat × CbEntry),
   ((0x292c7be9, CbEntry.triple (some "page_block_embed_post_layer82_struct") "page_block_embed_post_layer82") : Nat × CbEntry),
   ((0xd935d8fb, CbEntry.triple (some "page_block_embed_layer60_struct") "page_block_embed_layer60") : Nat × CbEntry),
   ((0xcde200d1, CbEntry.triple (some "page_block_embed_layer82_struct") "page_block_embed_layer82") : Nat × CbEntry),
   ((0x48870999, CbEntry.triple (some "page_block_footer_struct") "page_block_footer") : Nat × CbEntry),
   ((0xbfd064ec, CbEntry.triple (some "page_block_header_struct") "page_block_header") : Nat × CbEntry),
   ((0x1e148390, CbEntry.triple (some "page_block_kicker_struct") "page_block_kicker") : Nat × CbEntry),
   ((0xe4e88011, CbEntry.triple (some "page_block_list_struct") "page_block_list") : Nat × CbEntry),
   ((0x3a58c7f4, CbEntry.triple (some "page_block_list_layer82_struct") "page_block_list_layer82") : Nat × CbEntry),
   ((0xa44f3ef6, CbEntry.triple (some "page_block_map_struct") "page_block_map") : Nat × CbEntry),
   ((0x9a8ae1e1, CbEntry.triple (some "page_block_ordered_list_struct") "page_block_ordered_list") : Nat × CbEntry),
   ((0x467a0766, CbEntry.triple (some "page_block_paragraph_struct") "page_block_paragraph") : Nat × CbEntry),
   ((0x1759c560, CbEntry.triple (some "page_block_photo_struct") "page_block_photo") : Nat × CbEntry),
   ((0xe9c69982, CbEntry.triple (some "page_block_photo_layer82_struct") "page_block_photo_layer82") : Nat × CbEntry),
   ((0xc070d93e, CbEntry.triple (some "page_block_preformatted_struct") "page_block_preformatted") : Nat × CbEntry),
   ((0x4f4456d3, CbEntry.triple (some "page_block_pullquote_struct") "page_block_pullquote") : Nat × CbEntry),
   ((0x16115a96, CbEntry.triple (some "page_block_related_articles_struct") "page_block_related_articles") : Nat × CbEntry),
   ((0x31f9590, CbEntry.triple (some "page_block_slideshow_struct") "page_block_slideshow") : Nat × CbEntry),
   ((0x130c8963, CbEntry.triple (some "page_block_slideshow_layer82_struct") "page_block_slideshow_layer82") : Nat × CbEntry),
   ((0xf12bb6e1, CbEntry.triple (some "page_block_subheader_struct") "page_block_subheader") : Nat × CbEntry),
   ((0x8ffa9a1f, CbEntry.triple (some "page_block_subtitle_struct") "page_block_subtitle") : Nat × CbEntry),
   ((0xbf4dea82, CbEntry.triple (some "page_block_table_struct") "page_block_table") : Nat × CbEntry),
   ((0x70abc3fd, CbEntry.triple (some "page_block_title_struct") "page_block_title") : Nat × CbEntry),
   ((0x13567e8a, CbEntry.triple (some "page_block_unsupported_struct") "page_block_unsupported") : Nat × CbEntry),
   ((0x7c8fe7b6, CbEntry.triple (some "page_block_video_struct") "page_block_video") : Nat × CbEntry),
   ((0xd9d71866, CbEntry.triple (some "page_block_video_layer82_struct") "page_block_video_layer82") : Nat × CbEntry),
   ((0x6f747657, CbEntry.triple (some "page_caption_struct") "page_caption") : Nat × CbEntry),
   ((0xd7a19d69, CbEntry.triple (some "page_full_layer67_struct") "page_full_layer67") : Nat × CbEntry),
   ((0x556ec7aa, CbEntry.triple (some "page_full_layer82_struct") "page_full_layer82") : Nat × CbEntry),
   ((0xae891bec, CbEntry.triple (some "page_layer110_struct") "page_layer110") : Nat × CbEntry),
   ((0x25e073fc, CbEntry.triple (some "page_list_item_blocks_struct") "page_list_item_blocks") : Nat × CbEntry),
   ((0xb92fb6cd, CbEntry.triple (some "page_list_item_text_struct") "page_list_item_text") : Nat × CbEntry),
   ((0x98dd8936, CbEntry.triple (some "page_list_ordered_item_blocks_struct") "page_list_ordered_item_blocks") : Nat × CbEntry),
   ((0x5e068047, CbEntry.triple (some "page_list_ordered_item_text_struct") "page_list_ordered_item_text") : Nat × CbEntry),
   ((0x8dee6c44, CbEntry.triple (some "page_part_layer67_struct") "page_part_layer67") : Nat × CbEntry),
   ((0x8e3f9ebe, CbEntry.triple (some "page_part_layer82_struct") "page_part_layer82") : Nat × CbEntry),
   ((0xb390dc08, CbEntry.triple (some "page_related_article_struct") "page_related_article") : Nat × CbEntry),
   ((0x34566b6a, CbEntry.triple (some "page_table_cell_struct") "page_table_cell") : Nat × CbEntry),
   ((0xe0c0c5e5, CbEntry.triple (some "page_table_row_struct") "page_table_row") : Nat × CbEntry),
   ((0x3a912d4a, CbEntry.triple none "password_kdf_algo_sha256_sha256_pbkdf2_hmac_sha512iter100000_sha256_mod_pow") : Nat × CbEntry),
   ((0xd45ab096, CbEntry.triple none "password_kdf_algo_unknown") : Nat × CbEntry),
   ((0x909c3f94, CbEntry.triple none "payment_requested_info") : Nat × CbEntry),
   ((0xcdc27a1f, CbEntry.triple none "payment_saved_credentials_card") : Nat × CbEntry),
   ((0x3e24e573, CbEntry.triple none "payments_bank_card_data") : Nat × CbEntry),
   ((0xd83d70c1, CbEntry.triple none "payments_clear_saved_info") : Nat × CbEntry),
   ((0x2e79d779, CbEntry.triple none "payments_get_bank_card_data") : Nat × CbEntry),
   ((0x99f09745, CbEntry.triple none "payments_get_payment_form") : Nat × CbEntry),
   ((0xa092a980, CbEntry.triple none "payments_get_payment_receipt") : Nat × CbEntry),
   ((0x227d824b, CbEntry.triple none "payments_get_saved_info") : Nat × CbEntry),
   ((0x3f56aea3, CbEntry.triple none "payments_payment_form") : Nat × CbEntry),
   ((0x500911e1, CbEntry.triple none "payments_payment_receipt") : Nat × CbEntry),
   ((0x4e5f810d, CbEntry.triple none "payments_payment_result") : Nat × CbEntry),
   ((0xd8411139, CbEntry.triple none "payments_payment_verification_needed") : Nat × CbEntry),
   ((0x6b56b921, CbEntry.triple none "payments_payment_verfication_needed_v_5_6_2") : Nat × CbEntry),
   ((0xfb8fe43c, CbEntry.triple none "payments_saved_info") : Nat × CbEntry),
   ((0x2b8879b3, CbEntry.triple none "payments_send_payment_form") : Nat × CbEntry),
   ((0x770a8e74, CbEntry.triple none "payments_validate_requested_info") : Nat × CbEntry),
   ((0xd1451883, CbEntry.triple none "payments_validated_requested_info") : Nat × CbEntry),
   ((0xbddde532, CbEntry.triple (some "peer_channel_struct") "peer_channel") : Nat × CbEntry),
   ((0xbad0e5bb, CbEntry.triple (some "peer_chat_struct") "peer_chat") : Nat × CbEntry),
   ((0xca461b5d, CbEntry.triple none "peer_located") : Nat × CbEntry),
   ((0x6d1ded88, CbEntry.pair none "peer_notify_events_all_v_0_1_317") : Nat × CbEntry),
   ((0xadd53cb3, CbEntry.pair none "peer_notify_events_empty_v_0_1_317") : Nat × CbEntry),
   ((0xaf509d20, CbEntry.triple (some "peer_notify_settings_struct") "peer_notify_settings") : Nat × CbEntry),
   ((0x70a68512, CbEntry.triple (some "peer_notify_settings_empty_layer77_struct") "peer_notify_settings_empty_layer77") : Nat × CbEntry),
   ((0x8d5e11ee, CbEntry.triple (some "peer_notify_settings_layer47_struct") "peer_notify_settings_layer47") : Nat × CbEntry),
   ((0x9acda4c0, CbEntry.triple (some "peer_notify_settings_layer77_struct") "peer_notify_settings_layer77") : Nat × CbEntry),
   ((0xf8ec284b, CbEntry.triple none "peer_self_located") : Nat × CbEntry),
   ((0x733f2961, CbEntry.triple (some "peer_settings_struct") "peer_settings") : Nat × CbEntry),
   ((0x818426cd, CbEntry.triple (some "peer_settings_v_5_15_0_struct") "peer_settings_v_5_15_0") : Nat × CbEntry),
   ((0x9db1bc6d, CbEntry.triple (some "peer_user_struct") "peer_user") : Nat × CbEntry),
   ((0x8742ae7f, CbEntry.triple none "phone_call") : Nat × CbEntry),
   ((0xe6f9ddf3, CbEntry.triple none "phone_call_v_5_5_0") : Nat × CbEntry),
   ((0x997c454a, CbEntry.triple none "phone_call_accepted") : Nat × CbEntry),
   ((0x6d003d3f, CbEntry.triple none "phone_call_accepted_v_5_5_0") : Nat × CbEntry),
   ((0xafe2b839, CbEntry.triple (some "phone_call_discard_reason_allow_group_call_struct") "phone_call_discard_reason_allow_group_call") : Nat × CbEntry),
   ((0xfaf7e8c9, CbEntry.triple (some "phone_call_discard_reason_busy_struct") "phone_call_discard_reason_busy") : Nat × CbEntry),
   ((0xe095c1a0, CbEntry.triple (some "phone_call_discard_reason_disconnect_struct") "phone_call_discard_reason_disconnect") : Nat × CbEntry),
   ((0x57adc690, CbEntry.triple (some "phone_call_discard_reason_hangup_struct") "phone_call_discard_reason_hangup") : Nat × CbEntry),
   ((0x85e42301, CbEntry.triple (some "phone_call_discard_reason_missed_struct") "phone_call_discard_reason_missed") : Nat × CbEntry),
   ((0x50ca4de1, CbEntry.triple (some "phone_call_discarded_struct") "phone_call_discarded") : Nat × CbEntry),
   ((0x5366c915, CbEntry.triple none "phone_call_empty") : Nat × CbEntry),
   ((0xfc878fc8, CbEntry.triple none "phone_call_protocol") : Nat × CbEntry),
   ((0xa2bb35cb, CbEntry.triple none "phone_call_protocol_layer110") : Nat × CbEntry),
   ((0x87eabb53, CbEntry.triple none "phone_call_requested") : Nat × CbEntry),
   ((0x83761ce4, CbEntry.triple none "phone_call_requested_v_5_5_0") : Nat × CbEntry),
   ((0x1b8f4ad1, CbEntry.triple none "phone_call_waiting") : Nat × CbEntry),
   ((0xffe6ab67, CbEntry.triple none "phone_call_layer86_v_5_5_0") : Nat × CbEntry),
   ((0x9d4c17c0, CbEntry.triple none "phone_connection") : Nat × CbEntry),
   ((0x3bd2b4a0, CbEntry.triple none "phone_accept_call") : Nat × CbEntry),
   ((0x2efe1722, CbEntry.triple none "phone_confirm_call") : Nat × CbEntry),
   ((0x8504e5b6, CbEntry.triple none "phone_create_group_call") : Nat × CbEntry),
   ((0xb2cbc1c0, CbEntry.triple none "phone_discard_call") : Nat × CbEntry),
   ((0x78d413a6, CbEntry.triple none "phone_discard_call_v_5_5_0") : Nat × CbEntry),
   ((0x7a777135, CbEntry.triple none "phone_discard_group_call") : Nat × CbEntry),
   ((0x46659be4, CbEntry.triple none "phone_edit_group_call_member") : Nat × CbEntry),
   ((0x8adb4f79, CbEntry.triple none "phone_get_call") : Nat × CbEntry),
   ((0x55451fa9, CbEntry.triple none "phone_get_call_config") : Nat × CbEntry),
   ((0xc7cb017, CbEntry.triple none "phone_get_group_call") : Nat × CbEntry),
   ((0x6737ffb7, CbEntry.triple none "phone_group_call") : Nat × CbEntry),
   ((0xcc92a6dc, CbEntry.triple none "phone_invite_group_call_members") : Nat × CbEntry),
   ((0x9db32d7, CbEntry.triple none "phone_join_group_call") : Nat × CbEntry),
   ((0x60e98e5f, CbEntry.triple none "phone_leave_group_call") : Nat × CbEntry),
   ((0xec82e140, CbEntry.triple none "phone_phone_call") : Nat × CbEntry),
   ((0x17d54f61, CbEntry.triple none "phone_received_call") : Nat × CbEntry),
   ((0x42ff96ed, CbEntry.triple none "phone_request_call") : Nat × CbEntry),
   ((0x5b95b3d4, CbEntry.triple none "phone_request_call_v_5_5_0") : Nat × CbEntry),
   ((0x277add7e, CbEntry.triple none "phone_save_call_debug") : Nat × CbEntry),
   ((0x59ead627, CbEntry.triple none "phone_set_call_rating") : Nat × CbEntry),
   ((0x1c536a34, CbEntry.triple none "phone_set_call_rating_v_5_5_0") : Nat × CbEntry),
   ((0x98e3cdba, CbEntry.triple none "phone_upgrade_phone_call") : Nat × CbEntry),
   ((0xfb197a65, CbEntry.triple (some "photo_struct") "photo") : Nat × CbEntry),
   ((0xe9a734fa, CbEntry.triple (some "photo_cached_size_struct") "photo_cached_size") : Nat × CbEntry),
   ((0x2331b22d, CbEntry.triple (some "photo_empty_struct") "photo_empty") : Nat × CbEntry),
   ((0xd07504a5, CbEntry.triple (some "photo_layer115_struct") "photo_layer115") : Nat × CbEntry),
   ((0x77bfb61b, CbEntry.triple (some "photo_size_struct") "photo_size") : Nat × CbEntry),
   ((0xe17e23c, CbEntry.triple (some "photo_size_empty_struct") "photo_size_empty") : Nat × CbEntry),
   ((0xcded42fe, CbEntry.triple (some "photo_layer55_struct") "photo_layer55") : Nat × CbEntry),
   ((0x9288dd29, CbEntry.triple (some "photo_layer82_struct") "photo_layer82") : Nat × CbEntry),
   ((0x9c477dd8, CbEntry.triple (some "photo_layer97_struct") "photo_layer97") : Nat × CbEntry),
   ((0x22b56751, CbEntry.triple (some "photo_old_struct") "photo_old") : Nat × CbEntry),
   ((0xc3838076, CbEntry.triple (some "photo_old2_struct") "photo_old2") : Nat × CbEntry),
   ((0xe0b0bc2e, CbEntry.triple (some "photo_stripped_size_struct") "photo_stripped_size") : Nat × CbEntry),
   ((0x87cf7f2f, CbEntry.triple none "photos_delete_photos") : Nat × CbEntry),
   ((0x91cd32a8, CbEntry.triple none "photos_get_user_photos") : Nat × CbEntry),
   ((0xb7ee553c, CbEntry.pair none "photos_get_user_photos_v_0_1_317") : Nat × CbEntry),
   ((0x20212ca8, CbEntry.triple none "photos_photo") : Nat × CbEntry),
   ((0x8dca6aa5, CbEntry.triple none "photos_photos") : Nat × CbEntry),
   ((0x15051f54, CbEntry.triple none "photos_photos_slice") : Nat × CbEntry),
   ((0x72d4742c, CbEntry.triple none "photos_update_profile_photo") : Nat × CbEntry),
   ((0xeef579a0, CbEntry.pair none "photos_update_profile_photo_v_0_1_317") : Nat × CbEntry),
   ((0xf0bb5152, CbEntry.triple none "photos_update_profile_photo_v_5_15_0") : Nat × CbEntry),
   ((0x89f30f69, CbEntry.triple none "photos_upload_profile_photo") : Nat × CbEntry),
   ((0xd50f9c88, CbEntry.pair none "photos_upload_profile_photo_v_0_1_317") : Nat × CbEntry),
   ((0x4f32c098, CbEntry.triple none "photos_upload_profile_photo_v_5_15_0") : Nat × CbEntry),
   ((0x7abe77ec, CbEntry.pair none "ping_v_0_1_317") : Nat × CbEntry),
   ((0x86e18161, CbEntry.triple (some "poll_struct") "poll") : Nat × CbEntry),
   ((0x6ca9c2e9, CbEntry.triple (some "poll_answer_struct") "poll_answer") : Nat × CbEntry),
   ((0x3b6ddad2, CbEntry.triple (some "poll_answer_voters_struct") "poll_answer_voters") : Nat × CbEntry),
   ((0xd5529d06, CbEntry.triple (some "poll_layer111_struct") "poll_layer111") : Nat × CbEntry),
   ((0xbadcc1a3, CbEntry.triple (some "poll_results_struct") "poll_results") : Nat × CbEntry),
   ((0x5755785a, CbEntry.triple (some "poll_results_layer108_struct") "poll_results_layer108") : Nat × CbEntry),
   ((0xc87024a2, CbEntry.triple (some "poll_results_layer111_struct") "poll_results_layer111") : Nat × CbEntry),
   ((0xaf746786, CbEntry.triple (some "poll_to_delete_struct") "poll_to_delete") : Nat × CbEntry),
   ((0x347773c5, CbEntry.pair none "pong_v_0_1_317") : Nat × CbEntry),
   ((0x5ce14175, CbEntry.triple none "popular_contact") : Nat × CbEntry),
   ((0x1e8caaeb, CbEntry.triple none "post_address") : Nat × CbEntry),
   ((0x42ffd42b, CbEntry.triple none "privacy_key_added_by_phone") : Nat × CbEntry),
   ((0x500e6dfa, CbEntry.triple none "privacy_key_chat_invite") : Nat × CbEntry),
   ((0x69ec56a3, CbEntry.triple none "privacy_key_forwards") : Nat × CbEntry),
   ((0x3d662b7b, CbEntry.triple none "privacy_key_phone_call") : Nat × CbEntry),
   ((0xd19ae46d, CbEntry.triple none "privacy_key_phone_number") : Nat × CbEntry),
   ((0x39491cc8, CbEntry.triple none "privacy_key_phone_p2p") : Nat × CbEntry),
   ((0x96151fed, CbEntry.triple none "privacy_key_profile_photo") : Nat × CbEntry),
   ((0xbc2eab30, CbEntry.triple none "privacy_key_status_timestamp") : Nat × CbEntry),
   ((0x65427b82, CbEntry.triple none "privacy_value_allow_all") : Nat × CbEntry),
   ((0x18be796b, CbEntry.triple none "privacy_value_allow_chat_participants") : Nat × CbEntry),
   ((0xfffe1bac, CbEntry.triple none "privacy_value_allow_contacts") : Nat × CbEntry),
   ((0x4d5bbe0c, CbEntry.triple none "privacy_value_allow_users") : Nat × CbEntry),
   ((0x8b73e763, CbEntry.triple none "privacy_value_disallow_all") : Nat × CbEntry),
   ((0xacae0690, CbEntry.triple none "privacy_value_disallow_chat_participants") : Nat × CbEntry),
   ((0xf888fa1a, CbEntry.triple none "privacy_value_disallow_contacts") : Nat × CbEntry),
   ((0xc7f49b7, CbEntry.triple none "privacy_value_disallow_users") : Nat × CbEntry),
   ((0x5bb8e511, CbEntry.pair none "proto_message_v_0_1_317") : Nat × CbEntry),
   ((0x6fb250d1, CbEntry.triple (some "reaction_count_struct") "reaction_count") : Nat × CbEntry),
   ((0xa384b779, CbEntry.triple none "received_notify_message") : Nat × CbEntry),
   ((0xa01b22f9, CbEntry.triple none "recent_me_url_chat") : Nat × CbEntry),
   ((0xeb49081d, CbEntry.triple none "recent_me_url_chat_invite") : Nat × CbEntry),
   ((0xbc0a57dc, CbEntry.triple none "recent_me_url_sticker_set") : Nat × CbEntry),
   ((0x46e1d13d, CbEntry.triple none "recent_me_url_unknown") : Nat × CbEntry),
   ((0x8dbc3336, CbEntry.triple none "recent_me_url_user") : Nat × CbEntry),
   ((0x48a30254, CbEntry.triple (some "reply_inline_markup_struct") "reply_inline_markup") : Nat × CbEntry),
   ((0xf4108aa0, CbEntry.triple (some "reply_keyboard_force_reply_struct") "reply_keyboard_force_reply") : Nat × CbEntry),
   ((0xa03e5b85, CbEntry.triple (some "reply_keyboard_hide_struct") "reply_keyboard_hide") : Nat × CbEntry),
   ((0x3502758c, CbEntry.triple (some "reply_keyboard_markup_struct") "reply_keyboard_markup") : Nat × CbEntry),
   ((0xd712e4be, CbEntry.pair none "req_dh_params_v_0_1_317") : Nat × CbEntry),
   ((0x60469778, CbEntry.pair none "req_pq_v_0_1_317") : Nat × CbEntry),
   ((0x5162463, CbEntry.pair none "res_pq_v_0_1_317") : Nat × CbEntry),
   ((0xd072acb4, CbEntry.triple (some "restriction_reason_struct") "restriction_reason") : Nat × CbEntry),
   ((0xa43ad8b7, CbEntry.pair none "rpc_answer_dropped_v_0_1_317") : Nat × CbEntry),
   ((0xcd78e586, CbEntry.pair none "rpc_answer_dropped_running_v_0_1_317") : Nat × CbEntry),
   ((0x5e2ad36e, CbEntry.pair none "rpc_answer_unknown_v_0_1_317") : Nat × CbEntry),
   ((0x58e4a740, CbEntry.pair none "rpc_drop_answer_v_0_1_317") : Nat × CbEntry),
   ((0x2144ca19, CbEntry.pair none "rpc_error_v_0_1_317") : Nat × CbEntry),
   ((0x7ae432f5, CbEntry.pair none "rpc_req_error_v_0_1_317") : Nat × CbEntry),
   ((0xf35c6d01, CbEntry.pair none "rpc_result_v_0_1_317") : Nat × CbEntry),
   ((0x33f0ea47, CbEntry.triple none "secure_credentials_encrypted") : Nat × CbEntry),
   ((0x8aeabec3, CbEntry.triple none "secure_data") : Nat × CbEntry),
   ((0xe0277a62, CbEntry.triple none "secure_file") : Nat × CbEntry),
   ((0x64199744, CbEntry.triple none "secure_file_empty") : Nat × CbEntry),
   ((0xbbf2dda0, CbEntry.triple none "secure_password_kdf_algo_pbkdf2_hmac_sha512_iter100000") : Nat × CbEntry),
   ((0x86471d92, CbEntry.triple none "secure_password_kdf_algo_sha512") : Nat × CbEntry),
   ((0x4a8537, CbEntry.triple none "secure_password_kdf_algo_unknown") : Nat × CbEntry),
   ((0x21ec5a5f, CbEntry.triple none "secure_plain_email") : Nat × CbEntry),
   ((0x7d6099dd, CbEntry.triple none "secure_plain_phone") : Nat × CbEntry),
   ((0x829d99da, CbEntry.triple none "secure_required_type") : Nat × CbEntry),
   ((0x27477b4, CbEntry.triple none "secure_required_type_one_of") : Nat × CbEntry),
   ((0x1527bcac, CbEntry.triple none "secure_secret_settings") : Nat × CbEntry),
   ((0x187fa0ca, CbEntry.triple none "secure_value") : Nat × CbEntry),
   ((0x869d758f, CbEntry.triple none "secure_value_error") : Nat × CbEntry),
   ((0xe8a40bd9, CbEntry.triple none "secure_value_error_data") : Nat × CbEntry),
   ((0x7a700873, CbEntry.triple none "secure_value_error_file") : Nat × CbEntry),
   ((0x666220e9, CbEntry.triple none "secure_value_error_files") : Nat × CbEntry),
   ((0xbe3dfa, CbEntry.triple none "secure_value_error_front_side") : Nat × CbEntry),
   ((0x868a2aa5, CbEntry.triple none "secure_value_error_reverse_side") : Nat × CbEntry),
   ((0xe537ced6, CbEntry.triple none "secure_value_error_selfie") : Nat × CbEntry),
   ((0xa1144770, CbEntry.triple none "secure_value_error_translation_file") : Nat × CbEntry),
   ((0x34636dd8, CbEntry.triple none "secure_value_error_translation_files") : Nat × CbEntry),
   ((0xed1ecdb0, CbEntry.triple none "secure_value_hash") : Nat × CbEntry),
   ((0xcbe31e26, CbEntry.triple (some "secure_value_type_address_struct") "secure_value_type_address") : Nat × CbEntry),
   ((0x89137c0d, CbEntry.triple (some "secure_value_type_bank_statement_struct") "secure_value_type_bank_statement") : Nat × CbEntry),
   ((0x6e425c4, CbEntry.triple (some "secure_value_type_driver_license_struct") "secure_value_type_driver_license") : Nat × CbEntry),
   ((0x8e3ca7ee, CbEntry.triple (some "secure_value_type_email_struct") "secure_value_type_email") : Nat × CbEntry),
   ((0xa0d0744b, CbEntry.triple (some "secure_value_type_identity_card_struct") "secure_value_type_identity_card") : Nat × CbEntry),
   ((0x99a48f23, CbEntry.triple (some "secure_value_type_internal_passport_struct") "secure_value_type_internal_passport") : Nat × CbEntry),
   ((0x3dac6a00, CbEntry.triple (some "secure_value_type_passport_struct") "secure_value_type_passport") : Nat × CbEntry),
   ((0x99e3806a, CbEntry.triple (some "secure_value_type_passport_registration_struct") "secure_value_type_passport_registration") : Nat × CbEntry),
   ((0x9d2a81e3, CbEntry.triple (some "secure_value_type_personal_details_struct") "secure_value_type_personal_details") : Nat × CbEntry),
   ((0xb320aadb, CbEntry.triple (some "secure_value_type_phone_struct") "secure_value_type_phone") : Nat × CbEntry),
   ((0x8b883488, CbEntry.triple (some "secure_value_type_rental_agreement_struct") "secure_value_type_rental_agreement") : Nat × CbEntry),
   ((0xea02ec33, CbEntry.triple (some "secure_value_type_temporary_registration_struct") "secure_value_type_temporary_registration") : Nat × CbEntry),
   ((0xfc36954e, CbEntry.triple (some "secure_value_type_utility_bill_struct") "secure_value_type_utility_bill") : Nat × CbEntry),
   ((0xfd5ec8f5, CbEntry.triple (some "send_message_cancel_action_struct") "send_message_cancel_action") : Nat × CbEntry),
   ((0x628cbc6f, CbEntry.triple (some "send_message_choose_contact_action_struct") "send_message_choose_contact_action") : Nat × CbEntry),
   ((0xdd6a8f48, CbEntry.triple (some "send_message_game_play_action_struct") "send_message_game_play_action") : Nat × CbEntry),
   ((0x176f8ba1, CbEntry.triple (some "send_message_geo_location_action_struct") "send_message_geo_location_action") : Nat × CbEntry),
   ((0xd52f73f7, CbEntry.triple (some "send_message_record_audio_action_struct") "send_message_record_audio_action") : Nat × CbEntry),
   ((0x88f27fbc, CbEntry.triple (some "send_message_record_round_action_struct") "send_message_record_round_action") : Nat × CbEntry),
   ((0xa187d66f, CbEntry.triple (some "send_message_record_video_action_struct") "send_message_record_video_action") : Nat × CbEntry),
   ((0x16bf744e, CbEntry.triple (some "send_message_typing_action_struct") "send_message_typing_action") : Nat × CbEntry),
   ((0xf351d7ab, CbEntry.triple (some "send_message_upload_audio_action_struct") "send_message_upload_audio_action") : Nat × CbEntry),
   ((0xe6ac8a6f, CbEntry.triple (some "send_message_upload_audio_action_old_struct") "send_message_upload_audio_action_old") : Nat × CbEntry),
   ((0xaa0cd9e4, CbEntry.triple (some "send_message_upload_document_action_struct") "send_message_upload_document_action") : Nat × CbEntry),
   ((0x8faee98e, CbEntry.triple (some "send_message_upload_document_action_old_struct") "send_message_upload_document_action_old") : Nat × CbEntry),
   ((0xd1d34a26, CbEntry.triple (some "send_message_upload_photo_action_struct") "send_message_upload_photo_action") : Nat × CbEntry),
   ((0x990a3c1a, CbEntry.triple (some "send_message_upload_photo_action_old_struct") "send_message_upload_photo_action_old") : Nat × CbEntry),
   ((0x243e1c66, CbEntry.triple (some "send_message_upload_round_action_struct") "send_message_upload_round_action") : Nat × CbEntry),
   ((0xe9763aec, CbEntry.triple (some "send_message_upload_video_action_struct") "send_message_upload_video_action") : Nat × CbEntry),
   ((0x92042ff7, CbEntry.triple (some "send_message_upload_video_action_old_struct") "send_message_upload_video_action_old") : Nat × CbEntry),
   ((0xb5890dba, CbEntry.pair none "server_dh_inner_data_v_0_1_317") : Nat × CbEntry),
   ((0x79cb045d, CbEntry.pair none "server_dh_params_fail_v_0_1_317") : Nat × CbEntry),
   ((0xd0e8075c, CbEntry.pair none "server_dh_params_ok_v_0_1_317") : Nat × CbEntry),
   ((0xf5045f1f, CbEntry.pair none "set_client_dh_params_v_0_1_317") : Nat × CbEntry),
   ((0xb6213cdf, CbEntry.triple none "shipping_option") : Nat × CbEntry),
   ((0xcb43acde, CbEntry.triple none "stats_abs_value_and_prev") : Nat × CbEntry),
   ((0xbdf78394, CbEntry.triple none "stats_broadcast_stats") : Nat × CbEntry),
   ((0xb637edaf, CbEntry.triple none "stats_date_range_days") : Nat × CbEntry),
   ((0xab42441a, CbEntry.triple none "stats_get_broadcast_stats") : Nat × CbEntry),
   ((0xdcdf8607, CbEntry.triple none "stats_get_megagroup_stats") : Nat × CbEntry),
   ((0x4a27eb2d, CbEntry.triple none "stats_graph_async") : Nat × CbEntry),
   ((0xbedc9822, CbEntry.triple none "stats_graph_error") : Nat × CbEntry),
   ((0x8ea464b6, CbEntry.triple none "stats_graph") : Nat × CbEntry),
   ((0x6014f412, CbEntry.triple none "stats_group_top_admin") : Nat × CbEntry),
   ((0x31962a4c, CbEntry.triple none "stats_group_top_inviter") : Nat × CbEntry),
   ((0x18f3d0f7, CbEntry.triple none "stats_group_top_poster") : Nat × CbEntry),
   ((0x621d5fa0, CbEntry.triple none "stats_load_async_graph") : Nat × CbEntry),
   ((0xef7ff916, CbEntry.triple none "stats_megagroup_stats") : Nat × CbEntry),
   ((0xcbce2fe0, CbEntry.triple none "stats_percent_value") : Nat × CbEntry),
   ((0x47a971e0, CbEntry.triple none "stats_url") : Nat × CbEntry),
   ((0x12b299d4, CbEntry.triple none "sticker_pack") : Nat × CbEntry),
   ((0xeeb46f27, CbEntry.triple none "sticker_set") : Nat × CbEntry),
   ((0x6410a5d2, CbEntry.triple none "sticker_set_covered") : Nat × CbEntry),
   ((0x3407e51b, CbEntry.triple none "sticker_set_multi_covered") : Nat × CbEntry),
   ((0xcd303b41, CbEntry.triple none "sticker_set_layer75") : Nat × CbEntry),
   ((0x5585a139, CbEntry.triple none "sticker_set_layer96") : Nat × CbEntry),
   ((0x6a90bcb7, CbEntry.triple none "sticker_set_layer97") : Nat × CbEntry),
   ((0xa7a43b17, CbEntry.triple none "sticker_set_old") : Nat × CbEntry),
   ((0xcae1aadf, CbEntry.triple none "storage_file_gif") : Nat × CbEntry),
   ((0x7efe0e, CbEntry.triple none "storage_file_jpeg") : Nat × CbEntry),
   ((0x4b09ebbc, CbEntry.triple none "storage_file_mov") : Nat × CbEntry),
   ((0x528a0677, CbEntry.triple none "storage_file_mp3") : Nat × CbEntry),
   ((0xb3cea0e4, CbEntry.triple none "storage_file_mp4") : Nat × CbEntry),
   ((0x40bc6f52, CbEntry.triple none "storage_file_partial") : Nat × CbEntry),
   ((0xae1e508d, CbEntry.triple none "storage_file_pdf") : Nat × CbEntry),
   ((0xa4f63c0, CbEntry.triple none "storage_file_png") : Nat × CbEntry),
   ((0xaa963b05, CbEntry.triple none "storage_file_unknown") : Nat × CbEntry),
   ((0x1081464c, CbEntry.triple none "storage_file_webp") : Nat × CbEntry),
   ((0x35553762, CbEntry.triple (some "text_anchor_struct") "text_anchor") : Nat × CbEntry),
   ((0x6724abc4, CbEntry.triple (some "text_bold_struct") "text_bold") : Nat × CbEntry),
   ((0x7e6260d7, CbEntry.triple (some "text_concat_struct") "text_concat") : Nat × CbEntry),
   ((0xde5a0dd6, CbEntry.triple (some "text_email_struct") "text_email") : Nat × CbEntry),
   ((0xdc3d824f, CbEntry.triple (some "text_empty_struct") "text_empty") : Nat × CbEntry),
   ((0x6c3f19b9, CbEntry.triple (some "text_fixed_struct") "text_fixed") : Nat × CbEntry),
   ((0x81ccf4f, CbEntry.triple (some "text_image_struct") "text_image") : Nat × CbEntry),
   ((0xd912a59c, CbEntry.triple (some "text_italic_struct") "text_italic") : Nat × CbEntry),
   ((0x34b8621, CbEntry.triple (some "text_marked_struct") "text_marked") : Nat × CbEntry),
   ((0x1ccb966a, CbEntry.triple (some "text_phone_struct") "text_phone") : Nat × CbEntry),
   ((0x744694e0, CbEntry.triple (some "text_plain_struct") "text_plain") : Nat × CbEntry),
   ((0x9bf8bb95, CbEntry.triple (some "text_strike_struct") "text_strike") : Nat × CbEntry),
   ((0xed6a8504, CbEntry.triple (some "text_subscript_struct") "text_subscript") : Nat × CbEntry),
   ((0xc7fb5e01, CbEntry.triple (some "text_superscript_struct") "text_superscript") : Nat × CbEntry),
   ((0xc12622c4, CbEntry.triple (some "text_underline_struct") "text_underline") : Nat × CbEntry),
   ((0x3c2884c1, CbEntry.triple (some "text_url_struct") "text_url") : Nat × CbEntry),
   ((0x28f1114, CbEntry.triple none "theme") : Nat × CbEntry),
   ((0x483d270c, CbEntry.triple none "theme_document_not_modified_layer106") : Nat × CbEntry),
   ((0x9c14984a, CbEntry.triple (some "theme_settings_struct") "theme_settings") : Nat × CbEntry),
   ((0xf7d90ce0, CbEntry.triple none "theme_layer106") : Nat × CbEntry),
   ((0xedcdc05b, CbEntry.triple none "top_peer") : Nat × CbEntry),
   ((0x148677e2, CbEntry.triple none "top_peer_category_bots_inline") : Nat × CbEntry),
   ((0xab661b5b, CbEntry.triple none "top_peer_category_bots_p_m") : Nat × CbEntry),
   ((0x161d9628, CbEntry.triple none "top_peer_category_channels") : Nat × CbEntry),
   ((0x637b7ed, CbEntry.triple none "top_peer_category_correspondents") : Nat × CbEntry),
   ((0xfbeec0f0, CbEntry.triple none "top_peer_category_forward_chats") : Nat × CbEntry),
   ((0xa8406ca9, CbEntry.triple none "top_peer_category_forward_users") : Nat × CbEntry),
   ((0xbd17a14a, CbEntry.triple none "top_peer_category_groups") : Nat × CbEntry),
   ((0xfb834291, CbEntry.triple none "top_peer_category_peers") : Nat × CbEntry),
   ((0x1e76a78c, CbEntry.triple none "top_peer_category_phone_calls") : Nat × CbEntry),
   ((0x6f690963, CbEntry.pair none "update_activation_v_0_1_317") : Nat × CbEntry),
   ((0xb6d45656, CbEntry.triple none "update_channel") : Nat × CbEntry),
   ((0x70db6837, CbEntry.triple none "update_channel_available_messages") : Nat × CbEntry),
   ((0x98a12b4b, CbEntry.triple none "update_channel_message_views") : Nat × CbEntry),
   ((0x65d2b464, CbEntry.triple none "update_channel_participant") : Nat × CbEntry),
   ((0x98592475, CbEntry.triple none "update_channel_pinned_message") : Nat × CbEntry),
   ((0x89893b45, CbEntry.triple none "update_channel_read_messages_contents") : Nat × CbEntry),
   ((0xeb0467fb, CbEntry.triple none "update_channel_too_long") : Nat × CbEntry),
   ((0x40771900, CbEntry.triple none "update_channel_web_page") : Nat × CbEntry),
   ((0x54c01850, CbEntry.triple none "update_chat_default_banned_rights") : Nat × CbEntry),
   ((0xea4b0e5c, CbEntry.triple none "update_chat_participant_add") : Nat × CbEntry),
   ((0x3a0eeb22, CbEntry.pair none "update_chat_participant_add_v_0_1_317") : Nat × CbEntry),
   ((0xb6901959, CbEntry.triple none "update_chat_participant_admin") : Nat × CbEntry),
   ((0x6e5f8c22, CbEntry.triple none "update_chat_participant_delete") : Nat × CbEntry),
   ((0x7761198, CbEntry.triple none "update_chat_participants") : Nat × CbEntry),
   ((0xe10db349, CbEntry.triple none "update_chat_pinned_message") : Nat × CbEntry),
   ((0x9a65ea1f, CbEntry.triple none "update_chat_user_typing") : Nat × CbEntry),
   ((0x3c46cfe6, CbEntry.pair none "update_chat_user_typing_v_0_1_317") : Nat × CbEntry),
   ((0xa229dd06, CbEntry.triple none "update_config") : Nat × CbEntry),
   ((0x9d2e67c5, CbEntry.triple none "update_contact_link") : Nat × CbEntry),
   ((0x51a48a9a, CbEntry.pair none "update_contact_link_v_0_1_317") : Nat × CbEntry),
   ((0x2575bbb9, CbEntry.pair none "update_contact_registered_v_0_1_317") : Nat × CbEntry),
   ((0x7084a7be, CbEntry.triple none "update_contacts_reset") : Nat × CbEntry),
   ((0x8e5e9873, CbEntry.triple none "update_dc_options") : Nat × CbEntry),
   ((0xc37521c9, CbEntry.triple none "update_delete_channel_messages") : Nat × CbEntry),
   ((0xa20db0e5, CbEntry.triple none "update_delete_messages") : Nat × CbEntry),
   ((0xa92bfe26, CbEntry.pair none "update_delete_messages_v_0_1_317") : Nat × CbEntry),
   ((0x90866cee, CbEntry.triple none "update_delete_scheduled_messages") : Nat × CbEntry),
   ((0x26ffde7d, CbEntry.triple none "update_dialog_filter") : Nat × CbEntry),
   ((0xa5d72105, CbEntry.triple none "update_dialog_filter_order") : Nat × CbEntry),
   ((0x3504914f, CbEntry.triple none "update_dialog_filters") : Nat × CbEntry),
   ((0x6e6fe51c, CbEntry.triple none "update_dialog_pinned") : Nat × CbEntry),
   ((0x19d27f3c, CbEntry.triple none "update_dialog_pinned_v_5_5_0") : Nat × CbEntry),
   ((0xe16459c3, CbEntry.triple none "update_dialog_unread_mark") : Nat × CbEntry),
   ((0xee2bb969, CbEntry.triple none "update_draft_message") : Nat × CbEntry),
   ((0x1b3f4df7, CbEntry.triple none "update_edit_channel_message") : Nat × CbEntry),
   ((0xe40370a3, CbEntry.triple none "update_edit_message") : Nat × CbEntry),
   ((0x1710f156, CbEntry.triple none "update_encrypted_chat_typing") : Nat × CbEntry),
   ((0x38fe25b7, CbEntry.triple none "update_encrypted_messages_read") : Nat × CbEntry),
   ((0xb4a2e88d, CbEntry.triple none "update_encryption") : Nat × CbEntry),
   ((0xe511996d, CbEntry.triple none "update_faved_stickers") : Nat × CbEntry),
   ((0x19360dc0, CbEntry.triple none "update_folder_peers") : Nat × CbEntry),
   ((0x871fb939, CbEntry.triple none "update_geo_live_viewed") : Nat × CbEntry),
   ((0x85fe86ed, CbEntry.triple none "update_group_call") : Nat × CbEntry),
   ((0x57eaec8, CbEntry.triple none "update_group_call_participant") : Nat × CbEntry),
   ((0x56022f4d, CbEntry.triple none "update_lang_pack") : Nat × CbEntry),
   ((0x46560264, CbEntry.triple none "update_lang_pack_too_long") : Nat × CbEntry),
   ((0x564fe691, CbEntry.triple none "update_login_token") : Nat × CbEntry),
   ((0x4e90bfd6, CbEntry.triple none "update_message_i_d") : Nat × CbEntry),
   ((0xaca1657b, CbEntry.triple none "update_message_poll") : Nat × CbEntry),
   ((0x154798c3, CbEntry.triple none "update_message_reactions") : Nat × CbEntry),
   ((0x8f06529a, CbEntry.pair none "update_new_authorization_v_0_1_317") : Nat × CbEntry),
   ((0x62ba04d9, CbEntry.triple none "update_new_channel_message") : Nat × CbEntry),
   ((0x12bcbd9a, CbEntry.triple none "update_new_encrypted_message") : Nat × CbEntry),
   ((0x5a68e3f7, CbEntry.pair none "update_new_geo_chat_message_v_0_1_317") : Nat × CbEntry),
   ((0x1f2b0afd, CbEntry.triple none "update_new_message") : Nat × CbEntry),
   ((0x13abdb3, CbEntry.pair none "update_new_message_v_0_1_317") : Nat × CbEntry),
   ((0x39a51dfb, CbEntry.triple none "update_new_scheduled_message") : Nat × CbEntry),
   ((0x688a30aa, CbEntry.triple none "update_new_sticker_set") : Nat × CbEntry),
   ((0xbec268ef, CbEntry.triple none "update_notify_settings") : Nat × CbEntry),
   ((0xb4afcfb0, CbEntry.triple none "update_peer_located") : Nat × CbEntry),
   ((0x6a7e7366, CbEntry.triple none "update_peer_settings") : Nat × CbEntry),
   ((0xab0f6b1e, CbEntry.triple none "update_phone_call") : Nat × CbEntry),
   ((0x2661bf09, CbEntry.triple none "update_phone_call_signaling_data") : Nat × CbEntry),
   ((0xfa0f3ca2, CbEntry.triple none "update_pinned_dialogs") : Nat × CbEntry),
   ((0xea4cb65b, CbEntry.triple none "update_pinned_dialogs_v_5_5_0") : Nat × CbEntry),
   ((0xee3b272a, CbEntry.triple none "update_privacy") : Nat × CbEntry),
   ((0x330b5424, CbEntry.triple none "update_read_channel_inbox") : Nat × CbEntry),
   ((0x4214f37f, CbEntry.triple none "update_read_channel_inbox_v_5_5_0") : Nat × CbEntry),
   ((0x25d6c9c7, CbEntry.triple none "update_read_channel_outbox") : Nat × CbEntry),
   ((0x571d2742, CbEntry.triple none "update_read_featured_stickers") : Nat × CbEntry),
   ((0x9c974fdf, CbEntry.triple none "update_read_history_inbox") : Nat × CbEntry),
   ((0x9961fd5c, CbEntry.triple none "update_read_history_inbox_v_5_5_0") : Nat × CbEntry),
   ((0x2f2f21bf, CbEntry.triple none "update_read_history_outbox") : Nat × CbEntry),
   ((0x68c13933, CbEntry.triple none "update_read_messages_contents") : Nat × CbEntry),
   ((0xc6649e31, CbEntry.pair none "update_read_messages_v_0_1_317") : Nat × CbEntry),
   ((0x9a422c20, CbEntry.triple none "update_recent_stickers") : Nat × CbEntry),
   ((0xd15de04d, CbEntry.pair none "update_restore_messages_v_0_1_317") : Nat × CbEntry),
   ((0x9375341e, CbEntry.triple none "update_saved_gifs") : Nat × CbEntry),
   ((0xebe46819, CbEntry.triple none "update_service_notification") : Nat × CbEntry),
   ((0x78d4dec1, CbEntry.triple none "update_short") : Nat × CbEntry),
   ((0x16812688, CbEntry.triple none "update_short_chat_message") : Nat × CbEntry),
   ((0x2b2fbd4e, CbEntry.pair none "update_short_chat_message_v_0_1_317") : Nat × CbEntry),
   ((0x914fbf11, CbEntry.triple none "update_short_message") : Nat × CbEntry),
   ((0xd3f45784, CbEntry.pair none "update_short_message_v_0_1_317") : Nat × CbEntry),
   ((0x11f1331c, CbEntry.triple none "update_short_sent_message") : Nat × CbEntry),
   ((0x43ae3dec, CbEntry.triple none "update_sticker_sets") : Nat × CbEntry),
   ((0xbb2d201, CbEntry.triple none "update_sticker_sets_order") : Nat × CbEntry),
   ((0x8216fba3, CbEntry.triple none "update_theme") : Nat × CbEntry),
   ((0x80ece81a, CbEntry.triple none "update_user_blocked") : Nat × CbEntry),
   ((0xa7332b73, CbEntry.triple none "update_user_name") : Nat × CbEntry),
   ((0xda22d9ad, CbEntry.pair none "update_user_name_v_0_1_317") : Nat × CbEntry),
   ((0x12b9417b, CbEntry.triple none "update_user_phone") : Nat × CbEntry),
   ((0x95313b0c, CbEntry.triple none "update_user_photo") : Nat × CbEntry),
   ((0x4c43da18, CbEntry.triple none "update_user_pinned_message") : Nat × CbEntry),
   ((0x1bfbd823, CbEntry.triple none "update_user_status") : Nat × CbEntry),
   ((0x5c486927, CbEntry.triple none "update_user_typing") : Nat × CbEntry),
   ((0x6baa8508, CbEntry.pair none "update_user_typing_v_0_1_317") : Nat × CbEntry),
   ((0x7f891213, CbEntry.triple none "update_web_page") : Nat × CbEntry),
   ((0x74ae4240, CbEntry.triple none "updates") : Nat × CbEntry),
   ((0x725b04c3, CbEntry.triple none "updates_combined") : Nat × CbEntry),
   ((0xe317af7e, CbEntry.triple none "updates_too_long") : Nat × CbEntry),
   ((0x2064674e, CbEntry.triple none "updates_channel_difference") : Nat × CbEntry),
   ((0x3e11affb, CbEntry.triple none "updates_channel_difference_empty") : Nat × CbEntry),
   ((0xa4bcc6fe, CbEntry.triple none "updates_channel_difference_too_long") : Nat × CbEntry),
   ((0x6a9d7b35, CbEntry.triple none "updates_channel_difference_too_long_v_5_5_0") : Nat × CbEntry),
   ((0xf49ca0, CbEntry.triple none "updates_difference") : Nat × CbEntry),
   ((0x5d75a138, CbEntry.triple none "updates_difference_empty") : Nat × CbEntry),
   ((0xa8fb1981, CbEntry.triple none "updates_difference_slice") : Nat × CbEntry),
   ((0x4afe8f6d, CbEntry.triple none "updates_difference_too_long") : Nat × CbEntry),
   ((0x3173d78, CbEntry.triple none "updates_get_channel_difference") : Nat × CbEntry),
   ((0x25939651, CbEntry.triple none "updates_get_difference") : Nat × CbEntry),
   ((0xa041495, CbEntry.pair none "updates_get_difference_v_0_1_317") : Nat × CbEntry),
   ((0xedd4882a, CbEntry.triple none "updates_get_state") : Nat × CbEntry),
   ((0xa56c2a3e, CbEntry.triple none "updates_state") : Nat × CbEntry),
   ((0xa99fca4f, CbEntry.triple none "upload_cdn_file") : Nat × CbEntry),
   ((0xeea8e46e, CbEntry.triple none "upload_cdn_file_reupload_needed") : Nat × CbEntry),
   ((0x96a18d5, CbEntry.triple none "upload_file") : Nat × CbEntry),
   ((0xf18cda44, CbEntry.triple none "upload_file_cdn_redirect") : Nat × CbEntry),
   ((0x2000bcc3, CbEntry.triple none "upload_get_cdn_file") : Nat × CbEntry),
   ((0x4da54231, CbEntry.triple none "upload_get_cdn_file_hashes") : Nat × CbEntry),
   ((0xb15a9afc, CbEntry.triple none "upload_get_file") : Nat × CbEntry),
   ((0xe3a6cfb5, CbEntry.triple none "upload_get_file_v_5_6_2") : Nat × CbEntry),
   ((0xc7025931, CbEntry.triple none "upload_get_file_hashes") : Nat × CbEntry),
   ((0x24e6818d, CbEntry.triple none "upload_get_web_file") : Nat × CbEntry),
   ((0x9b2754a8, CbEntry.triple none "upload_reupload_cdn_file") : Nat × CbEntry),
   ((0xde7b673d, CbEntry.triple none "upload_save_big_file_part") : Nat × CbEntry),
   ((0xb304a621, CbEntry.triple none "upload_save_file_part") : Nat × CbEntry),
   ((0x21e753bc, CbEntry.triple none "upload_web_file") : Nat × CbEntry),
   ((0x8f8c0e4e, CbEntry.triple none "url_auth_result_accepted") : Nat × CbEntry),
   ((0xa9d6db1f, CbEntry.triple none "url_auth_result_default") : Nat × CbEntry),
   ((0x92d33a0e, CbEntry.triple none "url_auth_result_request") : Nat × CbEntry),
   ((0x938458c1, CbEntry.triple (some "user_struct") "user") : Nat × CbEntry),
   ((0xf2fb8319, CbEntry.triple (some "user_contact_old_struct") "user_contact_old") : Nat × CbEntry),
   ((0xcab35e18, CbEntry.triple (some "user_contact_old2_struct") "user_contact_old2") : Nat × CbEntry),
   ((0xb29ad7cc, CbEntry.triple (some "user_deleted_old_struct") "user_deleted_old") : Nat × CbEntry),
   ((0xd6016d7a, CbEntry.triple (some "user_deleted_old2_struct") "user_deleted_old2") : Nat × CbEntry),
   ((0x200250ba, CbEntry.triple (some "user_empty_struct") "user_empty") : Nat × CbEntry),
   ((0x5214c89d, CbEntry.triple (some "user_foreign_old_struct") "user_foreign_old") : Nat × CbEntry),
   ((0x75cf7a8, CbEntry.triple (some "user_foreign_old2_struct") "user_foreign_old2") : Nat × CbEntry),
   ((0xedf17c12, CbEntry.triple (some "user_full_struct") "user_full") : Nat × CbEntry),
   ((0x745559cc, CbEntry.triple (some "user_full_layer101_struct") "user_full_layer101") : Nat × CbEntry),
   ((0x8ea4a881, CbEntry.triple (some "user_full_layer98_struct") "user_full_layer98") : Nat × CbEntry),
   ((0x771095da, CbEntry.pair none "user_full_v_0_1_317") : Nat × CbEntry),
   ((0x2e13f4c3, CbEntry.triple (some "user_layer104_struct") "user_layer104") : Nat × CbEntry),
   ((0xd10d979a, CbEntry.triple (some "user_layer65_struct") "user_layer65") : Nat × CbEntry),
   ((0x69d3ab26, CbEntry.triple (some "user_profile_photo_struct") "user_profile_photo") : Nat × CbEntry),
   ((0x4f11bae1, CbEntry.triple (some "user_profile_photo_empty_struct") "user_profile_photo_empty") : Nat × CbEntry),
   ((0xd559d8c8, CbEntry.triple (some "user_profile_photo_layer97_struct") "user_profile_photo_layer97") : Nat × CbEntry),
   ((0xecd75d8c, CbEntry.triple (some "user_profile_photo_layer115_struct") "user_profile_photo_layer115") : Nat × CbEntry),
   ((0x990d1493, CbEntry.triple (some "user_profile_photo_old_struct") "user_profile_photo_old") : Nat × CbEntry),
   ((0x22e8ceb0, CbEntry.triple (some "user_request_old_struct") "user_request_old") : Nat × CbEntry),
   ((0xd9ccc4ef, CbEntry.triple (some "user_request_old2_struct") "user_request_old2") : Nat × CbEntry),
   ((0x720535ec, CbEntry.triple (some "user_self_old_struct") "user_self_old") : Nat × CbEntry),
   ((0x7007b451, CbEntry.triple (some "user_self_old2_struct") "user_self_old2") : Nat × CbEntry),
   ((0x1c60e608, CbEntry.triple (some "user_self_old3_struct") "user_self_old3") : Nat × CbEntry),
   ((0x9d05049, CbEntry.triple (some "user_status_empty_struct") "user_status_empty") : Nat × CbEntry),
   ((0x77ebc742, CbEntry.triple (some "user_status_last_month_struct") "user_status_last_month") : Nat × CbEntry),
   ((0x7bf09fc, CbEntry.triple (some "user_status_last_week_struct") "user_status_last_week") : Nat × CbEntry),
   ((0x8c703f, CbEntry.triple (some "user_status_offline_struct") "user_status_offline") : Nat × CbEntry),
   ((0xedb93949, CbEntry.triple (some "user_status_online_struct") "user_status_online") : Nat × CbEntry),
   ((0xe26f42f1, CbEntry.triple (some "user_status_recently_struct") "user_status_recently") : Nat × CbEntry),
   ((0x22e49072, CbEntry.triple (some "user_old_struct") "user_old") : Nat × CbEntry),
   ((0xca30a5b1, CbEntry.triple none "users_get_full_user") : Nat × CbEntry),
   ((0xd91a548, CbEntry.triple none "users_get_users") : Nat × CbEntry),
   ((0xc10658a8, CbEntry.triple (some "video_empty_layer45_struct") "video_empty_layer45") : Nat × CbEntry),
   ((0x55555553, CbEntry.triple (some "video_encrypted_struct") "video_encrypted") : Nat × CbEntry),
   ((0xf72887d3, CbEntry.triple (some "video_layer45_struct") "video_layer45") : Nat × CbEntry),
   ((0x5a04a49f, CbEntry.triple (some "video_old_struct") "video_old") : Nat × CbEntry),
   ((0x388fa391, CbEntry.triple (some "video_old2_struct") "video_old2") : Nat × CbEntry),
   ((0xee9f4a4d, CbEntry.triple (some "video_old3_struct") "video_old3") : Nat × CbEntry),
   ((0xe831c556, CbEntry.triple (some "video_size_struct") "video_size") : Nat × CbEntry),
   ((0x435bb987, CbEntry.triple (some "video_size_layer115_struct") "video_size_layer115") : Nat × CbEntry),
   ((0xa437c3ed, CbEntry.triple (some "wall_paper_struct") "wall_paper") : Nat × CbEntry),
   ((0xf04f91ec, CbEntry.triple (some "wall_paper_layer94_struct") "wall_paper_layer94") : Nat × CbEntry),
   ((0x8af40b25, CbEntry.triple (some "wall_paper_no_file_struct") "wall_paper_no_file") : Nat × CbEntry),
   ((0x5086cf8, CbEntry.triple (some "wall_paper_settings_struct") "wall_paper_settings") : Nat × CbEntry),
   ((0xa12f40b8, CbEntry.triple (some "wall_paper_settings_layer106_struct") "wall_paper_settings_layer106") : Nat × CbEntry),
   ((0x63117f24, CbEntry.pair none "wall_paper_solid_v_0_1_317") : Nat × CbEntry),
   ((0xccb03657, CbEntry.pair none "wall_paper_v_0_1_317") : Nat × CbEntry),
   ((0xb57f346, CbEntry.triple none "wallet_get_key_secret_salt") : Nat × CbEntry),
   ((0x764386d7, CbEntry.triple none "wallet_lite_response") : Nat × CbEntry),
   ((0xdd484d64, CbEntry.triple none "wallet_secret_salt") : Nat × CbEntry),
   ((0xe2c9d33e, CbEntry.triple none "wallet_send_lite_request") : Nat × CbEntry),
   ((0xcac943f2, CbEntry.triple none "web_authorization") : Nat × CbEntry),
   ((0x1c570ed1, CbEntry.triple (some "web_document_struct") "web_document") : Nat × CbEntry),
   ((0xf9c8bcc6, CbEntry.triple (some "web_document_no_proxy_struct") "web_document_no_proxy") : Nat × CbEntry),
   ((0xc61acbd8, CbEntry.triple (some "web_document_layer81_struct") "web_document_layer81") : Nat × CbEntry),
   ((0xe89c45b2, CbEntry.triple (some "web_page_struct") "web_page") : Nat × CbEntry),
   ((0x54b56617, CbEntry.triple (some "web_page_attribute_theme_struct") "web_page_attribute_theme") : Nat × CbEntry),
   ((0xeb1477e8, CbEntry.triple (some "web_page_empty_struct") "web_page_empty") : Nat × CbEntry),
   ((0x5f07b4bc, CbEntry.triple (some "web_page_layer104_struct") "web_page_layer104") : Nat × CbEntry),
   ((0xfa64e172, CbEntry.triple (some "web_page_layer107_struct") "web_page_layer107") : Nat × CbEntry),
   ((0xca820ed7, CbEntry.triple (some "web_page_layer58_struct") "web_page_layer58") : Nat × CbEntry),
   ((0x7311ca11, CbEntry.triple (some "web_page_not_modified_struct") "web_page_not_modified") : Nat × CbEntry),
   ((0x85849473, CbEntry.triple (some "web_page_not_modified_layer110_struct") "web_page_not_modified_layer110") : Nat × CbEntry),
   ((0xc586da1c, CbEntry.triple (some "web_page_pending_struct") "web_page_pending") : Nat × CbEntry),
   ((0xd41a5167, CbEntry.triple (some "web_page_url_pending_struct") "web_page_url_pending") : Nat × CbEntry),
   ((0xa31ea0b5, CbEntry.triple (some "web_page_old_struct") "web_page_old") : Nat × CbEntry),
   ((0x1cb5c415, CbEntry.triple none "_vector") : Nat × CbEntry),
   ((0x3ff6ecb0, CbEntry.triple (some "user_struct") "user") : Nat × CbEntry)]

/-- The interpretation of the decoder methods stored in `tdss_callbacks`:
maps a stored method's name to the embedded parser (`blob_parser(self)`
applied to a fresh stream). Only the decoders this development embeds are
interpreted; all others map to the `notModelled` marker, and no theorem
depends on their behaviour. -/
def tdssInterp (decoder : String) : ParserV :=
  if decoder = "chat_empty_struct" then chat_empty_struct
  else if decoder = "user_struct" then user_struct
  else if decoder = "user_empty_struct" then user_empty_struct
  else if decoder = "bot_info_struct" then bot_info_struct
  else fun _ => .error .notModelled

/-- `getattr(pblob, "UNPARSED", None)`: container field access with a
default. -/
def getattrField (v : Val) (key : String) : Option Val :=
  match v with
  | .vrec fs => ctxGet fs key
  | _ => none

/-- `tblob.parse_blob(data)`.

`interp` stands for the method suite reached through `self` (the decoder
functions stored in the table); `callbacks` is `self.callbacks` (the
`__init__`-built copy of `tdss_callbacks`, guarded by `assert
self._callbacks`). Returns either the escaping Python exception or the
returned blob (possibly `None`) together with the logger diagnostics
emitted, in order:

* leading 4 little-endian bytes give the signature;
* a table miss logs `unknown signature` and returns `None`;
* a 2-tuple entry raises `ValueError` at `blob_parser, name, beautify = …`;
* a `None` decoder logs `blob not supported` and returns `None`;
* otherwise the decoder runs (its exceptions propagate); a truthy
  non-empty `UNPARSED` field logs a warning; a consumed-bytes/input-length
  mismatch logs an error naming both counts and the missed bytes, and the
  decoded blob is returned regardless. -/
def parse_blob (interp : String → ParserV) (callbacks : List (Nat × CbEntry))
    (data : Bytes) : Except PErr (Option Val × List Diag) :=
  if callbacks.isEmpty then .error .assertionError else
  match callbacks.lookup (le32 (data.take 4)) with
  | some (.pair _ _) => .error .valueError
  | some (.triple (some decoder) name) =>
    match interp decoder ⟨data, 0⟩ with
    | .error e => .error e
    | .ok (pblob, st') =>
      let signature := le32 (data.take 4)
      let unparsedDiags :=
        match getattrField pblob "UNPARSED" with
        | some u =>
          if valTruthy u then
            if valLen u ≠ 0 then [Diag.unparsedWarning name signature (valLen u)]
            else []
          else []
        | none => []
      let trailingDiags :=
        if data.length ≠ st'.pos then
          [Diag.trailingError name signature data.length st'.pos (data.drop st'.pos)]
        else []
      .ok (some pblob, unparsedDiags ++ trailingDiags)
  | some (.triple none name) =>
    .ok (none, [Diag.unsupportedWarning name (le32 (data.take 4))])
  | none => .ok (none, [Diag.unknownSigError (le32 (data.take 4))])

/-- The mutable state of a `tblob` instance: the `self._callbacks`
dictionary built once by `__init__`. -/
structure TblobState where
  callbacks : List (Nat × CbEntry)
  deriving Repr, DecidableEq

/-- `tblob.__init__`: build `self._callbacks` by copying `tdss_callbacks`
entry by entry. -/
def tblob_init : TblobState := ⟨tdss_callbacks⟩

/-- `parse_blob` as a state transformer on the `tblob` instance: the method
only ever reads `self.callbacks` and assigns no attribute, so the
translation returns the instance state unchanged alongside the result. -/
def parse_blob_st (interp : String → ParserV) (st : TblobState) (data : Bytes) :
    (Except PErr (Option Val × List Diag)) × TblobState :=
  (parse_blob interp st.callbacks data, st)

/-- The concrete 8-byte chat_empty blob of scenario A: signature
`0x9BA2D800` then little-endian id 7. -/
def chatEmptyBlob : Bytes := le4 0x9BA2D800 ++ le4 7

/-- The chat_empty record that scenario A decodes to. -/
def chatEmptyRec : Val :=
  .vrec [("sname", .vstr "chat_empty"), ("signature", .vint 0x9BA2D800),
    ("id", .vint 7), ("title", .vstr "DELETED")]

/-- A bot_info blob whose vector marker bytes are corrupted (`01 02 03 04`
instead of the marker): signature, user_id 5, empty description, bad
marker. -/
def botInfoBlobBad : Bytes := le4 0x98E81D3A ++ le4 5 ++ [0, 0, 0, 0] ++ [1, 2, 3, 4]

/-- A well-formed bot_info blob: signature, user_id 5, empty description,
vector marker, count 2, and two empty bot_command elements. -/
def botInfoBlobGood : Bytes :=
  le4 0x98E81D3A ++ le4 5 ++ [0, 0, 0, 0] ++ le4 0x1CB5C415 ++ le4 2 ++
    (le4 0xC27AC8C7 ++ [0, 0, 0, 0] ++ [0, 0, 0, 0]) ++
    (le4 0xC27AC8C7 ++ [0, 0, 0, 0] ++ [0, 0, 0, 0])

/-- The decoded header context of `botInfoBlobBad`/`botInfoBlobGood`. -/
def botInfoHeaderCtx : Ctx :=
  [("sname", .vstr "bot_info"), ("signature", .vint 0x98E81D3A),
   ("user_id", .vint 5),
   ("description", .vrec [("_sname", .vstr "tstring"), ("_check", .vint 0),
     ("_pl", .vint 0), ("_len", .vint 0), ("_value", .vbytes []),
     ("string", .vstr "")])]

/-- The decoded record of an empty TL string. -/
def emptyTstringRec : Val :=
  .vrec [("_sname", .vstr "tstring"), ("_check", .vint 0), ("_pl", .vint 0),
    ("_len", .vint 0), ("_value", .vbytes []), ("string", .vstr "")]

/-- The decoded record of an empty bot_command. -/
def emptyBotCommandRec : Val :=
  .vrec [("sname", .vstr "bot_command"), ("signature", .vint 0xC27AC8C7),
    ("command", emptyTstringRec), ("description", emptyTstringRec)]

/-- The record `botInfoBlobGood` decodes to. -/
def botInfoGoodRec : Val :=
  .vrec [("sname", .vstr "bot_info"), ("signature", .vint 0x98E81D3A),
    ("user_id", .vint 5), ("description", emptyTstringRec),
    ("_vector_sig", .vint 0x1CB5C415), ("bot_commands_num", .vint 2),
    ("bot_commands_array", .vlist [emptyBotCommandRec, emptyBotCommandRec])]

/-- The short-form TL-string encoding of a byte payload: the 1-byte length,
the payload, and the alignment padding (zeros). -/
def shortTL (raw : Bytes) : Bytes :=
  raw.length :: raw ++ List.replicate ((4 - (raw.length + 1) % 4) % 4) 0

/-! ## General lemmas about the combinator semantics -/

/-- `takeExact` succeeds on a list at least as long as requested, returning
the prefix. -/
theorem takeExact_append (l r : Bytes) : takeExact l.length (l ++ r) = some l := by
  induction l with
  | nil => rfl
  | cons b rest ih => simp [takeExact, ih]

/-- A successful `takeExact` returns exactly the requested number of bytes. -/
theorem takeExact_length {n : Nat} {l bs : Bytes} (h : takeExact n l = some bs) :
    bs.length = n := by
  induction n generalizing l bs with
  | zero => simp [takeExact] at h; simp [← h]
  | succ k ih =>
    match l with
    | [] => simp [takeExact] at h
    | b :: rest =>
      simp only [takeExact, Option.map_eq_some'] at h
      obtain ⟨bs', h1, h2⟩ := h
      simp [← h2, ih h1]

/-- `structGo` over a concatenated field list runs the two halves in
sequence. -/
theorem structGo_append (l₁ l₂ : List (Option String × FieldP)) (ctx : Ctx) (st : PState) :
    structGo (l₁ ++ l₂) ctx st =
      match structGo l₁ ctx st with
      | .error e => .error e
      | .ok (ctx', st') => structGo l₂ ctx' st' := by
  induction l₁ generalizing ctx st with
  | nil => simp [structGo]
  | cons f rest ih =>
    obtain ⟨name?, fp⟩ := f
    simp only [List.cons_append, structGo]
    cases fp ctx st with
    | error e => rfl
    | ok out =>
      obtain ⟨v, st'⟩ := out
      cases name? <;> simp [ih]

/-- A successful `arrayGo` produces exactly the requested number of
elements. -/
theorem arrayGo_length (sub : ParserV) :
    ∀ (n : Nat) (st : PState) (vs : List Val) (st' : PState),
      arrayGo sub n st = .ok (vs, st') → vs.length = n := by
  intro n
  induction n with
  | zero => intro st vs st' h; simp [arrayGo] at h; simp [← h.1]
  | succ k ih =>
    intro st vs st' h
    simp only [arrayGo] at h
    split at h
    · simp at h
    · split at h
      · simp at h
      · rename_i h2
        simp only [Except.ok.injEq, Prod.mk.injEq] at h
        obtain ⟨h3, _⟩ := h
        simp [← h3]
        exact ih _ _ _ h2

/-! ## Claim theorems -/

/-- **C8.** `parse_blob` is deterministic and leaves the instance's
callbacks dictionary unchanged: running the method a second time, on the
instance state the first run returned, yields a structurally identical
result, and the state after a run is the state before it. The translated
method body only reads `self.callbacks` and assigns nothing, so both facts
hold definitionally for every decoder interpretation, every instance state
and every input blob. -/
theorem parse_blob_deterministic (interp : String → ParserV) (st : TblobState) (data : Bytes) :
    (parse_blob_st interp st data).1 =
        (parse_blob_st interp (parse_blob_st interp st data).2 data).1 ∧
      (parse_blob_st interp st data).2 = st :=
  ⟨rfl, rfl⟩

/-- `parse_blob` branch characterization: a nonempty table and a lookup
hitting a 2-tuple entry raise `ValueError` (the three-name unpacking). -/
theorem parse_blob_pair_branch (interp : String → ParserV)
    (callbacks : List (Nat × CbEntry)) (data : Bytes) (d : Option String) (name : String)
    (hne : callbacks.isEmpty = false)
    (hlook : callbacks.lookup (le32 (data.take 4)) = some (.pair d name)) :
    parse_blob interp callbacks data = .error .valueError := by
  unfold parse_blob
  rw [hlook, hne]
  rfl

/-- `parse_blob` branch characterization: a lookup hitting a 3-tuple entry
with a `None` decoder warns and returns no record. -/
theorem parse_blob_none_branch (interp : String → ParserV)
    (callbacks : List (Nat × CbEntry)) (data : Bytes) (name : String)
    (hne : callbacks.isEmpty = false)
    (hlook : callbacks.lookup (le32 (data.take 4)) = some (.triple none name)) :
    parse_blob interp callbacks data =
      .ok (none, [.unsupportedWarning name (le32 (data.take 4))]) := by
  unfold parse_blob
  rw [hlook, hne]
  rfl

/-- `parse_blob` branch characterization: a lookup missing the table
entirely logs `unknown signature` and returns no record. -/
theorem parse_blob_miss_branch (interp : String → ParserV)
    (callbacks : List (Nat × CbEntry)) (data : Bytes)
    (hne : callbacks.isEmpty = false)
    (hlook : callbacks.lookup (le32 (data.take 4)) = none) :
    parse_blob interp callbacks data =
      .ok (none, [.unknownSigError (le32 (data.take 4))]) := by
  unfold parse_blob
  rw [hlook, hne]
  rfl

/-- `parse_blob` branch characterization: a decoder that raises propagates
its exception. -/
theorem parse_blob_decoder_raises (interp : String → ParserV)
    (callbacks : List (Nat × CbEntry)) (data : Bytes) (decoder name : String) (e : PErr)
    (hne : callbacks.isEmpty = false)
    (hlook : callbacks.lookup (le32 (data.take 4)) = some (.triple (some decoder) name))
    (hrun : interp decoder ⟨data, 0⟩ = .error e) :
    parse_blob interp callbacks data = .error e := by
  unfold parse_blob
  rw [hlook, hne]
  dsimp only
  rw [hrun]
  rfl

/-- `parse_blob` branch characterization: a decoder that returns a blob
yields that blob together with the unparsed-field warning and the
trailing-bytes error as dictated by the blob and the consumed count. -/
theorem parse_blob_decoder_ok (interp : String → ParserV)
    (callbacks : List (Nat × CbEntry)) (data : Bytes) (decoder name : String)
    (rec : Val) (st' : PState)
    (hne : callbacks.isEmpty = false)
    (hlook : callbacks.lookup (le32 (data.take 4)) = some (.triple (some decoder) name))
    (hrun : interp decoder ⟨data, 0⟩ = .ok (rec, st')) :
    parse_blob interp callbacks data =
      .ok (some rec,
        (match getattrField rec "UNPARSED" with
         | some u =>
           if valTruthy u then
             if valLen u ≠ 0 then [Diag.unparsedWarning name (le32 (data.take 4)) (valLen u)]
             else []
           else []
         | none => []) ++
        (if data.length ≠ st'.pos then
          [Diag.trailingError name (le32 (data.take 4)) data.length st'.pos (data.drop st'.pos)]
         else [])) := by
  unfold parse_blob
  rw [hlook, hne]
  dsimp only
  rw [hrun]
  rfl

/-- The real table is nonempty (`assert self._callbacks` passes). -/
theorem tdss_callbacks_ne : tdss_callbacks.isEmpty = false := by rfl

set_option maxRecDepth 40000 in
/-- The table entry for signature `0x9BA2D800` is
`(chat_empty_struct, "chat_empty", None)`. -/
theorem tdss_lookup_chat_empty :
    tdss_callbacks.lookup 0x9BA2D800 = some (.triple (some "chat_empty_struct") "chat_empty") := by
  rfl

set_option maxRecDepth 40000 in
/-- The table entry for signature `0x3FF6ECB0` is `(user_struct, "user",
None)`. -/
theorem tdss_lookup_user :
    tdss_callbacks.lookup 0x3FF6ECB0 = some (.triple (some "user_struct") "user") := by
  rfl

set_option maxRecDepth 40000 in
/-- The table entry for signature `0xC04CFAC2` is the 2-tuple
`(None, "account_get_wall_papers_v_0_1_317")`. -/
theorem tdss_lookup_wall_papers :
    tdss_callbacks.lookup 0xC04CFAC2 = some (.pair none "account_get_wall_papers_v_0_1_317") := by
  rfl

/-- **C9.** The blob `signature 0x9BA2D800 ++ uint32le 7` decodes (both via
`chat_empty_struct` directly and via `parse_blob` over the real callbacks
table) to a `chat_empty` record with `id = 7` and computed
`title = "DELETED"`, consuming exactly 8 of its 8 bytes, with no
diagnostics (hence no trailing-byte mismatch). -/
theorem chat_empty_scenario :
    chat_empty_struct ⟨chatEmptyBlob, 0⟩ = .ok (chatEmptyRec, ⟨chatEmptyBlob, 8⟩) ∧
      parse_blob tdssInterp tdss_callbacks chatEmptyBlob = .ok (some chatEmptyRec, []) := by
  refine ⟨rfl, ?_⟩
  rw [parse_blob_decoder_ok tdssInterp tdss_callbacks chatEmptyBlob
    "chat_empty_struct" "chat_empty" chatEmptyRec ⟨chatEmptyBlob, 8⟩ tdss_callbacks_ne
    (by rw [show le32 (chatEmptyBlob.take 4) = 0x9BA2D800 from rfl]; exact tdss_lookup_chat_empty)
    rfl]
  rfl

/-- **C10.** Every blob whose leading 4 bytes are the little-endian
signature `0x3FF6ECB0` makes `parse_blob` raise: the table dispatches that
signature to `user_struct`, whose first decoded field is
`Const(0x938458C1)`, and the constant check reads the very signature bytes
that selected the schema, so it always fails with `ConstError` — no record
is ever produced and no skip-with-diagnostic happens. -/
theorem parse_blob_user_sig_always_fails (rest : Bytes) :
    parse_blob tdssInterp tdss_callbacks (le4 0x3FF6ECB0 ++ rest) =
      .error (.constError 0x938458C1 0x3FF6ECB0) := by
  refine parse_blob_decoder_raises tdssInterp tdss_callbacks (le4 0x3FF6ECB0 ++ rest)
    "user_struct" "user" (.constError 0x938458C1 0x3FF6ECB0) tdss_callbacks_ne ?_ ?_
  · rw [show (le4 0x3FF6ECB0 ++ rest).take 4 = le4 0x3FF6ECB0 from rfl,
      show le32 (le4 0x3FF6ECB0) = 0x3FF6ECB0 from rfl]
    exact tdss_lookup_user
  · rw [show (le4 0x3FF6ECB0 ++ rest : Bytes) = 0xB0 :: 0xEC :: 0xF6 :: 0x3F :: rest from rfl]
    rfl

/-- **C1.** The claim fails on the code: signature `0xC04CFAC2`
(`account_get_wall_papers_v_0_1_317`) is present in the top-level table
with a `None` decoder, but its entry is a 2-tuple, so
`blob_parser, name, beautify = self.callbacks[signature]` raises
`ValueError` instead of warning and returning no record. -/
theorem parse_blob_none_decoder_raises :
    parse_blob tdssInterp tdss_callbacks (le4 0xC04CFAC2) = .error .valueError := by
  refine parse_blob_pair_branch tdssInterp tdss_callbacks (le4 0xC04CFAC2)
    none "account_get_wall_papers_v_0_1_317" tdss_callbacks_ne ?_
  rw [show le32 ((le4 0xC04CFAC2).take 4) = 0xC04CFAC2 from rfl]
  exact tdss_lookup_wall_papers

/-- For well-formed 3-tuple table entries the claimed behaviour does hold:
a `None` decoder yields a not-supported warning naming the object and no
record, for every decoder interpretation. (Not a claim theorem; it
complements the `ValueError` counterexample above.) -/
theorem parse_blob_unsupported_triple_warns (interp : String → ParserV)
    (data : Bytes) (name : String)
    (hlook : tdss_callbacks.lookup (le32 (data.take 4)) = some (.triple none name)) :
    parse_blob interp tdss_callbacks data =
      .ok (none, [.unsupportedWarning name (le32 (data.take 4))]) := by
  unfold parse_blob
  rw [hlook]
  rfl

/-- **C2, counterexample.** The claim says a slot decode whose peeked
signature is absent from the dispatch map fails with
`UnknownVariant(signature, slot)`. It does not: `user_structures` on the
bytes `01 02 03 04` (signature `0x04030201`, not a key of its tag map)
*succeeds*, yielding a container whose nested field is `None`, consuming no
bytes and raising nothing — `construct`'s `Switch` without a `default`
parses as `Pass`. -/
theorem user_structures_unknown_sig_silent :
    user_structures "user" ⟨[0x01, 0x02, 0x03, 0x04], 0⟩ =
      .ok (.vrec [("_signature", .vint 0x04030201), ("user", .vnone)],
        ⟨[0x01, 0x02, 0x03, 0x04], 0⟩) := by
  rfl

/-- **C2, amended.** For every input whose peeked 4-byte signature is not a
key of the user slot's dispatch map, `user_structures` silently proceeds:
it returns a record whose `_signature` is the peeked value and whose nested
field is `None`, consumes no bytes, and raises no error (so decoding the
enclosing object continues misaligned rather than failing with an
`UnknownVariant`-style error, which does not exist in the code). -/
theorem user_structures_unknown_sig (name : String) (st : PState) (bs : Bytes)
    (h4 : takeExact 4 (st.data.drop st.pos) = some bs)
    (habs : userTagMap.lookup (le32 bs) = none) :
    user_structures name st =
      .ok (.vrec [("_signature", .vint (le32 bs)), (name, .vnone)], st) := by
  unfold user_structures slotStructP structP structGo peekInt32F switchSigF readN
  rw [h4]
  simp [structGo, ctxGet, habs, Except.map]

/-- Witness for C2's amended theorem at the signature `0xDEADBEEF`. -/
theorem user_structures_unknown_sig_witness :
    takeExact 4 (PState.data ⟨[0xEF, 0xBE, 0xAD, 0xDE], 0⟩ |>.drop
        (PState.pos ⟨[0xEF, 0xBE, 0xAD, 0xDE], 0⟩)) = some [0xEF, 0xBE, 0xAD, 0xDE] ∧
      userTagMap.lookup (le32 [0xEF, 0xBE, 0xAD, 0xDE]) = none ∧
      user_structures "user" ⟨[0xEF, 0xBE, 0xAD, 0xDE], 0⟩ =
        .ok (.vrec [("_signature", .vint (le32 [0xEF, 0xBE, 0xAD, 0xDE])), ("user", .vnone)],
          ⟨[0xEF, 0xBE, 0xAD, 0xDE], 0⟩) :=
  ⟨rfl, rfl,
    user_structures_unknown_sig "user" ⟨[0xEF, 0xBE, 0xAD, 0xDE], 0⟩
      [0xEF, 0xBE, 0xAD, 0xDE] rfl rfl⟩

/-- The flag container produced by `message_layer104_2_struct`'s
`FlagsEnum` never contains a `from_id` entry, whatever the flags word. -/
theorem messageLayer104_2Flags_no_from_id (n : Nat) :
    ctxGet (messageLayer104_2Flags.map (fun (nm, m) => (nm, .vbool (n &&& m = m))))
      "from_id" = none := by
  rfl

/-- **C3.** The claim fails on the code for `message_layer104_2`: its
`FlagsEnum` declares neither `from_id` nor `is_edited`, yet the struct
gates fields on `this.flags.from_id` and `this.flags.is_edited`, so
decoding *always* raises a `KeyError`/`AttributeError` at the `from_id`
field — for every flags word `f`, every id `i`, every remaining payload,
and every interpretation of the nested slot parsers. The flag-gated fields
are never decoded at all, so presence cannot match the flag bits. -/
theorem message_layer104_2_always_raises
    (p₁ p₂ p₃ p₄ p₅ p₆ : ParserV) (f i : Nat) (rest : Bytes) :
    message_layer104_2_struct p₁ p₂ p₃ p₄ p₅ p₆
        ⟨le4 0x1C9B1027 ++ le4 f ++ le4 i ++ rest, 0⟩ =
      .error (.keyError "from_id") := by
  rw [show (le4 0x1C9B1027 ++ le4 f ++ le4 i ++ rest : Bytes) =
    0x27 :: 0x10 :: 0x9B :: 0x1C :: (le4 f ++ le4 i ++ rest) from rfl]
  rfl

/-- **C5.** If the top-level schema decodes successfully, the decoded
record has no `UNPARSED` tail field, and the consumed byte count differs
from the input length, then `parse_blob` logs an error carrying the input
length, the parsed length and the trailing bytes themselves — and still
returns the decoded record. Holds for every decoder interpretation and
every entry of the real callbacks table. -/
theorem parse_blob_trailing_reported (interp : String → ParserV) (data : Bytes)
    (decoder name : String) (rec : Val) (st' : PState)
    (hlook : tdss_callbacks.lookup (le32 (data.take 4)) = some (.triple (some decoder) name))
    (hrun : interp decoder ⟨data, 0⟩ = .ok (rec, st'))
    (hun : getattrField rec "UNPARSED" = none)
    (hne : data.length ≠ st'.pos) :
    parse_blob interp tdss_callbacks data =
      .ok (some rec,
        [.trailingError name (le32 (data.take 4)) data.length st'.pos (data.drop st'.pos)]) := by
  rw [parse_blob_decoder_ok interp tdss_callbacks data decoder name rec st'
    tdss_callbacks_ne hlook hrun, hun]
  simp [hne]

/-- Witness for C5: the 8-byte chat_empty blob with 4 junk bytes appended
decodes, has no `UNPARSED` field, consumes 8 of 12 bytes, and `parse_blob`
reports the 4 missed bytes while still returning the record. -/
theorem parse_blob_trailing_reported_witness :
    tdss_callbacks.lookup (le32 ((chatEmptyBlob ++ [9, 9, 9, 9]).take 4)) =
        some (.triple (some "chat_empty_struct") "chat_empty") ∧
      tdssInterp "chat_empty_struct" ⟨chatEmptyBlob ++ [9, 9, 9, 9], 0⟩ =
        .ok (chatEmptyRec, ⟨chatEmptyBlob ++ [9, 9, 9, 9], 8⟩) ∧
      getattrField chatEmptyRec "UNPARSED" = none ∧
      (chatEmptyBlob ++ [9, 9, 9, 9]).length ≠ 8 ∧
      parse_blob tdssInterp tdss_callbacks (chatEmptyBlob ++ [9, 9, 9, 9]) =
        .ok (some chatEmptyRec,
          [.trailingError "chat_empty" (le32 ((chatEmptyBlob ++ [9, 9, 9, 9]).take 4))
            12 8 ((chatEmptyBlob ++ [9, 9, 9, 9]).drop 8)]) := by
  have hl : tdss_callbacks.lookup (le32 ((chatEmptyBlob ++ [9, 9, 9, 9]).take 4)) =
      some (.triple (some "chat_empty_struct") "chat_empty") := by
    have hsig : le32 ((chatEmptyBlob ++ [9, 9, 9, 9]).take 4) = 0x9BA2D800 := by decide
    rw [hsig]
    exact tdss_lookup_chat_empty
  refine ⟨hl, rfl, rfl, by decide, ?_⟩
  exact parse_blob_trailing_reported tdssInterp (chatEmptyBlob ++ [9, 9, 9, 9])
    "chat_empty_struct" "chat_empty" chatEmptyRec ⟨chatEmptyBlob ++ [9, 9, 9, 9], 8⟩
    hl rfl rfl (by decide)

/-- Inversion of the `bot_info` header fields: a successful decode of the
fields before the vector yields a context with exactly the four declared
names. -/
theorem botInfoFieldsA_shape (st : PState) (ctx₁ : Ctx) (st₁ : PState)
    (h : structGo botInfoFieldsA [] st = .ok (ctx₁, st₁)) :
    ∃ v₂ v₃ v₄, ctx₁ = [("sname", Val.vstr "bot_info"), ("signature", v₂),
      ("user_id", v₃), ("description", v₄)] := by
  simp only [botInfoFieldsA, structGo, computedStrF, constF, int32ulF, fieldOf] at h
  split at h
  · simp at h
  · split at h
    · simp at h
    · split at h
      · simp at h
      · simp only [Except.ok.injEq, Prod.mk.injEq] at h
        exact ⟨_, _, _, h.1.symm⟩

/-- **C6.** Vector-marker enforcement in `bot_info_struct`: whenever the
header fields decode and the 4 bytes at the vector position are not the
marker `0x1CB5C415`, the whole decode fails with the marker's `ConstError`
(or with `StreamError` when fewer than 4 bytes remain); it never proceeds
past a corrupted marker. And whenever `bot_info_struct` succeeds, the
decoded record holds a `bot_commands_num` count `n` and a
`bot_commands_array` with exactly `n` decoded elements. -/
theorem bot_info_vector_enforced :
    (∀ st ctx₁ st₁ bs st₂, structGo botInfoFieldsA [] st = .ok (ctx₁, st₁) →
       readN 4 st₁ = some (bs, st₂) → le32 bs ≠ 0x1CB5C415 →
       bot_info_struct st = .error (.constError 0x1CB5C415 (le32 bs))) ∧
    (∀ st ctx₁ st₁, structGo botInfoFieldsA [] st = .ok (ctx₁, st₁) →
       readN 4 st₁ = none → bot_info_struct st = .error .streamError) ∧
    (∀ st v st', bot_info_struct st = .ok (v, st') →
       ∃ n arr, getattrField v "bot_commands_num" = some (.vint n) ∧
         getattrField v "bot_commands_array" = some (.vlist arr) ∧ arr.length = n) := by
  refine ⟨?_, ?_, ?_⟩
  · intro st ctx₁ st₁ bs st₂ hA hread hne
    unfold bot_info_struct structP
    rw [structGo_append, hA]
    simp only [botInfoFieldsB, structGo, constF]
    rw [hread]
    simp [hne, Except.map]
  · intro st ctx₁ st₁ hA hread
    unfold bot_info_struct structP
    rw [structGo_append, hA]
    simp only [botInfoFieldsB, structGo, constF]
    rw [hread]
    rfl
  · intro st v st' h
    unfold bot_info_struct structP at h
    cases hSG : structGo (botInfoFieldsA ++ botInfoFieldsB) [] st with
    | error e => rw [hSG] at h; simp [Except.map] at h
    | ok out =>
      obtain ⟨ctx, stF⟩ := out
      rw [hSG] at h
      simp only [Except.map, Except.ok.injEq, Prod.mk.injEq] at h
      obtain ⟨hv, hst⟩ := h
      rw [structGo_append] at hSG
      cases hA : structGo botInfoFieldsA [] st with
      | error e => rw [hA] at hSG; simp at hSG
      | ok outA =>
        obtain ⟨ctx₁, st₁⟩ := outA
        rw [hA] at hSG
        obtain ⟨v₂, v₃, v₄, hctx₁⟩ := botInfoFieldsA_shape st ctx₁ st₁ hA
        dsimp only at hSG
        simp only [botInfoFieldsB, structGo, constF, int32ulF, arrayF] at hSG
        subst hctx₁
        split at hSG
        · simp at hSG
        · split at hSG
          · simp at hSG
          · rename_i hcount
            split at hcount
            · simp only [Except.ok.injEq, Prod.mk.injEq] at hcount
              obtain ⟨hveq, hsteq⟩ := hcount
              subst hveq
              subst hsteq
              simp only [ctxGet, List.cons_append, List.nil_append,
                String.reduceEq, reduceIte] at hSG
              cases harr : arrayGo bot_command_struct _ _ with
              | error e =>
                rw [harr] at hSG
                simp [Except.map] at hSG
              | ok outArr =>
                obtain ⟨vs, st₄⟩ := outArr
                rw [harr] at hSG
                simp only [Except.map, Except.ok.injEq, Prod.mk.injEq] at hSG
                obtain ⟨hctx, _⟩ := hSG
                refine ⟨_, _, ?_, ?_, arrayGo_length _ _ _ _ _ harr⟩
                · rw [← hv, ← hctx]
                  rfl
                · rw [← hv, ← hctx]
                  rfl
            · simp at hcount

/-- Witness for C6: on `botInfoBlobBad` the header decodes, the 4 bytes at
the vector position are `01 02 03 04` (not the marker), and the decode
fails with the marker's `ConstError`; on `botInfoBlobGood` the decode
succeeds and the record carries `bot_commands_num = 2` with exactly 2
decoded elements. -/
theorem bot_info_vector_enforced_witness :
    structGo botInfoFieldsA [] ⟨botInfoBlobBad, 0⟩ =
        .ok (botInfoHeaderCtx, ⟨botInfoBlobBad, 12⟩) ∧
      readN 4 ⟨botInfoBlobBad, 12⟩ = some ([1, 2, 3, 4], ⟨botInfoBlobBad, 16⟩) ∧
      le32 [1, 2, 3, 4] ≠ 0x1CB5C415 ∧
      bot_info_struct ⟨botInfoBlobBad, 0⟩ =
        .error (.constError 0x1CB5C415 (le32 [1, 2, 3, 4])) ∧
      bot_info_struct ⟨botInfoBlobGood, 0⟩ =
        .ok (botInfoGoodRec, ⟨botInfoBlobGood, 44⟩) ∧
      (∃ n arr, getattrField botInfoGoodRec "bot_commands_num" = some (.vint n) ∧
        getattrField botInfoGoodRec "bot_commands_array" = some (.vlist arr) ∧
        arr.length = n) := by
  refine ⟨rfl, rfl, by decide, ?_, rfl, ?_⟩
  · exact bot_info_vector_enforced.1 ⟨botInfoBlobBad, 0⟩ botInfoHeaderCtx
      ⟨botInfoBlobBad, 12⟩ [1, 2, 3, 4] ⟨botInfoBlobBad, 16⟩ rfl rfl (by decide)
  · exact bot_info_vector_enforced.2.2 ⟨botInfoBlobGood, 0⟩ botInfoGoodRec
      ⟨botInfoBlobGood, 44⟩ rfl

/-- A successful `takeExact` returns the `take` prefix. -/
theorem takeExact_some_take {n : Nat} {l bs : Bytes} (h : takeExact n l = some bs) :
    bs = l.take n := by
  induction n generalizing l bs with
  | zero => simp [takeExact] at h; simp [← h]
  | succ k ih =>
    match l with
    | [] => simp [takeExact] at h
    | b :: rest =>
      simp only [takeExact, Option.map_eq_some'] at h
      obtain ⟨bs', h1, h2⟩ := h
      simp [← h2, List.take_succ_cons, ih h1]

/-- `takeExact` of the padding length on padding-plus-rest returns the
padding. -/
theorem takeExact_replicate_append (k : Nat) (r : Bytes) :
    takeExact k (List.replicate k 0 ++ r) = some (List.replicate k 0) := by
  have h := takeExact_append (List.replicate k 0) r
  simpa using h

/-- Forward evaluation of the short TL-string form: for any payload of
length < 254 and any following bytes, `tstring_struct` succeeds, stores the
raw payload in `_value`, stores `decode_tstring`'s result in `string`, and
consumes exactly `1 + length + pad` bytes. -/
theorem tstring_short_form_eval (raw rest : Bytes) (hlen : raw.length < 254) :
    tstring_struct ⟨shortTL raw ++ rest, 0⟩ =
      .ok (.vrec [("_sname", .vstr "tstring"), ("_check", .vint raw.length),
        ("_pl", .vint raw.length), ("_len", .vint raw.length),
        ("_value", .vbytes raw), ("string", (decode_tstring raw).1)],
        ⟨shortTL raw ++ rest, 1 + raw.length + (4 - (raw.length + 1) % 4) % 4⟩) := by
  have hdata : shortTL raw ++ rest =
      raw.length :: (raw ++ (List.replicate ((4 - (raw.length + 1) % 4) % 4) 0 ++ rest)) := by
    simp [shortTL]
  have hread1 : readN 1 ⟨shortTL raw ++ rest, 0⟩ =
      some ([raw.length], ⟨shortTL raw ++ rest, 1⟩) := by
    rw [readN, hdata]
    rfl
  have hdrop1 : (shortTL raw ++ rest).drop 1 =
      raw ++ (List.replicate ((4 - (raw.length + 1) % 4) % 4) 0 ++ rest) := by
    rw [hdata]
    rfl
  have hreadraw : readN raw.length ⟨shortTL raw ++ rest, 1⟩ =
      some (raw, ⟨shortTL raw ++ rest, 1 + raw.length⟩) := by
    rw [readN, hdrop1, takeExact_append]
    rfl
  have hdropraw : (shortTL raw ++ rest).drop (1 + raw.length) =
      List.replicate ((4 - (raw.length + 1) % 4) % 4) 0 ++ rest := by
    rw [hdata, Nat.add_comm 1 raw.length, List.drop_succ_cons,
      show raw.length = raw.length from rfl]
    exact List.drop_left raw _
  simp only [tstring_struct, structP, tstringFields, structGo, computedStrF,
    peekByteF, ifCheckGe254F, byteF, computedCopyF, bytesLenF, decodeTstringF,
    tstringPadF, skipN, ctxGet, hread1, hreadraw, String.reduceEq, reduceIte,
    Nat.not_le.mpr hlen, if_false]
  by_cases hp : (raw.length + 1) % 4 = 0
  · have hk0 : (4 - (raw.length + 1) % 4) % 4 = 0 := by omega
    simp [hp, hk0, Except.map]
  · have hk : (4 - (raw.length + 1) % 4) % 4 = 4 - (raw.length + 1) % 4 := by omega
    simp only [hp, ne_eq, not_false_eq_true, if_true, reduceIte]
    rw [readN, hdropraw]
    simp only [hk]
    rw [takeExact_replicate_append]
    simp [Except.map]

/-- **C7.** UTF-8 recovery: when the raw bytes of a TL string are not
valid UTF-8, `decode_tstring` keeps the raw bytes as the value and records
the warning (never raising), and the enclosing `tstring_struct` decode
still succeeds — the `string` field holds the raw bytes, the padding is
consumed, and decoding continues. -/
theorem tstring_invalid_utf8_recovery :
    (∀ raw : Bytes, utf8Valid raw = false →
       decode_tstring raw = (.vbytes raw, [.stringDecodeWarning raw])) ∧
    (∀ raw rest : Bytes, raw.length < 254 → utf8Valid raw = false →
       tstring_struct ⟨shortTL raw ++ rest, 0⟩ =
         .ok (.vrec [("_sname", .vstr "tstring"), ("_check", .vint raw.length),
           ("_pl", .vint raw.length), ("_len", .vint raw.length),
           ("_value", .vbytes raw), ("string", .vbytes raw)],
           ⟨shortTL raw ++ rest, 1 + raw.length + (4 - (raw.length + 1) % 4) % 4⟩)) := by
  have hdec : ∀ raw : Bytes, utf8Valid raw = false →
      decode_tstring raw = (.vbytes raw, [.stringDecodeWarning raw]) := by
    intro raw hinv
    unfold decode_tstring
    cases hu : utf8Decode raw with
    | none => rfl
    | some cps => rw [utf8Valid, hu] at hinv; simp at hinv
  refine ⟨hdec, fun raw rest hlen hinv => ?_⟩
  rw [tstring_short_form_eval raw rest hlen, hdec raw hinv]

/-- Witness for C7 at the invalid-UTF-8 payload `[0xFF]`. -/
theorem tstring_invalid_utf8_recovery_witness :
    utf8Valid [0xFF] = false ∧ ([0xFF] : Bytes).length < 254 ∧
      decode_tstring [0xFF] = (.vbytes [0xFF], [.stringDecodeWarning [0xFF]]) ∧
      tstring_struct ⟨shortTL [0xFF] ++ [], 0⟩ =
        .ok (.vrec [("_sname", .vstr "tstring"), ("_check", .vint 1),
          ("_pl", .vint 1), ("_len", .vint 1),
          ("_value", .vbytes [0xFF]), ("string", .vbytes [0xFF])],
          ⟨shortTL [0xFF] ++ [], 1 + 1 + (4 - (1 + 1) % 4) % 4⟩) :=
  ⟨by decide, by decide, tstring_invalid_utf8_recovery.1 [0xFF] (by decide),
    tstring_invalid_utf8_recovery.2 [0xFF] [] (by decide) (by decide)⟩

/-- Inversion of a successful fixed-width read: the bytes are the `take`
prefix and the cursor advanced by exactly the width. -/
theorem readN_some_inv {n : Nat} {st : PState} {bs : Bytes} {st' : PState}
    (h : readN n st = some (bs, st')) :
    bs = (st.data.drop st.pos).take n ∧ st' = ⟨st.data, st.pos + n⟩ := by
  rw [readN] at h
  cases h4 : takeExact n (st.data.drop st.pos) with
  | none => rw [h4] at h; simp at h
  | some bs' =>
    rw [h4] at h
    simp only [Option.map_some', Option.some.injEq, Prod.mk.injEq] at h
    obtain ⟨h1, h2⟩ := h
    subst h1
    exact ⟨takeExact_some_take h4, h2.symm⟩

/-- **C4.** TL-string length-prefix correctness: whenever `tstring_struct`
decodes successfully and the peeked first byte is `b`, then for the short
form (`b < 254`) it consumed exactly `1 + b + (4 - (1 + b) % 4) % 4` bytes,
and for the long form (`b ≥ 254`) the length is the 4-byte little-endian
value at the current position shifted right by 8, and it consumed exactly
`4 + length + (4 - length % 4) % 4` bytes. -/
theorem tstring_consumed_exact (st : PState) (v : Val) (stF : PState) (b : Nat)
    (h : tstring_struct st = .ok (v, stF))
    (hb : (st.data.drop st.pos).head? = some b) :
    (b < 254 → stF.pos = st.pos + (1 + b + (4 - (1 + b) % 4) % 4)) ∧
    (254 ≤ b → stF.pos = st.pos + (4 + (le32 ((st.data.drop st.pos).take 4) >>> 8) +
      (4 - (le32 ((st.data.drop st.pos).take 4) >>> 8) % 4) % 4)) := by
  obtain ⟨t, ht⟩ : ∃ t, st.data.drop st.pos = b :: t := by
    cases hd : st.data.drop st.pos with
    | nil => rw [hd] at hb; simp at hb
    | cons x xs =>
      rw [hd] at hb
      simp only [List.head?_cons, Option.some.injEq] at hb
      exact ⟨xs, by rw [hb]⟩
  have hr1 : readN 1 st = some ([b], ⟨st.data, st.pos + 1⟩) := by
    rw [readN, ht]
    rfl
  simp only [tstring_struct, structP, tstringFields, structGo, computedStrF,
    peekByteF, ifCheckGe254F, byteF, int32ulF, computedShr8F, computedCopyF,
    bytesLenF, decodeTstringF, tstringPadF, skipN, ctxGet, hr1,
    String.reduceEq, reduceIte] at h
  by_cases hble : 254 ≤ b
  · refine ⟨fun hlt => absurd hble (by omega), fun _ => ?_⟩
    simp only [hble, if_true] at h
    split at h
    case _ => simp [Except.map] at h
    case _ =>
      rename_i v1 st1 heq1
      split at heq1
      case _ =>
        rename_i bs st2 hr4
        simp only [Except.ok.injEq, Prod.mk.injEq] at heq1
        obtain ⟨hv1, hst1⟩ := heq1
        subst hv1
        subst hst1
        obtain ⟨hbs, hst2⟩ := readN_some_inv hr4
        subst hst2
        subst hbs
        dsimp only at h
        split at h
        case _ => simp [Except.map] at h
        case _ =>
          rename_i v2 st2 heq2
          split at heq2
          case _ =>
            rename_i bs2 st3 hrv
            simp only [Except.ok.injEq, Prod.mk.injEq] at heq2
            obtain ⟨hv2, hst2⟩ := heq2
            subst hv2
            subst hst2
            obtain ⟨hbs2, hst3⟩ := readN_some_inv hrv
            subst hst3
            dsimp only at h
            by_cases hp : le32 ((st.data.drop st.pos).take 4) >>> 8 % 4 = 0
            · rw [if_neg (by omega)] at h
              simp only [Except.map, Except.ok.injEq, Prod.mk.injEq] at h
              rw [← h.2]
              dsimp only
              omega
            · rw [if_pos (by omega)] at h
              split at h
              case _ => simp [Except.map] at h
              case _ =>
                rename_i v3 st3' heq3
                split at heq3
                case _ =>
                  rename_i bs3 st4 hrp
                  simp only [Except.ok.injEq, Prod.mk.injEq] at heq3
                  obtain ⟨hv3, hst3'⟩ := heq3
                  subst hv3
                  subst hst3'
                  obtain ⟨hbs3, hst4⟩ := readN_some_inv hrp
                  subst hst4
                  simp only [Except.map, Except.ok.injEq, Prod.mk.injEq] at h
                  rw [← h.2]
                  dsimp only
                  omega
                case _ => simp at heq3
          case _ => simp at heq2
      case _ => simp at heq1
  · refine ⟨fun _ => ?_, fun hge => absurd hge hble⟩
    simp only [if_neg hble] at h
    split at h
    case _ => simp [Except.map] at h
    case _ =>
      rename_i v2 st2 heq2
      split at heq2
      case _ =>
        rename_i bs2 st3 hrv
        simp only [Except.ok.injEq, Prod.mk.injEq] at heq2
        obtain ⟨hv2, hst2⟩ := heq2
        subst hv2
        subst hst2
        obtain ⟨hbs2, hst3⟩ := readN_some_inv hrv
        subst hst3
        dsimp only at h
        by_cases hp : (b + 1) % 4 = 0
        · rw [if_neg (by omega)] at h
          simp only [Except.map, Except.ok.injEq, Prod.mk.injEq] at h
          rw [← h.2]
          dsimp only
          omega
        · rw [if_pos (by omega)] at h
          split at h
          case _ => simp [Except.map] at h
          case _ =>
            rename_i v3 st3' heq3
            split at heq3
            case _ =>
              rename_i bs3 st4 hrp
              simp only [Except.ok.injEq, Prod.mk.injEq] at heq3
              obtain ⟨hv3, hst3'⟩ := heq3
              subst hv3
              subst hst3'
              obtain ⟨hbs3, hst4⟩ := readN_some_inv hrp
              subst hst4
              simp only [Except.map, Except.ok.injEq, Prod.mk.injEq] at h
              rw [← h.2]
              dsimp only
              omega
            case _ => simp at heq3
      case _ => simp at heq2

/-- Witness for C4: the scenario-C string `"hello"` (peek byte 5, short
form) consumes exactly `1 + 5 + 2 = 8` bytes. -/
theorem tstring_consumed_exact_witness :
    tstring_struct ⟨[5, 104, 101, 108, 108, 111, 0, 0], 0⟩ =
        .ok (.vrec [("_sname", .vstr "tstring"), ("_check", .vint 5),
          ("_pl", .vint 5), ("_len", .vint 5),
          ("_value", .vbytes [104, 101, 108, 108, 111]), ("string", .vstr "hello")],
          ⟨[5, 104, 101, 108, 108, 111, 0, 0], 8⟩) ∧
      (([5, 104, 101, 108, 108, 111, 0, 0] : Bytes).drop 0).head? = some 5 ∧
      (5 < 254 →
        (8 : Nat) = 0 + (1 + 5 + (4 - (1 + 5) % 4) % 4)) :=
  ⟨rfl, rfl, fun hlt =>
    (tstring_consumed_exact ⟨[5, 104, 101, 108, 108, 111, 0, 0], 0⟩ _
      ⟨[5, 104, 101, 108, 108, 111, 0, 0], 8⟩ 5 rfl rfl).1 hlt⟩

end Teleparser
